import Mathlib

/-!
Smart energy dashboard: data client, poll fallback and orchestrator.

A shallow embedding of `src/services/liveApiService.js` and of the state
handlers of `src/pages/Dashboard.jsx`.

Conventions of the embedding.

* JavaScript numbers are exact rationals (`ℚ`); `Math.round` is
  round-half-up, `⌊x + 1/2⌋`. Where the rounding of double arithmetic decides
  the result, in the usage percentages, it is explicit: `usageBreakdownWith`
  takes the rounding as a parameter, and `roundToDouble` is the rounding of
  binary64.
* A JSON field that may be absent is an `Option`; `x || 0` is `orZero`.
* An `async` function is a function to `Except JsError α`: `.error` is a
  rejected promise, `.ok` a fulfilled one. What the network answers is an
  explicit argument (`FetchResult`).
* The fields of the service object (`this.isConnected`, `this.eventSource`,
  `this.lastDataTimestamp`) are passed explicitly as a `LiveApiService`
  record; a method returns the new record next to its result.
* React state is passed explicitly: a handler takes the list it sees and
  returns the list after its `setAppliances` calls.
-/

namespace SmartEnergy

/-! ## JavaScript primitives -/

/-- The value carried by a thrown error or a rejected promise. -/
abbrev JsError := String

/-- The expression `x || 0` on a numeric field that may be absent. -/
def orZero : Option ℚ → ℚ
  | some x => x
  | none => 0

/-- The function `Math.round`: nearest integer, ties towards plus infinity. -/
def mathRound (x : ℚ) : ℤ := ⌊x + 1 / 2⌋

/-- The expression `a || b` on strings where `a` may be absent: the empty
string and `undefined` are both falsy. -/
def orElseString (a : Option String) (b : String) : String :=
  match a with
  | some s => if s = "" then b else s
  | none => b

/-- What `fetch` followed by `response.json()` can produce: the request itself
rejects, or a response arrives with its `ok` flag, status and status text and a
body that parses as JSON (`some`) or does not (`none`). -/
inductive FetchResult (α : Type) where
  | networkError (message : String)
  | response (ok : Bool) (status : Nat) (statusText : String) (body : Option α)

/-- Promise combinator `.catch(() => null)` applied to an accessor whose value is
itself nullable. -/
def catchNull {α : Type} : Except JsError (Option α) → Option α
  | .ok v => v
  | .error _ => none

/-- Promise combinator `.catch(() => null)` applied to an accessor with a
non-null value. -/
def catchNullValue {α : Type} : Except JsError α → Option α
  | .ok v => some v
  | .error _ => none

/-! ## Backend payloads -/

/-- One element of `data` in the `/live-data` response. -/
structure DataPoint where
  timestamp : Option String
  i1 : Option ℚ
  i2 : Option ℚ
  p1 : Option ℚ
  p2 : Option ℚ
  total_power : Option ℚ
  energy_kwh : Option ℚ
  cost_inr : Option ℚ
  deriving DecidableEq

/-- The `/live-data` response body. -/
structure LiveDataResponse where
  success : Bool
  data : Option (List DataPoint)
  deriving DecidableEq

/-- The record returned by `getLiveEnergyData`. The field `lastUpdated` stands
for `new Date(latest.timestamp)` and keeps the timestamp it is built from. -/
structure EnergyData where
  currentUsage : ℚ
  voltage : ℚ
  current : ℚ
  power : ℚ
  energy : ℚ
  cost : ℚ
  lastUpdated : Option String
  i1 : ℚ
  i2 : ℚ
  p1 : ℚ
  p2 : ℚ
  total_power : ℚ
  energy_kwh : ℚ
  cost_inr : ℚ
  deriving DecidableEq

/-- One entry of the usage breakdown. The default entries of the zero-power
branch carry no `current` field. -/
structure UsageEntry where
  name : String
  usage : ℤ
  cost : ℤ
  color : String
  power : ℚ
  current : Option ℚ
  deriving DecidableEq

/-- An appliance as held in the dashboard state. The entries of `loadMockData`
have only `id`, `name`, `status` and `current_power`, so the other fields are
optional. -/
structure Appliance where
  id : Nat
  name : String
  status : String
  current_power : ℚ
  current_amps : Option ℚ
  voltage : Option ℚ
  efficiency : Option ℚ
  last_updated : Option String
  deriving DecidableEq

/-- One element of `anomalies` in the `/detect-anomalies` response. -/
structure Anomaly where
  is_anomaly : Bool
  severity : Option String
  anomaly_type : String
  details : String
  timestamp : String
  affected_appliance : Option String
  power_value : Option ℚ
  confidence : Option ℚ
  deriving DecidableEq

/-- The `/detect-anomalies` response body. -/
structure AnomalyResponse where
  success : Bool
  anomalies : Option (List Anomaly)
  deriving DecidableEq

/-- An alert as built by `getAnomalyAlerts`. -/
structure Alert where
  id : String
  type : String
  message : String
  timestamp : String
  appliance : Option String
  power_value : Option ℚ
  confidence : Option ℚ
  severity : Option String
  deriving DecidableEq

/-- The `/health` response body, and the value `getSystemHealth` puts in its
place on failure. -/
structure Health where
  status : String
  error : Option String
  deriving DecidableEq

/-- The object returned by `controlAppliance`. -/
structure ControlAck where
  success : Bool
  appliance_id : Nat
  action : String
  timestamp : String
  deriving DecidableEq

/-- The object returned by `updateApplianceName`. -/
structure NameAck where
  success : Bool
  appliance_id : Nat
  name : String
  timestamp : String
  deriving DecidableEq

/-- The object handed to the polling callback. -/
structure Snapshot where
  energy : Option EnergyData
  appliances : Option (List Appliance)
  alerts : Option (List Alert)
  health : Option Health
  timestamp : String
  isConnected : Bool
  deriving DecidableEq

/-- What the network answers to the four requests of one poll cycle. -/
structure PollNet where
  energy : FetchResult LiveDataResponse
  appliances : FetchResult LiveDataResponse
  alerts : FetchResult AnomalyResponse
  health : FetchResult Health

/-! ## The service object -/

/-- A handle on an `EventSource` connection. -/
structure EventSource where
  url : String
  deriving DecidableEq

/-- The fields set up by the constructor of `LiveApiService`. -/
structure LiveApiService where
  isConnected : Bool
  eventSource : Option EventSource
  lastDataTimestamp : Option String
  deriving DecidableEq

namespace LiveApiService

/-- Method `apiCall`: rethrows a failed request, throws on a non-OK status,
otherwise returns the parsed body. -/
def apiCall {α : Type} : FetchResult α → Except JsError α
  | .networkError message => .error message
  | .response ok status statusText body =>
    if !ok then
      .error ("API Error: " ++ toString status ++ " - " ++ statusText)
    else
      match body with
      | some data => .ok data
      | none => .error "SyntaxError"

/-- The object literal built by `getLiveEnergyData` from the latest point. -/
def energyDataOf (latest : DataPoint) : EnergyData :=
  { currentUsage := orZero latest.total_power
    voltage := 220
    current := orZero latest.i1 + orZero latest.i2
    power := orZero latest.total_power
    energy := orZero latest.energy_kwh
    cost := orZero latest.cost_inr
    lastUpdated := latest.timestamp
    i1 := orZero latest.i1
    i2 := orZero latest.i2
    p1 := orZero latest.p1
    p2 := orZero latest.p2
    total_power := orZero latest.total_power
    energy_kwh := orZero latest.energy_kwh
    cost_inr := orZero latest.cost_inr }

/-- Method `getLiveEnergyData`: the `/live-data` call inside `try`, with the
`catch` branch returning `null`. -/
def getLiveEnergyData (s : LiveApiService) (net : FetchResult LiveDataResponse) :
    LiveApiService × Except JsError (Option EnergyData) :=
  match apiCall net with
  | .error _ => (s, .ok none)
  | .ok response =>
    match response.success, response.data with
    | true, some data =>
      match data.getLast? with
      | some latest =>
        ({ s with lastDataTimestamp := latest.timestamp }, .ok (some (energyDataOf latest)))
      | none => (s, .ok none)
    | _, _ => (s, .ok none)

/-- The body of `getApplianceUsageBreakdown` once a reading is available. The
reading's `cost_inr` is a number, so `energyData.cost_inr || 0` is
`energyData.cost_inr`. The arithmetic is exact here; `usageBreakdownWith`
makes the rounding of double arithmetic explicit. -/
def usageBreakdownOf (energyData : EnergyData) : List UsageEntry :=
  let totalPower := energyData.p1 + energyData.p2
  if totalPower = 0 then
    [ { name := "Appliance 1", usage := 50, cost := 0, color := "#3b82f6", power := 0,
        current := none },
      { name := "Appliance 2", usage := 50, cost := 0, color := "#10b981", power := 0,
        current := none } ]
  else
    let app1Percentage := mathRound ((energyData.p1 / totalPower) * 100)
    let app2Percentage := mathRound ((energyData.p2 / totalPower) * 100)
    let totalCost := energyData.cost_inr
    [ { name := "Appliance 1", usage := app1Percentage,
        cost := mathRound (totalCost * (energyData.p1 / totalPower)),
        color := "#3b82f6", power := energyData.p1, current := some energyData.i1 },
      { name := "Appliance 2", usage := app2Percentage,
        cost := mathRound (totalCost * (energyData.p2 / totalPower)),
        color := "#10b981", power := energyData.p2, current := some energyData.i2 } ]

/-- Method `getApplianceUsageBreakdown`: no reading gives the empty list. -/
def getApplianceUsageBreakdown (s : LiveApiService) (net : FetchResult LiveDataResponse) :
    LiveApiService × Except JsError (List UsageEntry) :=
  match getLiveEnergyData s net with
  | (s1, .ok (some energyData)) => (s1, .ok (usageBreakdownOf energyData))
  | (s1, .ok none) => (s1, .ok [])
  | (s1, .error _) => (s1, .ok [])

/-- Method `calculateEfficiency`. -/
def calculateEfficiency (power current : ℚ) : ℚ :=
  if current > 0 then
    let apparentPower := current * 220
    if apparentPower > 0 then min (power / apparentPower) 1 else 0
  else 0

/-- The two-element array literal of `getApplianceData`. The readings are
numbers here, so `energyData.p1 || 0` is `energyData.p1`. -/
def applianceDataOf (energyData : EnergyData) : List Appliance :=
  [ { id := 1, name := "Appliance 1",
      status := if energyData.p1 > 10 then "ON" else "OFF",
      current_power := energyData.p1, current_amps := some energyData.i1,
      voltage := some 220,
      efficiency := some (calculateEfficiency energyData.p1 energyData.i1),
      last_updated := energyData.lastUpdated },
    { id := 2, name := "Appliance 2",
      status := if energyData.p2 > 10 then "ON" else "OFF",
      current_power := energyData.p2, current_amps := some energyData.i2,
      voltage := some 220,
      efficiency := some (calculateEfficiency energyData.p2 energyData.i2),
      last_updated := energyData.lastUpdated } ]

/-- Method `getApplianceData`: its own `/live-data` call through
`getLiveEnergyData`; no reading gives the empty list. -/
def getApplianceData (s : LiveApiService) (net : FetchResult LiveDataResponse) :
    LiveApiService × Except JsError (List Appliance) :=
  match getLiveEnergyData s net with
  | (s1, .ok (some energyData)) => (s1, .ok (applianceDataOf energyData))
  | (s1, .ok none) => (s1, .ok [])
  | (s1, .error _) => (s1, .ok [])

/-- Method `mapSeverityToType`. -/
def mapSeverityToType (severity : Option String) : String :=
  if severity = some "High" then "danger"
  else if severity = some "Medium" then "warning"
  else if severity = some "Low" then "info"
  else "info"

/-- The arrow function mapped over the anomalies by `getAnomalyAlerts`;
`dateParse t` is the text of `Date.parse(t)` inside the template string. -/
def alertOf (dateParse : String → String) (anomaly : Anomaly) : Alert :=
  { id := "anomaly_" ++ dateParse anomaly.timestamp
    type := mapSeverityToType anomaly.severity
    message := anomaly.anomaly_type ++ ": " ++ anomaly.details
    timestamp := anomaly.timestamp
    appliance := anomaly.affected_appliance
    power_value := anomaly.power_value
    confidence := anomaly.confidence
    severity := anomaly.severity }

/-- Method `getAnomalyAlerts`. -/
def getAnomalyAlerts (dateParse : String → String) (net : FetchResult AnomalyResponse) :
    Except JsError (List Alert) :=
  match apiCall net with
  | .error _ => .ok []
  | .ok response =>
    match response.success, response.anomalies with
    | true, some anomalies =>
      .ok (((anomalies.filter (fun anomaly => anomaly.is_anomaly)).map (alertOf dateParse)).take 10)
    | _, _ => .ok []

/-- Method `getSystemHealth`. -/
def getSystemHealth (net : FetchResult Health) : Except JsError Health :=
  match apiCall net with
  | .ok response => .ok response
  | .error message => .ok { status := "unhealthy", error := some message }

/-- Method `controlAppliance`: a local echo of the request. -/
def controlAppliance (now : String) (applianceId : Nat) (action : String) :
    Except JsError ControlAck :=
  .ok { success := true, appliance_id := applianceId, action := action, timestamp := now }

/-- Method `updateApplianceName`: a local echo of the request. -/
def updateApplianceName (now : String) (applianceId : Nat) (name : String) :
    Except JsError NameAck :=
  .ok { success := true, appliance_id := applianceId, name := name, timestamp := now }

/-- Method `disconnect`. -/
def disconnect (s : LiveApiService) : LiveApiService :=
  match s.eventSource with
  | some _ => { s with eventSource := none, isConnected := false }
  | none => s

/-- Method `getConnectionStatus`. -/
def getConnectionStatus (s : LiveApiService) : Bool := s.isConnected

/-- The snapshot of the `catch` branch of `poll`. -/
def fallbackSnapshot (now : String) : Snapshot :=
  { energy := none, appliances := some [], alerts := some [],
    health := some { status := "unhealthy", error := none },
    timestamp := now, isConnected := false }

/-- The closure `poll` of `startPolling`: one poll cycle. The four accessors
are started in the order of the array literal; `callback` may throw, which
sends the cycle to the `catch` branch. The result lists the snapshots handed
to `callback`, in order. -/
def poll (s : LiveApiService) (callback : Snapshot → Except JsError Unit)
    (dateParse : String → String) (now nowCatch : String) (net : PollNet) :
    LiveApiService × List Snapshot × Except JsError Unit :=
  let r1 := getLiveEnergyData s net.energy
  let r2 := getApplianceData r1.1 net.appliances
  let energyData := catchNull r1.2
  let applianceData := catchNullValue r2.2
  let alerts := catchNullValue (getAnomalyAlerts dateParse net.alerts)
  let systemHealth := catchNullValue (getSystemHealth net.health)
  let snapshot : Snapshot :=
    { energy := energyData, appliances := applianceData, alerts := alerts,
      health := systemHealth, timestamp := now, isConnected := energyData.isSome }
  match callback snapshot with
  | .ok _ => ({ r2.1 with isConnected := energyData.isSome }, [snapshot], .ok ())
  | .error _ =>
    ({ r2.1 with isConnected := false }, [snapshot, fallbackSnapshot nowCatch],
      callback (fallbackSnapshot nowCatch))

end LiveApiService

/-! ## Dashboard state handlers -/

namespace Dashboard

/-- The value `newStatus` of `handleApplianceToggle`, computed from the list
the handler closes over. -/
def newStatus (appliances : List Appliance) (applianceId : Nat) : String :=
  let appliance := appliances.find? (fun a => a.id == applianceId)
  if appliance.map (fun a => a.status) = some "ON" then "OFF" else "ON"

/-- The first `setAppliances` updater of `handleApplianceToggle`. -/
def optimisticUpdate (applianceId : Nat) (status : String) (prev : List Appliance) :
    List Appliance :=
  prev.map (fun a => if a.id = applianceId then { a with status := status } else a)

/-- The `setAppliances` updater of the `catch` branch of
`handleApplianceToggle`. -/
def revertUpdate (applianceId : Nat) (prev : List Appliance) : List Appliance :=
  prev.map (fun a =>
    if a.id = applianceId then { a with status := if a.status = "ON" then "OFF" else "ON" }
    else a)

/-- Handler `handleApplianceToggle`; `control` is the `controlAppliance` call.
The result is the appliance list after the handler and the handler's own
outcome. -/
def handleApplianceToggle (control : Nat → String → Except JsError ControlAck)
    (appliances : List Appliance) (applianceId : Nat) :
    List Appliance × Except JsError Unit :=
  let status := newStatus appliances applianceId
  let optimistic := optimisticUpdate applianceId status appliances
  match control applianceId status.toLower with
  | .ok _ => (optimistic, .ok ())
  | .error _ => (revertUpdate applianceId optimistic, .ok ())

/-- The `setAppliances` updater of `handleSaveApplianceNames`; `names` lists
the entries of the object `names`, and `names[appliance.id]` is the lookup. -/
def renameLocal (names : List (Nat × String)) (prev : List Appliance) : List Appliance :=
  prev.map (fun appliance =>
    { appliance with name := orElseString (names.lookup appliance.id) appliance.name })

/-- The `for` loop of `handleSaveApplianceNames` over `Object.entries(names)`:
the calls issued, in order, and the outcome (the first rejection ends the
loop). -/
def saveNamesToBackend (update : Nat → String → Except JsError NameAck) :
    List (Nat × String) → List (Nat × String) × Except JsError Unit
  | [] => ([], .ok ())
  | (applianceId, name) :: rest =>
    match update applianceId name with
    | .ok _ =>
      ((applianceId, name) :: (saveNamesToBackend update rest).1,
        (saveNamesToBackend update rest).2)
    | .error e => ([(applianceId, name)], .error e)

/-- Handler `handleSaveApplianceNames`: the local update, then the loop; the
`catch` branch rethrows. The result is the appliance list after the handler,
the update calls issued and the handler's outcome. -/
def handleSaveApplianceNames (update : Nat → String → Except JsError NameAck)
    (names : List (Nat × String)) (prev : List Appliance) :
    List Appliance × List (Nat × String) × Except JsError Unit :=
  let renamed := renameLocal names prev
  match saveNamesToBackend update names with
  | (calls, .ok _) => (renamed, calls, .ok ())
  | (calls, .error e) => (renamed, calls, .error e)

end Dashboard

open LiveApiService Dashboard

/-! ## Concrete inputs used by the examples -/

/-- A service object as the constructor leaves it. -/
def freshService : LiveApiService :=
  { isConnected := false, eventSource := none, lastDataTimestamp := none }

/-- A `/live-data` answer with status 200 and the given body. -/
def okResponse {α : Type} (body : α) : FetchResult α :=
  .response true 200 "OK" (some body)

/-- A data point with the given appliance powers and nothing else. -/
def pointWithPowers (p1 p2 : ℚ) : DataPoint :=
  { timestamp := none, i1 := none, i2 := none, p1 := some p1, p2 := some p2,
    total_power := none, energy_kwh := none, cost_inr := none }

/-- The data point of the example: `total_power` 500, `i1` 2, `i2` 1,
`energy_kwh` 3 and `cost_inr` 15. -/
def singlePoint : DataPoint :=
  { timestamp := none, i1 := some 2, i2 := some 1, p1 := none, p2 := none,
    total_power := some 500, energy_kwh := some 3, cost_inr := some 15 }

/-- The `/live-data` answer of the example: `singlePoint` alone. -/
def singlePointResponse : FetchResult LiveDataResponse :=
  okResponse { success := true, data := some [singlePoint] }

/-- An appliance with the given id, name and status, drawing no power. -/
def mkAppliance (id : Nat) (name status : String) : Appliance :=
  { id := id, name := name, status := status, current_power := 0, current_amps := none,
    voltage := none, efficiency := none, last_updated := none }

/-- A `controlAppliance` call that rejects. -/
def rejectingControl : Nat → String → Except JsError ControlAck :=
  fun _ _ => .error "control failed"

/-- An `updateApplianceName` call that rejects for the appliance `bad` and
echoes the request for every other appliance. -/
def rejectingUpdateFor (bad : Nat) : Nat → String → Except JsError NameAck :=
  fun applianceId name =>
    if applianceId = bad then .error "update failed"
    else updateApplianceName "now" applianceId name

/-- A poll cycle in which every request fails at the network. -/
def pollNetOffline : PollNet :=
  { energy := .networkError "offline", appliances := .networkError "offline",
    alerts := .networkError "offline", health := .networkError "offline" }

/-- A poll cycle in which the energy request answers with `singlePoint` and
the other requests fail at the network. -/
def pollNetEnergyOnly : PollNet :=
  { energy := singlePointResponse, appliances := .networkError "offline",
    alerts := .networkError "offline", health := .networkError "offline" }

/-- A polling callback that returns normally. -/
def quietCallback : Snapshot → Except JsError Unit := fun _ => .ok ()

/-! ## Further accessors of the service -/

/-- One entry of the energy history. -/
structure HistoryPoint where
  time : String
  usage : ℚ
  energy : ℚ
  cost : ℚ
  timestamp : Option String
  deriving DecidableEq

/-- The object returned by `downloadMonthlyReport`. -/
structure DownloadResult where
  success : Bool
  error : Option String
  deriving DecidableEq

/-- The `summary` object of the `/monthly-summary` response. -/
structure Summary where
  total_cost : Option ℚ
  total_energy : Option ℚ
  deriving DecidableEq

/-- The `/monthly-summary` response body. -/
structure SummaryResponse where
  success : Bool
  summary : Option Summary
  deriving DecidableEq

/-- The monthly bill. The dashboard's initial value has only `amount` and
`comparison`, so the other two fields are optional. -/
structure Bill where
  amount : ℤ
  comparison : ℤ
  dailyAverage : Option ℤ
  totalEnergy : Option ℚ
  deriving DecidableEq

/-- One news entry. -/
structure NewsItem where
  id : Nat
  title : String
  summary : String
  time : String
  source : String
  deriving DecidableEq

/-- A call made by the handlers that `connectWebSocket` installs on the event
source: `onMessage(data)` or `onError(error)`. -/
inductive FeedCall (μ : Type) where
  | onMessage (data : μ)
  | onError (error : JsError)
  deriving DecidableEq

/-- The method `Array.prototype.slice(start)`: a negative `start` counts from
the end, and `-0` is `0`. -/
def jsSlice {α : Type} (l : List α) (start : ℤ) : List α :=
  if start < 0 then l.drop (max ((l.length : ℤ) + start) 0).toNat
  else l.drop (min start (l.length : ℤ)).toNat

/-- The method `String.prototype.padStart(2, '0')`. -/
def padStart2 (s : String) : String :=
  if s.length < 2 then "0" ++ s else s

namespace LiveApiService

/-- The arrow function mapped over the points by `getEnergyHistory`;
`formatTime t` is `new Date(t).toLocaleTimeString(...)`. -/
def historyPointOf (formatTime : Option String → String) (point : DataPoint) : HistoryPoint :=
  { time := formatTime point.timestamp
    usage := orZero point.total_power
    energy := orZero point.energy_kwh
    cost := orZero point.cost_inr
    timestamp := point.timestamp }

/-- Method `getEnergyHistory`. The method `generateMockHistory` draws on
`Math.random` and on the clock; what it returns for a given `hours` is the
argument `generateMockHistory`. -/
def getEnergyHistory (formatTime : Option String → String)
    (generateMockHistory : ℤ → List HistoryPoint) (hours : ℤ)
    (net : FetchResult LiveDataResponse) : Except JsError (List HistoryPoint) :=
  match apiCall net with
  | .error _ => .ok (generateMockHistory hours)
  | .ok response =>
    match response.success, response.data with
    | true, some data =>
      let recentData := jsSlice data (-(min hours (data.length : ℤ)))
      .ok (recentData.map (historyPointOf formatTime))
    | _, _ => .ok (generateMockHistory hours)

/-- The all-zero bill returned by `getMonthlyBill` when nothing is known. -/
def zeroBill : Bill :=
  { amount := 0, comparison := 0, dailyAverage := some 0, totalEnergy := some 0 }

/-- Method `getMonthlyBill`; `random` is the value of `Math.random()`, and
`liveNet` answers the `/live-data` call of the fallback branch. -/
def getMonthlyBill (s : LiveApiService) (random : ℚ) (net : FetchResult SummaryResponse)
    (liveNet : FetchResult LiveDataResponse) : LiveApiService × Except JsError Bill :=
  match apiCall net with
  | .error _ => (s, .ok zeroBill)
  | .ok response =>
    match response.success, response.summary with
    | true, some summary =>
      (s, .ok
        { amount := mathRound (orZero summary.total_cost)
          comparison := ⌊random * 20⌋ - 10
          dailyAverage := some (mathRound (orZero summary.total_cost / 30))
          totalEnergy := some (orZero summary.total_energy) })
    | _, _ =>
      match getLiveEnergyData s liveNet with
      | (s1, .ok (some energyData)) =>
        let estimatedMonthly := energyData.cost * 30
        (s1, .ok
          { amount := mathRound estimatedMonthly
            comparison := ⌊random * 20⌋ - 10
            dailyAverage := some (mathRound (estimatedMonthly / 30))
            totalEnergy := some (energyData.energy * 30) })
      | (s1, _) => (s1, .ok zeroBill)

/-- Method `getElectricityNews`. -/
def getElectricityNews : List NewsItem :=
  [ { id := 1, title := "Smart IoT Energy Systems Reduce Consumption by 25%",
      summary := "Real-time monitoring helps households optimize energy usage",
      time := "2 hours ago", source := "Energy Today" },
    { id := 2, title := "Tamil Nadu Implements Dynamic Pricing for Electricity",
      summary := "Time-of-use billing starts next month for residential consumers",
      time := "5 hours ago", source := "TNEB News" },
    { id := 3, title := "AI-Powered Anomaly Detection Prevents Electrical Faults",
      summary := "Machine learning algorithms detect unusual consumption patterns",
      time := "1 day ago", source := "Tech Energy" } ]

/-- Method `downloadMonthlyReport`. It calls `fetch` itself; the body of the
answer is what `response.blob()` gives (`none` when it rejects). The first
component is the file name of the download it triggers, if any; the calls on
`document` and `window.URL` are taken not to throw. -/
def downloadMonthlyReport (month year : Nat) (net : FetchResult String) :
    Option String × Except JsError DownloadResult :=
  match net with
  | .networkError message => (none, .ok { success := false, error := some message })
  | .response ok _ statusText body =>
    if !ok then
      (none, .ok { success := false,
                   error := some ("Failed to download report: " ++ statusText) })
    else
      match body with
      | none => (none, .ok { success := false, error := some "TypeError" })
      | some _ =>
        (some ("energy_report_" ++ toString year ++ "_" ++ padStart2 (toString month) ++ ".pdf"),
          .ok { success := true, error := none })

/-- Method `connectWebSocket`, up to the installation of the handlers. The
event source held before, if any, is closed (second component); `ctorError`
is what `new EventSource(...)` throws, if it throws. The last component lists
the calls made on the callbacks. -/
def connectWebSocket {μ : Type} (s : LiveApiService) (apiBaseUrl : String)
    (ctorError : Option JsError) (hasOnError : Bool) :
    LiveApiService × Bool × List (FeedCall μ) :=
  match ctorError with
  | none =>
    ({ s with eventSource := some { url := apiBaseUrl ++ "/stream/live-data" } },
      s.eventSource.isSome, [])
  | some error =>
    ({ s with isConnected := false }, s.eventSource.isSome,
      if hasOnError then [.onError error] else [])

/-- The handler `eventSource.onmessage`; `data` is `JSON.parse(event.data)`,
`none` when parsing throws. What `onMessage` throws is caught as well. -/
def onmessage {μ : Type} (s : LiveApiService) (data : Option μ) :
    LiveApiService × List (FeedCall μ) :=
  match data with
  | some parsed => ({ s with isConnected := true }, [.onMessage parsed])
  | none => (s, [])

/-- The handler `eventSource.onerror`. -/
def onerror {μ : Type} (s : LiveApiService) (hasOnError : Bool) (error : JsError) :
    LiveApiService × List (FeedCall μ) :=
  ({ s with isConnected := false }, if hasOnError then [.onError error] else [])

/-- The handler `eventSource.onopen`. -/
def onopen (s : LiveApiService) : LiveApiService :=
  { s with isConnected := true }

end LiveApiService

/-- An anomaly with the given flag, severity, type and details. -/
def mkAnomaly (is_anomaly : Bool) (severity anomaly_type details : String) : Anomaly :=
  { is_anomaly := is_anomaly, severity := some severity, anomaly_type := anomaly_type,
    details := details, timestamp := "t", affected_appliance := none, power_value := none,
    confidence := none }

/-! ## Dashboard state -/

/-- The state `liveData`. The initial value has the first six fields; the
other fields of a reading arrive by the spread `...energyData.value` and are
kept in `reading`. -/
structure LiveData where
  currentUsage : ℚ
  voltage : ℚ
  current : ℚ
  power : ℚ
  energy : ℚ
  lastUpdated : Option String
  reading : Option EnergyData
  deriving DecidableEq

/-- The `useState` cells of the `Dashboard` component. -/
structure DashboardState where
  liveData : LiveData
  appliances : List Appliance
  monthlyBill : Bill
  alerts : List Alert
  energyHistory : List HistoryPoint
  applianceUsage : List UsageEntry
  news : List NewsItem
  loading : Bool
  isConnected : Bool
  showNamingModal : Bool
  lastRefresh : String
  pollInterval : Option Nat
  deriving DecidableEq

/-- An element of the array `Promise.allSettled` resolves to. -/
inductive Settled (α : Type) where
  | fulfilled (value : α)
  | rejected (reason : JsError)

/-- How `Promise.allSettled` settles a promise. -/
def settle {α : Type} : Except JsError α → Settled α
  | .ok value => .fulfilled value
  | .error reason => .rejected reason

/-- What the network answers to the requests of `fetchAllData`; `billLive`
answers the `/live-data` call of the fallback branch of `getMonthlyBill`. -/
structure FetchAllNet where
  energy : FetchResult LiveDataResponse
  appliances : FetchResult LiveDataResponse
  bill : FetchResult SummaryResponse
  billLive : FetchResult LiveDataResponse
  alerts : FetchResult AnomalyResponse
  history : FetchResult LiveDataResponse
  usage : FetchResult LiveDataResponse

/-- What the accessors draw from the environment: the text of `Date.parse`,
the local time format, the mock history and the value of `Math.random()`. -/
structure Env where
  dateParse : String → String
  formatTime : Option String → String
  generateMockHistory : ℤ → List HistoryPoint
  random : ℚ

/-- A parsed message of the live feed, by its `type`. -/
inductive FeedMessage where
  | energyUpdate (payload : Option EnergyData)
  | applianceUpdate (payload : Option (List Appliance))
  | alertUpdate (payload : Alert)
  | other (type : String)
  deriving DecidableEq

namespace Dashboard

/-- The `useState` initial values; `mountTime` is the `new Date()` of
`lastRefresh`. -/
def initialState (mountTime : String) : DashboardState :=
  { liveData :=
      { currentUsage := 0, voltage := 220, current := 0, power := 0, energy := 0,
        lastUpdated := none, reading := none }
    appliances := []
    monthlyBill := { amount := 0, comparison := 0, dailyAverage := none, totalEnergy := none }
    alerts := []
    energyHistory := []
    applianceUsage := []
    news := []
    loading := true
    isConnected := false
    showNamingModal := false
    lastRefresh := mountTime
    pollInterval := none }

/-- The updater `prev => ({ ...prev, ...value, lastUpdated: new Date() })`;
spreading `null` adds nothing. -/
def mergeLiveData (prev : LiveData) (value : Option EnergyData) (now : String) : LiveData :=
  match value with
  | some e =>
    { currentUsage := e.currentUsage, voltage := e.voltage, current := e.current,
      power := e.power, energy := e.energy, lastUpdated := some now, reading := some e }
  | none => { prev with lastUpdated := some now }

/-- Function `fetchAllData`. The seven accessors are started in the order of
the array literal and settled by `Promise.allSettled`; the values are arrays
and objects, so `value || []` is `value`. Nothing in the `try` block throws,
which leaves the `catch` branch out. -/
def fetchAllData (env : Env) (now : String) (s : LiveApiService) (d : DashboardState)
    (net : FetchAllNet) : LiveApiService × DashboardState :=
  let r1 := getLiveEnergyData s net.energy
  let r2 := getApplianceData r1.1 net.appliances
  let r3 := getMonthlyBill r2.1 env.random net.bill net.billLive
  let r6 := getApplianceUsageBreakdown r3.1 net.usage
  let energyData := settle r1.2
  let applianceData := settle r2.2
  let billData := settle r3.2
  let alertData := settle (getAnomalyAlerts env.dateParse net.alerts)
  let historyData := settle (getEnergyHistory env.formatTime env.generateMockHistory 24 net.history)
  let usageData := settle r6.2
  let newsData := settle (Except.ok getElectricityNews : Except JsError (List NewsItem))
  let d1 := match energyData with
    | .fulfilled value =>
      { d with liveData := mergeLiveData d.liveData value now, isConnected := true }
    | .rejected _ => d
  let d2 := match applianceData with
    | .fulfilled value => { d1 with appliances := value }
    | .rejected _ => d1
  let d3 := match billData with
    | .fulfilled value => { d2 with monthlyBill := value }
    | .rejected _ => d2
  let d4 := match alertData with
    | .fulfilled value => { d3 with alerts := value }
    | .rejected _ => d3
  let d5 := match historyData with
    | .fulfilled value => { d4 with energyHistory := value }
    | .rejected _ => d4
  let d6 := match usageData with
    | .fulfilled value => { d5 with applianceUsage := value }
    | .rejected _ => d5
  let d7 := match newsData with
    | .fulfilled value => { d6 with news := value }
    | .rejected _ => d6
  (r6.1, { d7 with lastRefresh := now })

/-- The callback that the component's `startPolling` hands to the service;
`if (data.appliances)` holds for every array, the empty one included. -/
def pollCallback (now : String) (d : DashboardState) (data : Snapshot) : DashboardState :=
  let d1 := match data.energy with
    | some energy =>
      { d with liveData := mergeLiveData d.liveData (some energy) now, isConnected := true }
    | none => d
  let d2 := match data.appliances with
    | some appliances => { d1 with appliances := appliances }
    | none => d1
  let d3 := match data.alerts with
    | some alerts => { d2 with alerts := alerts }
    | none => d2
  { d3 with lastRefresh := now }

/-- Callback `handleLiveDataUpdate`. -/
def handleLiveDataUpdate (now : String) (d : DashboardState) (data : FeedMessage) :
    DashboardState :=
  let d1 := match data with
    | .energyUpdate payload =>
      { d with liveData := mergeLiveData d.liveData payload now, isConnected := true }
    | .applianceUpdate payload => { d with appliances := payload.getD [] }
    | .alertUpdate payload => { d with alerts := d.alerts ++ [payload] }
    | .other _ => d
  { d1 with lastRefresh := now }

end Dashboard

/-- An environment for the examples. -/
def plainEnv : Env :=
  { dateParse := fun t => t, formatTime := fun _ => "", generateMockHistory := fun _ => [],
    random := 0 }

/-- The answers of `fetchAllData` when every request fails at the network. -/
def fetchAllNetOffline : FetchAllNet :=
  { energy := .networkError "offline", appliances := .networkError "offline",
    bill := .networkError "offline", billLive := .networkError "offline",
    alerts := .networkError "offline", history := .networkError "offline",
    usage := .networkError "offline" }

/-- A dashboard that shows one appliance and is marked disconnected. -/
def dashboardWithFan : DashboardState :=
  { Dashboard.initialState "t0" with appliances := [mkAppliance 1 "Fan" "ON"] }

/-! ## Update sources: the feed connection and the poll timers -/

/-- The `readyState` of an event source. -/
inductive ReadyState where
  | CONNECTING
  | OPEN
  | CLOSED
  deriving DecidableEq

/-- The interval timers of the page: the ids of the running ones, and the id
the next `setInterval` returns. -/
structure Timers where
  intervals : List Nat
  nextTimerId : Nat
  deriving DecidableEq

/-- The function `setInterval`: a new running timer and its id. -/
def Timers.setInterval (t : Timers) : Timers × Nat :=
  ({ intervals := t.intervals ++ [t.nextTimerId], nextTimerId := t.nextTimerId + 1 },
    t.nextTimerId)

/-- The function `clearInterval`. -/
def Timers.clearInterval (t : Timers) (id : Nat) : Timers :=
  { t with intervals := t.intervals.filter (fun i => i ≠ id) }

/-- What one poll cycle meets: the answers of the network and the clock. -/
structure PollInput where
  net : PollNet
  now : String
  nowCatch : String

/-- The page: the service object, the `readyState` of the event source created
last (`none` before any is created), the timers, whether the grace-period
`setTimeout` is still to fire, the snapshots handed to the dashboard's polling
callback so far, and the state of the component. -/
structure World where
  service : LiveApiService
  readyState : Option ReadyState
  timers : Timers
  graceCheckPending : Bool
  delivered : List Snapshot
  dash : DashboardState

/-- An event of the page after `initializeDashboard`: the feed opens, a feed
message arrives (`data` is the parsed text, `none` if it does not parse), the
feed reports an error (after which the browser either gives up, `fatal`, or
reconnects), the grace-period timeout fires, or the interval timer `id`
fires. -/
inductive Event where
  | feedOpen
  | feedMessage (data : Option FeedMessage) (now : String)
  | feedError (error : JsError) (fatal : Bool) (input : PollInput)
  | graceCheck (input : PollInput)
  | pollTick (id : Nat) (input : PollInput)

/-- Whether the event is a feed error. -/
def Event.isFeedError : Event → Bool
  | .feedError _ _ _ => true
  | _ => false

namespace LiveApiService

/-- Method `startPolling`: one call of `poll` at once, then `setInterval`. The
result is the service, the timers, the snapshots handed to `callback` by the
first cycle and the id returned. -/
def startPolling (s : LiveApiService) (timers : Timers)
    (callback : Snapshot → Except JsError Unit) (dateParse : String → String)
    (input : PollInput) : LiveApiService × Timers × List Snapshot × Nat :=
  let r := poll s callback dateParse input.now input.nowCatch input.net
  (r.1, timers.setInterval.1, r.2.1, timers.setInterval.2)

end LiveApiService

namespace Dashboard

/-- One run of the closure `poll` with the dashboard's polling callback, which
does not throw. -/
def runPoll (env : Env) (input : PollInput) (w : World) : World :=
  let r := poll w.service (fun _ => .ok ()) env.dateParse input.now input.nowCatch input.net
  { w with service := r.1, delivered := w.delivered ++ r.2.1,
           dash := r.2.1.foldl (pollCallback input.now) w.dash }

/-- Function `startPolling` of the component: the service's `startPolling`
with the polling callback, then `setPollInterval(interval)`. -/
def startPolling (env : Env) (input : PollInput) (w : World) : World :=
  let r := LiveApiService.startPolling w.service w.timers (fun _ => .ok ()) env.dateParse input
  { w with service := r.1, timers := r.2.1, delivered := w.delivered ++ r.2.2.1,
           dash := { r.2.2.1.foldl (pollCallback input.now) w.dash with
                     pollInterval := some r.2.2.2 } }

/-- Callback `handleConnectionError`. -/
def handleConnectionError (env : Env) (input : PollInput) (w : World) : World :=
  startPolling env input { w with dash := { w.dash with isConnected := false } }

/-- Function `initializeDashboard`: `connectWebSocket` with the two callbacks,
the grace-period `setTimeout`, then `fetchAllData`. `ctorInput` is what a poll
cycle meets if `new EventSource` throws and `handleConnectionError` runs. -/
def initializeDashboard (env : Env) (now apiBaseUrl : String) (ctorError : Option JsError)
    (ctorInput : PollInput) (net : FetchAllNet) (w : World) : World :=
  let r := connectWebSocket (μ := FeedMessage) w.service apiBaseUrl ctorError true
  let ready := match ctorError with
    | none => some ReadyState.CONNECTING
    | some _ => if r.2.1 then some ReadyState.CLOSED else w.readyState
  let w1 : World :=
    { w with service := r.1, readyState := ready, dash := { w.dash with loading := true } }
  let w2 := r.2.2.foldl
    (fun acc call =>
      match call with
      | .onError _ => handleConnectionError env ctorInput acc
      | .onMessage data => { acc with dash := handleLiveDataUpdate now acc.dash data })
    w1
  let w3 : World := { w2 with graceCheckPending := true }
  let f := fetchAllData env now w3.service w3.dash net
  { w3 with service := f.1, dash := { f.2 with loading := false } }

/-- The cleanup function of the effect, with `pollInterval` the value its
closure holds: `clearInterval` when it is truthy, then `disconnect()`. -/
def teardown (pollInterval : Option Nat) (w : World) : World :=
  let timers := match pollInterval with
    | some id => if id ≠ 0 then w.timers.clearInterval id else w.timers
    | none => w.timers
  { w with timers := timers,
           readyState := if w.service.eventSource.isSome then some ReadyState.CLOSED
                         else w.readyState,
           service := disconnect w.service }

/-- The cleanup as React runs it. The effect has the dependency list `[]`, so
it runs once, after the first render, and its cleanup closes over the
`pollInterval` of that render, which is the initial `null`. -/
def effectCleanup (w : World) : World := teardown none w

/-- One event. An event that cannot occur in the state (a feed event on a
closed or absent connection, a timeout that has fired, a cleared timer)
changes nothing. -/
def step (env : Env) (w : World) : Event → World
  | .feedOpen =>
    if w.readyState = some ReadyState.CONNECTING then
      { w with readyState := some ReadyState.OPEN, service := onopen w.service }
    else w
  | .feedMessage data now =>
    if w.readyState = some ReadyState.OPEN then
      let r := onmessage w.service data
      { w with service := r.1,
               dash := r.2.foldl
                 (fun d call =>
                   match call with
                   | .onMessage parsed => handleLiveDataUpdate now d parsed
                   | .onError _ => d)
                 w.dash }
    else w
  | .feedError error fatal input =>
    if w.readyState = some ReadyState.CONNECTING ∨ w.readyState = some ReadyState.OPEN then
      let r := onerror (μ := FeedMessage) w.service true error
      let w1 : World :=
        { w with service := r.1,
                 readyState := some (if fatal then ReadyState.CLOSED else ReadyState.CONNECTING) }
      r.2.foldl
        (fun acc call =>
          match call with
          | .onError _ => handleConnectionError env input acc
          | .onMessage _ => acc)
        w1
    else w
  | .graceCheck input =>
    if w.graceCheckPending then
      let w1 : World := { w with graceCheckPending := false }
      if !getConnectionStatus w1.service then startPolling env input w1 else w1
    else w
  | .pollTick id input =>
    if id ∈ w.timers.intervals then runPoll env input w else w

/-- A sequence of events. -/
def run (env : Env) (w : World) (events : List Event) : World :=
  events.foldl (step env) w

end Dashboard

/-- The page when the component has rendered for the first time: a fresh
service, no event source, no timer (ids start at 1), the initial state. -/
def mountedWorld (mountTime : String) : World :=
  { service := freshService, readyState := none,
    timers := { intervals := [], nextTimerId := 1 },
    graceCheckPending := false, delivered := [], dash := Dashboard.initialState mountTime }

/-- A poll cycle in which every request fails at the network. -/
def pollInputOffline : PollInput :=
  { net := pollNetOffline, now := "t1", nowCatch := "t2" }

/-- The page after `initializeDashboard` with every request failing at the
network and the event source created. -/
def initializedWorld : World :=
  Dashboard.initializeDashboard plainEnv "t0" "http://localhost:5000/api" none pollInputOffline
    fetchAllNetOffline (mountedWorld "t0")

/-! ## Saving names in the component state -/

namespace Dashboard

/-- Handler `handleSaveApplianceNames` on the whole component state: the only
setter it calls is `setAppliances`. -/
def handleSaveApplianceNamesState (update : Nat → String → Except JsError NameAck)
    (names : List (Nat × String)) (d : DashboardState) :
    DashboardState × Except JsError Unit :=
  ({ d with appliances := (handleSaveApplianceNames update names d.appliances).1 },
    (handleSaveApplianceNames update names d.appliances).2.2)

end Dashboard

/-- A reading with appliance powers 20 and 5. -/
def readingTwentyFive : EnergyData := LiveApiService.energyDataOf (pointWithPowers 20 5)

/-- A dashboard filled from `readingTwentyFive`: the appliance list of
`getApplianceData` and the usage breakdown of `getApplianceUsageBreakdown`. -/
def dashboardWithReading : DashboardState :=
  { Dashboard.initialState "t0" with
    appliances := LiveApiService.applianceDataOf readingTwentyFive
    applianceUsage := LiveApiService.usageBreakdownOf readingTwentyFive }

/-- A polling callback that throws whatever it is given. -/
def throwingCallback : Snapshot → Except JsError Unit := fun _ => .error "callback failed"

/-- A dashboard that shows one appliance, one alert and one usage entry. -/
def dashboardWithSlices : DashboardState :=
  { Dashboard.initialState "t0" with
    appliances := [mkAppliance 1 "Fan" "ON"]
    alerts := [LiveApiService.alertOf (fun t => t) (mkAnomaly true "high" "spike" "above 2000 W")]
    applianceUsage :=
      [{ name := "Appliance 1", usage := 100, cost := 15, color := "#3b82f6", power := 60,
         current := none }] }

namespace Dashboard

/-- Handler `handleApplianceToggle` with the updates of the appliance list
that arrive while the control call is awaited (`during`, for instance the
`setAppliances(data.appliances)` of a poll snapshot). Both updaters of the
handler are functional, `setAppliances(prev => ...)`, so the revert of the
`catch` branch is applied to the list as it is when the call rejects. -/
def handleApplianceToggleDuring (control : Nat → String → Except JsError ControlAck)
    (during : List Appliance → List Appliance) (appliances : List Appliance)
    (applianceId : Nat) : List Appliance × Except JsError Unit :=
  let status := newStatus appliances applianceId
  let optimistic := optimisticUpdate applianceId status appliances
  match control applianceId status.toLower with
  | .ok _ => (during optimistic, .ok ())
  | .error _ => (revertUpdate applianceId (during optimistic), .ok ())

end Dashboard

/-- The first snapshot of a poll cycle whose appliance request answers with
the powers 20 and 5 while the other requests fail. -/
def snapshotTwentyFive : Snapshot :=
  { energy := none, appliances := some (LiveApiService.applianceDataOf readingTwentyFive),
    alerts := some [], health := none, timestamp := "t1", isConnected := false }

/-- What the polling callback does to the appliance list when
`snapshotTwentyFive` arrives. -/
def snapshotTwentyFiveArrives (l : List Appliance) : List Appliance :=
  (Dashboard.pollCallback "t1" { dashboardWithReading with appliances := l }
    snapshotTwentyFive).appliances

/-- Rounding to the nearest integer, a tie going to the even one. -/
def roundHalfEven (x : ℚ) : ℤ :=
  if x - ⌊x⌋ < 1 / 2 then ⌊x⌋
  else if 1 / 2 < x - ⌊x⌋ then ⌊x⌋ + 1
  else if ⌊x⌋ % 2 = 0 then ⌊x⌋ else ⌊x⌋ + 1

/-- The double nearest to `x`, a tie going to the even significand: the
rounding of binary64 arithmetic, with 53 significant bits. The exponent range
is not bounded here, so overflow to `Infinity` and the subnormal numbers are
left out. -/
def roundToDouble (x : ℚ) : ℚ :=
  if x = 0 then 0
  else roundHalfEven (x / 2 ^ (Int.log 2 |x| - 52)) * 2 ^ (Int.log 2 |x| - 52)

namespace LiveApiService

/-- The body of `getApplianceUsageBreakdown` once a reading is available, with
the rounding of double arithmetic made explicit: a JavaScript number is a
double, and `+`, `/` and `*` return the double nearest to the exact result,
written `fl` of it here. `Math.round` returns the exact nearest integer of its
argument. With `fl` the identity this is `usageBreakdownOf`. -/
def usageBreakdownWith (fl : ℚ → ℚ) (energyData : EnergyData) : List UsageEntry :=
  let totalPower := fl (energyData.p1 + energyData.p2)
  if totalPower = 0 then
    [ { name := "Appliance 1", usage := 50, cost := 0, color := "#3b82f6", power := 0,
        current := none },
      { name := "Appliance 2", usage := 50, cost := 0, color := "#10b981", power := 0,
        current := none } ]
  else
    let app1Percentage := mathRound (fl (fl (energyData.p1 / totalPower) * 100))
    let app2Percentage := mathRound (fl (fl (energyData.p2 / totalPower) * 100))
    let totalCost := energyData.cost_inr
    [ { name := "Appliance 1", usage := app1Percentage,
        cost := mathRound (fl (totalCost * fl (energyData.p1 / totalPower))),
        color := "#3b82f6", power := energyData.p1, current := some energyData.i1 },
      { name := "Appliance 2", usage := app2Percentage,
        cost := mathRound (fl (totalCost * fl (energyData.p2 / totalPower))),
        color := "#10b981", power := energyData.p2, current := some energyData.i2 } ]

/-- Method `getApplianceUsageBreakdown` with the rounding of double arithmetic
made explicit. -/
def getApplianceUsageBreakdownWith (fl : ℚ → ℚ) (s : LiveApiService)
    (net : FetchResult LiveDataResponse) :
    LiveApiService × Except JsError (List UsageEntry) :=
  match getLiveEnergyData s net with
  | (s1, .ok (some energyData)) => (s1, .ok (usageBreakdownWith fl energyData))
  | (s1, .ok none) => (s1, .ok [])
  | (s1, .error _) => (s1, .ok [])

end LiveApiService

/-! ## Rounding -/

/-- Two numbers within a quarter of a share `X` of 100 and of its complement
`100 - X`, each rounded half-up on its own: the results add up to 99, 100 or
101. -/
theorem mathRound_sum_near_hundred (x y X : ℚ) (hx : |x - X| ≤ 1 / 4)
    (hy : |y - (100 - X)| ≤ 1 / 4) :
    mathRound x + mathRound y = 99 ∨ mathRound x + mathRound y = 100 ∨
      mathRound x + mathRound y = 101 := by
  unfold mathRound
  have a1 := Int.floor_le (x + 1 / 2)
  have a2 := Int.lt_floor_add_one (x + 1 / 2)
  have b1 := Int.floor_le (y + 1 / 2)
  have b2 := Int.lt_floor_add_one (y + 1 / 2)
  obtain ⟨hx1, hx2⟩ := abs_le.mp hx
  obtain ⟨hy1, hy2⟩ := abs_le.mp hy
  have hlo : ((98 : ℤ) : ℚ) < ((⌊x + 1 / 2⌋ + ⌊y + 1 / 2⌋ : ℤ) : ℚ) := by
    push_cast
    linarith
  have hhi : ((⌊x + 1 / 2⌋ + ⌊y + 1 / 2⌋ : ℤ) : ℚ) < ((102 : ℤ) : ℚ) := by
    push_cast
    linarith
  have hlo2 : 98 < ⌊x + 1 / 2⌋ + ⌊y + 1 / 2⌋ := by exact_mod_cast hlo
  have hhi2 : ⌊x + 1 / 2⌋ + ⌊y + 1 / 2⌋ < 102 := by exact_mod_cast hhi
  omega

/-- A number within a quarter of `X`, rounded half-up, is within three
quarters of `X`. -/
theorem mathRound_near (x X : ℚ) (hx : |x - X| ≤ 1 / 4) :
    |((mathRound x : ℤ) : ℚ) - X| ≤ 3 / 4 := by
  unfold mathRound
  have a1 := Int.floor_le (x + 1 / 2)
  have a2 := Int.lt_floor_add_one (x + 1 / 2)
  obtain ⟨hx1, hx2⟩ := abs_le.mp hx
  rw [abs_le]
  constructor <;> linarith

/-- A rounding with relative error at most 1/2000 moves a non-negative number
by at most that fraction of it. -/
theorem rounding_bounds (fl : ℚ → ℚ) (u : ℚ) (hu : u ≤ 1 / 2000)
    (hfl : ∀ x : ℚ, |fl x - x| ≤ u * |x|) (x : ℚ) (hx : 0 ≤ x) :
    1999 / 2000 * x ≤ fl x ∧ fl x ≤ 2001 / 2000 * x := by
  have h := hfl x
  rw [abs_of_nonneg hx] at h
  obtain ⟨h1, h2⟩ := abs_le.mp h
  have h3 : u * x ≤ 1 / 2000 * x := mul_le_mul_of_nonneg_right hu hx
  constructor <;> linarith

/-- A quotient by a divisor that is off by at most one part in 2000 is off by
at most that much. -/
theorem quotient_bounds (q c T t : ℚ) (hq0 : 0 ≤ q) (ht : 0 < t) (hqc : q * T = c * t)
    (hT1 : 1999 / 2000 * t ≤ T) (hT2 : T ≤ 2001 / 2000 * t) :
    q * (1999 / 2000) ≤ c ∧ c ≤ q * (2001 / 2000) := by
  constructor
  · have h : q * (1999 / 2000) * t ≤ c * t :=
      calc q * (1999 / 2000) * t = q * (1999 / 2000 * t) := by ring
        _ ≤ q * T := mul_le_mul_of_nonneg_left hT1 hq0
        _ = c * t := hqc
    exact le_of_mul_le_mul_right h ht
  · have h : c * t ≤ q * (2001 / 2000) * t :=
      calc c * t = q * T := hqc.symm
        _ ≤ q * (2001 / 2000 * t) := mul_le_mul_of_nonneg_left hT2 hq0
        _ = q * (2001 / 2000) * t := by ring
    exact le_of_mul_le_mul_right h ht

/-- The share `p / t * 100` computed as in `getApplianceUsageBreakdown`, every
operation rounded with relative error at most 1/2000 (the rounding of double
arithmetic has relative error at most `2 ^ (-53)`), is within a quarter of
the exact share, and the rounded total is not zero. -/
theorem share_error_of_relative_rounding (fl : ℚ → ℚ) (u : ℚ) (hu : u ≤ 1 / 2000)
    (hfl : ∀ x : ℚ, |fl x - x| ≤ u * |x|) (p t : ℚ) (hp : 0 ≤ p) (hpt : p ≤ t)
    (ht : 0 < t) :
    fl t ≠ 0 ∧ |fl (fl (p / fl t) * 100) - p / t * 100| ≤ 1 / 4 := by
  obtain ⟨hT1, hT2⟩ := rounding_bounds fl u hu hfl t ht.le
  have hTpos : 0 < fl t := by linarith
  have hq0 : 0 ≤ p / fl t := div_nonneg hp hTpos.le
  have hqc : p / fl t * fl t = p / t * t := by
    rw [div_mul_cancel₀ p (ne_of_gt hTpos), div_mul_cancel₀ p (ne_of_gt ht)]
  have hc0 : 0 ≤ p / t := div_nonneg hp ht.le
  have hc1 : p / t ≤ 1 := (div_le_one ht).mpr hpt
  obtain ⟨hq1, hq2⟩ := quotient_bounds (p / fl t) (p / t) (fl t) t hq0 ht hqc hT1 hT2
  obtain ⟨hs1, hs2⟩ := rounding_bounds fl u hu hfl (p / fl t) hq0
  have hs0 : 0 ≤ fl (p / fl t) := by linarith
  have hr0 : 0 ≤ fl (p / fl t) * 100 := by linarith
  obtain ⟨hx1, hx2⟩ := rounding_bounds fl u hu hfl (fl (p / fl t) * 100) hr0
  refine ⟨ne_of_gt hTpos, abs_le.mpr ⟨?_, ?_⟩⟩ <;> linarith

/-- Rounding to the nearest integer moves a number by at most one half. -/
theorem roundHalfEven_error (y : ℚ) : |((roundHalfEven y : ℤ) : ℚ) - y| ≤ 1 / 2 := by
  have a1 := Int.floor_le y
  have a2 := Int.lt_floor_add_one y
  unfold roundHalfEven
  rw [abs_le]
  split_ifs with h1 h2 h3
  · constructor <;> linarith
  · push_cast
    constructor <;> linarith
  · constructor <;> linarith
  · push_cast
    constructor <;> linarith

/-- A number less than one half away from the integer `n` rounds to `n`. -/
theorem roundHalfEven_eq (y : ℚ) (n : ℤ) (h : |y - n| < 1 / 2) : roundHalfEven y = n := by
  obtain ⟨h1, h2⟩ := abs_lt.mp h
  have hf : ⌊y⌋ = n ∨ ⌊y⌋ = n - 1 := by
    have a1 := Int.floor_le y
    have a2 := Int.lt_floor_add_one y
    have b1 : ((n - 2 : ℤ) : ℚ) < ((⌊y⌋ : ℤ) : ℚ) := by push_cast; linarith
    have b2 : ((⌊y⌋ : ℤ) : ℚ) < ((n + 1 : ℤ) : ℚ) := by push_cast; linarith
    have c1 : n - 2 < ⌊y⌋ := by exact_mod_cast b1
    have c2 : ⌊y⌋ < n + 1 := by exact_mod_cast b2
    omega
  unfold roundHalfEven
  rcases hf with hf | hf
  · rw [hf]
    have : y - (n : ℚ) < 1 / 2 := h2
    rw [if_pos this]
  · rw [hf]
    have a1 := Int.floor_le y
    rw [hf] at a1
    push_cast at a1 ⊢
    have hn1 : ¬ (y - ((n : ℚ) - 1) < 1 / 2) := by
      intro hh
      linarith
    have hn2 : 1 / 2 < y - ((n : ℚ) - 1) := by linarith
    rw [if_neg hn1, if_pos hn2]
    ring

/-- The rounding to the nearest double has relative error at most `2 ^ (-53)`. -/
theorem roundToDouble_error (x : ℚ) : |roundToDouble x - x| ≤ 1 / 2 ^ 53 * |x| := by
  unfold roundToDouble
  by_cases hx : x = 0
  · rw [if_pos hx, hx]
    simp
  · rw [if_neg hx]
    have hpos : 0 < |x| := abs_pos.mpr hx
    have hulp : (0 : ℚ) < 2 ^ (Int.log 2 |x| - 52) := by positivity
    have hlog : (2 : ℚ) ^ Int.log 2 |x| ≤ |x| := by
      have := Int.zpow_log_le_self (b := 2) (r := |x|) (by norm_num) hpos
      simpa using this
    have herr := roundHalfEven_error (x / 2 ^ (Int.log 2 |x| - 52))
    have h1 : ((roundHalfEven (x / 2 ^ (Int.log 2 |x| - 52)) : ℤ) : ℚ)
          * 2 ^ (Int.log 2 |x| - 52) - x
        = (((roundHalfEven (x / 2 ^ (Int.log 2 |x| - 52)) : ℤ) : ℚ)
            - x / 2 ^ (Int.log 2 |x| - 52)) * 2 ^ (Int.log 2 |x| - 52) := by
      field_simp
    rw [h1, abs_mul, abs_of_pos hulp]
    have h2 : (2 : ℚ) ^ (Int.log 2 |x| - 52) = 2 ^ Int.log 2 |x| / 2 ^ 52 := by
      rw [zpow_sub₀ (by norm_num : (2 : ℚ) ≠ 0)]
      norm_num
    calc |((roundHalfEven (x / 2 ^ (Int.log 2 |x| - 52)) : ℤ) : ℚ)
            - x / 2 ^ (Int.log 2 |x| - 52)| * 2 ^ (Int.log 2 |x| - 52)
        ≤ 1 / 2 * 2 ^ (Int.log 2 |x| - 52) := mul_le_mul_of_nonneg_right herr hulp.le
      _ = 1 / 2 ^ 53 * 2 ^ Int.log 2 |x| := by rw [h2]; ring
      _ ≤ 1 / 2 ^ 53 * |x| := mul_le_mul_of_nonneg_left hlog (by positivity)

/-- The binary exponent of a number between `2 ^ e` and `2 ^ (e + 1)`. -/
theorem log_two_eq (x : ℚ) (e : ℤ) (h1 : (2 : ℚ) ^ e ≤ x) (h2 : x < 2 ^ (e + 1)) :
    Int.log 2 x = e := by
  have hpos : 0 < x := lt_of_lt_of_le (by positivity) h1
  have ha : e ≤ Int.log 2 x := by
    have := (Int.zpow_le_iff_le_log (b := 2) (by norm_num) hpos (x := e)).mp (by simpa using h1)
    exact this
  have hb : Int.log 2 x < e + 1 := by
    have := (Int.lt_zpow_iff_log_lt (b := 2) (by norm_num) hpos (x := e + 1)).mp
      (by simpa using h2)
    exact this
  omega

/-- The double nearest to a positive `x` with binary exponent `e`, when
`x / 2 ^ (e - 52)` is less than one half away from the integer `n`. -/
theorem roundToDouble_eq (x : ℚ) (e n : ℤ) (h1 : (2 : ℚ) ^ e ≤ x) (h2 : x < 2 ^ (e + 1))
    (h3 : |x / 2 ^ (e - 52) - n| < 1 / 2) : roundToDouble x = n * 2 ^ (e - 52) := by
  have hpos : 0 < x := lt_of_lt_of_le (by positivity) h1
  unfold roundToDouble
  rw [if_neg (ne_of_gt hpos), abs_of_pos hpos, log_two_eq x e h1 h2, roundHalfEven_eq _ n h3]

/-- In double arithmetic the computed share is within a quarter of the exact
share, and the computed total is not zero. -/
theorem roundToDouble_share_error (p t : ℚ) (hp : 0 ≤ p) (hpt : p ≤ t) (ht : 0 < t) :
    roundToDouble t ≠ 0 ∧
    |roundToDouble (roundToDouble (p / roundToDouble t) * 100) - p / t * 100| ≤ 1 / 4 :=
  share_error_of_relative_rounding roundToDouble (1 / 2 ^ 53) (by norm_num)
    roundToDouble_error p t hp hpt ht

/-- The two percentages of the non-zero branch are a share and its complement. -/
theorem share_complement (p1 p2 : ℚ) (h : p1 + p2 ≠ 0) :
    p2 / (p1 + p2) * 100 = 100 - p1 / (p1 + p2) * 100 := by
  field_simp
  ring

/-- What `getApplianceUsageBreakdown` returns once `getLiveEnergyData` yields a
reading. -/
theorem getApplianceUsageBreakdown_of_reading (s : LiveApiService)
    (net : FetchResult LiveDataResponse) (e : EnergyData)
    (h : (getLiveEnergyData s net).2 = .ok (some e)) :
    (getApplianceUsageBreakdown s net).2 = .ok (usageBreakdownOf e) := by
  unfold getApplianceUsageBreakdown
  rcases hr : getLiveEnergyData s net with ⟨s1, r⟩
  rw [hr] at h
  simp only at h
  subst h
  rfl

/-! ## Usage breakdown -/

/-- What `getApplianceUsageBreakdownWith` returns once `getLiveEnergyData`
yields a reading. -/
theorem getApplianceUsageBreakdownWith_of_reading (fl : ℚ → ℚ) (s : LiveApiService)
    (net : FetchResult LiveDataResponse) (e : EnergyData)
    (h : (getLiveEnergyData s net).2 = .ok (some e)) :
    (getApplianceUsageBreakdownWith fl s net).2 = .ok (usageBreakdownWith fl e) := by
  unfold getApplianceUsageBreakdownWith
  rcases hr : getLiveEnergyData s net with ⟨s1, r⟩
  rw [hr] at h
  simp only at h
  subst h
  rfl

/-- With exact arithmetic for `fl`, the breakdown is `usageBreakdownOf` and the
method is `getApplianceUsageBreakdown`. -/
theorem usageBreakdownWith_exact (s : LiveApiService) (net : FetchResult LiveDataResponse)
    (e : EnergyData) :
    usageBreakdownWith (fun x => x) e = usageBreakdownOf e ∧
    getApplianceUsageBreakdownWith (fun x => x) s net = getApplianceUsageBreakdown s net :=
  ⟨rfl, rfl⟩

/-- C1 (as amended). For every reading with `p1, p2 ≥ 0` and `p1 + p2 > 0`,
`getApplianceUsageBreakdown` returns two entries whose usage percentages are
each the half-up rounding of its own computed share `pk / (p1 + p2) * 100`,
within three quarters of the exact share, and add up to 99, 100 or 101: no
entry absorbs the remainder. Here `fl` is the rounding of the arithmetic, and
the computed shares are taken to lie within a quarter of the exact ones, as
they do in double arithmetic when `p1 + p2` does not overflow. -/
theorem usage_percentages_sum_near_hundred (fl : ℚ → ℚ) (s : LiveApiService)
    (net : FetchResult LiveDataResponse) (e : EnergyData)
    (h : (getLiveEnergyData s net).2 = .ok (some e))
    (_h1 : 0 ≤ e.p1) (_h2 : 0 ≤ e.p2) (hpos : 0 < e.p1 + e.p2)
    (hne : fl (e.p1 + e.p2) ≠ 0)
    (hacc1 : |fl (fl (e.p1 / fl (e.p1 + e.p2)) * 100) - e.p1 / (e.p1 + e.p2) * 100| ≤ 1 / 4)
    (hacc2 : |fl (fl (e.p2 / fl (e.p1 + e.p2)) * 100) - e.p2 / (e.p1 + e.p2) * 100| ≤ 1 / 4) :
    ∃ a b : UsageEntry, (getApplianceUsageBreakdownWith fl s net).2 = .ok [a, b] ∧
      a.usage = mathRound (fl (fl (e.p1 / fl (e.p1 + e.p2)) * 100)) ∧
      b.usage = mathRound (fl (fl (e.p2 / fl (e.p1 + e.p2)) * 100)) ∧
      |((a.usage : ℤ) : ℚ) - e.p1 / (e.p1 + e.p2) * 100| ≤ 3 / 4 ∧
      |((b.usage : ℤ) : ℚ) - e.p2 / (e.p1 + e.p2) * 100| ≤ 3 / 4 ∧
      (a.usage + b.usage = 99 ∨ a.usage + b.usage = 100 ∨ a.usage + b.usage = 101) := by
  have hne2 : e.p1 + e.p2 ≠ 0 := ne_of_gt hpos
  have hsum := mathRound_sum_near_hundred _ _ _ hacc1
    (by rw [← share_complement e.p1 e.p2 hne2]; exact hacc2)
  rw [getApplianceUsageBreakdownWith_of_reading fl s net e h]
  unfold usageBreakdownWith
  simp only [if_neg hne]
  exact ⟨_, _, rfl, rfl, rfl, mathRound_near _ _ hacc1, mathRound_near _ _ hacc2, hsum⟩

/-- Instance of `usage_percentages_sum_near_hundred` at the reading with powers
17 and 23, in double arithmetic. -/
theorem usage_percentages_sum_near_hundred_witness :
    ∃ a b : UsageEntry,
      (getApplianceUsageBreakdownWith roundToDouble freshService
        (okResponse ⟨true, some [pointWithPowers 17 23]⟩)).2 = .ok [a, b] ∧
      (a.usage + b.usage = 99 ∨ a.usage + b.usage = 100 ∨ a.usage + b.usage = 101) := by
  have h1 : (0 : ℚ) ≤ (energyDataOf (pointWithPowers 17 23)).p1 := by
    simp [energyDataOf, pointWithPowers, orZero]
  have h2 : (0 : ℚ) ≤ (energyDataOf (pointWithPowers 17 23)).p2 := by
    simp [energyDataOf, pointWithPowers, orZero]
  have hpos : (0 : ℚ) < (energyDataOf (pointWithPowers 17 23)).p1
      + (energyDataOf (pointWithPowers 17 23)).p2 := by
    simp only [energyDataOf, pointWithPowers, orZero]
    norm_num
  obtain ⟨a, b, hab, _, _, _, _, hsum⟩ :=
    usage_percentages_sum_near_hundred roundToDouble freshService
      (okResponse ⟨true, some [pointWithPowers 17 23]⟩)
      (energyDataOf (pointWithPowers 17 23))
      (by simp [getLiveEnergyData, apiCall, okResponse]) h1 h2 hpos
      (roundToDouble_share_error _ _ h1 (le_add_of_nonneg_right h2) hpos).1
      (roundToDouble_share_error _ _ h1 (le_add_of_nonneg_right h2) hpos).2
      (roundToDouble_share_error _ _ h2 (le_add_of_nonneg_left h1) hpos).2
  exact ⟨a, b, hab, hsum⟩

/-- C1 (counterexample). The reading with `p1 = 1` and `p2 = 7` has shares 12.5
and 87.5, which round to 13 and 88: the percentages add up to 101, not 100. -/
theorem usage_percentages_sum_counterexample :
    (0 : ℚ) ≤ 1 ∧ (0 : ℚ) ≤ 7 ∧ (0 : ℚ) < 1 + 7 ∧
    ∃ l : List UsageEntry,
      (getApplianceUsageBreakdown freshService
        (okResponse ⟨true, some [pointWithPowers 1 7]⟩)).2 = .ok l ∧
      l.map UsageEntry.usage = [13, 88] ∧ (l.map UsageEntry.usage).sum ≠ 100 := by
  refine ⟨by norm_num, by norm_num, by norm_num, ?_⟩
  have h : (getLiveEnergyData freshService (okResponse ⟨true, some [pointWithPowers 1 7]⟩)).2
      = .ok (some (energyDataOf (pointWithPowers 1 7))) := by
    simp [getLiveEnergyData, apiCall, okResponse]
  have ha : mathRound ((1 : ℚ) / (1 + 7) * 100) = 13 := by
    simp [mathRound, Int.floor_eq_iff]; norm_num
  have hb : mathRound ((7 : ℚ) / (1 + 7) * 100) = 88 := by
    simp [mathRound, Int.floor_eq_iff]; norm_num
  have hl : (usageBreakdownOf (energyDataOf (pointWithPowers 1 7))).map UsageEntry.usage
      = [13, 88] := by
    have hne : ¬ ((1 : ℚ) + 7 = 0) := by norm_num
    simp only [usageBreakdownOf, energyDataOf, pointWithPowers, orZero, if_neg hne,
      List.map_cons, List.map_nil, ha, hb]
  refine ⟨_, getApplianceUsageBreakdown_of_reading _ _ _ h, hl, ?_⟩
  rw [hl]
  decide

/-- A positive `x` with binary exponent `e` for which `x / 2 ^ (e - 52)` lies
halfway below the even integer `n` rounds to `n * 2 ^ (e - 52)`. -/
theorem roundToDouble_eq_of_tie (x : ℚ) (e n : ℤ) (h1 : (2 : ℚ) ^ e ≤ x)
    (h2 : x < 2 ^ (e + 1)) (h3 : x / 2 ^ (e - 52) = n - 1 / 2) (heven : n % 2 = 0) :
    roundToDouble x = n * 2 ^ (e - 52) := by
  have hpos : 0 < x := lt_of_lt_of_le (by positivity) h1
  have hfloor : ⌊x / 2 ^ (e - 52)⌋ = n - 1 := by
    rw [h3, Int.floor_eq_iff]
    push_cast
    constructor <;> linarith
  have hodd : ¬ ((n - 1) % 2 = 0) := by omega
  have hr : roundHalfEven (x / 2 ^ (e - 52)) = n := by
    unfold roundHalfEven
    rw [hfloor]
    have hfrac : x / 2 ^ (e - 52) - ((n - 1 : ℤ) : ℚ) = 1 / 2 := by
      rw [h3]
      push_cast
      ring
    rw [hfrac, if_neg (lt_irrefl _), if_neg (lt_irrefl _), if_neg hodd]
    ring
  unfold roundToDouble
  rw [if_neg (ne_of_gt hpos), abs_of_pos hpos, log_two_eq x e h1 h2, hr]

/-- The usage percentages in double arithmetic at three readings. With the
powers 1 and 7 every intermediate result is a double, and the percentages are
13 and 88, as in exact arithmetic. With the powers 17 and 23 the second share
is computed as 57.49999999999999 and the percentages are 43 and 57. With the
doubles nearest to 37.8 and 130.2 both shares are computed just below 22.5 and
77.5 and the percentages are 22 and 77. The sums are 101, 100 and 99. -/
theorem usage_percentages_in_double_arithmetic :
    (usageBreakdownWith roundToDouble (energyDataOf (pointWithPowers 1 7))).map
      UsageEntry.usage = [13, 88] ∧
    (usageBreakdownWith roundToDouble (energyDataOf (pointWithPowers 17 23))).map
      UsageEntry.usage = [43, 57] ∧
    roundToDouble (378 / 10) = 2659938529915699 / 2 ^ 46 ∧
    roundToDouble (1302 / 10) = 2290502622982963 / 2 ^ 44 ∧
    (usageBreakdownWith roundToDouble
      (energyDataOf (pointWithPowers (2659938529915699 / 2 ^ 46)
        (2290502622982963 / 2 ^ 44)))).map UsageEntry.usage = [22, 77] := by
  have t8 : roundToDouble ((1 : ℚ) + 7) = 8 := by
    rw [roundToDouble_eq (1 + 7) 3 4503599627370496 (by norm_num) (by norm_num)
      (by rw [abs_lt]; constructor <;> norm_num)]
    norm_num
  have q18 : roundToDouble ((1 : ℚ) / 8) = 1 / 8 := by
    rw [roundToDouble_eq (1 / 8) (-3) 4503599627370496 (by norm_num) (by norm_num)
      (by rw [abs_lt]; constructor <;> norm_num)]
    norm_num
  have r18 : roundToDouble ((1 : ℚ) / 8 * 100) = 25 / 2 := by
    rw [roundToDouble_eq (1 / 8 * 100) 3 7036874417766400 (by norm_num) (by norm_num)
      (by rw [abs_lt]; constructor <;> norm_num)]
    norm_num
  have q78 : roundToDouble ((7 : ℚ) / 8) = 7 / 8 := by
    rw [roundToDouble_eq (7 / 8) (-1) 7881299347898368 (by norm_num) (by norm_num)
      (by rw [abs_lt]; constructor <;> norm_num)]
    norm_num
  have r78 : roundToDouble ((7 : ℚ) / 8 * 100) = 175 / 2 := by
    rw [roundToDouble_eq (7 / 8 * 100) 6 6157265115545600 (by norm_num) (by norm_num)
      (by rw [abs_lt]; constructor <;> norm_num)]
    norm_num
  have t40 : roundToDouble ((17 : ℚ) + 23) = 40 := by
    rw [roundToDouble_eq (17 + 23) 5 5629499534213120 (by norm_num) (by norm_num)
      (by rw [abs_lt]; constructor <;> norm_num)]
    norm_num
  have q17 : roundToDouble ((17 : ℚ) / 40) = 7656119366529843 / 2 ^ 54 := by
    rw [roundToDouble_eq (17 / 40) (-2) 7656119366529843 (by norm_num) (by norm_num)
      (by rw [abs_lt]; constructor <;> norm_num)]
    norm_num
  have r17 : roundToDouble ((7656119366529843 : ℚ) / 2 ^ 54 * 100) = 85 / 2 := by
    rw [roundToDouble_eq (7656119366529843 / 2 ^ 54 * 100) 5 5981343255101440
      (by norm_num) (by norm_num) (by rw [abs_lt]; constructor <;> norm_num)]
    norm_num
  have q23 : roundToDouble ((23 : ℚ) / 40) = 5179139571476070 / 2 ^ 53 := by
    rw [roundToDouble_eq (23 / 40) (-1) 5179139571476070 (by norm_num) (by norm_num)
      (by rw [abs_lt]; constructor <;> norm_num)]
    norm_num
  have r23 : roundToDouble ((5179139571476070 : ℚ) / 2 ^ 53 * 100)
      = 8092405580431359 / 2 ^ 47 := by
    rw [roundToDouble_eq (5179139571476070 / 2 ^ 53 * 100) 5 8092405580431359
      (by norm_num) (by norm_num) (by rw [abs_lt]; constructor <;> norm_num)]
    norm_num
  have d378 : roundToDouble ((378 : ℚ) / 10) = 2659938529915699 / 2 ^ 46 := by
    rw [roundToDouble_eq (378 / 10) 5 5319877059831398 (by norm_num) (by norm_num)
      (by rw [abs_lt]; constructor <;> norm_num)]
    norm_num
  have d1302 : roundToDouble ((1302 : ℚ) / 10) = 2290502622982963 / 2 ^ 44 := by
    rw [roundToDouble_eq (1302 / 10) 7 4581005245965926 (by norm_num) (by norm_num)
      (by rw [abs_lt]; constructor <;> norm_num)]
    norm_num
  have t168 : roundToDouble ((2659938529915699 : ℚ) / 2 ^ 46 + 2290502622982963 / 2 ^ 44)
      = 168 := by
    rw [roundToDouble_eq_of_tie (2659938529915699 / 2 ^ 46 + 2290502622982963 / 2 ^ 44) 7
      5910974510923776 (by norm_num) (by norm_num) (by norm_num) (by norm_num)]
    norm_num
  have q378 : roundToDouble ((2659938529915699 : ℚ) / 2 ^ 46 / 168)
      = 8106479329266892 / 2 ^ 55 := by
    rw [roundToDouble_eq (2659938529915699 / 2 ^ 46 / 168) (-3) 8106479329266892
      (by norm_num) (by norm_num) (by rw [abs_lt]; constructor <;> norm_num)]
    norm_num
  have r378 : roundToDouble ((8106479329266892 : ℚ) / 2 ^ 55 * 100)
      = 6333186975989759 / 2 ^ 48 := by
    rw [roundToDouble_eq (8106479329266892 / 2 ^ 55 * 100) 4 6333186975989759
      (by norm_num) (by norm_num) (by rw [abs_lt]; constructor <;> norm_num)]
    norm_num
  have q1302 : roundToDouble ((2290502622982963 : ℚ) / 2 ^ 44 / 168)
      = 6980579422424268 / 2 ^ 53 := by
    rw [roundToDouble_eq (2290502622982963 / 2 ^ 44 / 168) (-1) 6980579422424268
      (by norm_num) (by norm_num) (by rw [abs_lt]; constructor <;> norm_num)]
    norm_num
  have r1302 : roundToDouble ((6980579422424268 : ℚ) / 2 ^ 53 * 100)
      = 5453577673768959 / 2 ^ 46 := by
    rw [roundToDouble_eq (6980579422424268 / 2 ^ 53 * 100) 6 5453577673768959
      (by norm_num) (by norm_num) (by rw [abs_lt]; constructor <;> norm_num)]
    norm_num
  have m13 : mathRound ((25 : ℚ) / 2) = 13 := by
    simp [mathRound, Int.floor_eq_iff]; norm_num
  have m88 : mathRound ((175 : ℚ) / 2) = 88 := by
    simp [mathRound, Int.floor_eq_iff]; norm_num
  have m43 : mathRound ((85 : ℚ) / 2) = 43 := by
    simp [mathRound, Int.floor_eq_iff]; norm_num
  have m57 : mathRound ((8092405580431359 : ℚ) / 2 ^ 47) = 57 := by
    simp [mathRound, Int.floor_eq_iff]; norm_num
  have m22 : mathRound ((6333186975989759 : ℚ) / 2 ^ 48) = 22 := by
    simp [mathRound, Int.floor_eq_iff]; norm_num
  have m77 : mathRound ((5453577673768959 : ℚ) / 2 ^ 46) = 77 := by
    simp [mathRound, Int.floor_eq_iff]; norm_num
  have n8 : ¬ ((8 : ℚ) = 0) := by norm_num
  have n40 : ¬ ((40 : ℚ) = 0) := by norm_num
  have n168 : ¬ ((168 : ℚ) = 0) := by norm_num
  refine ⟨?_, ?_, d378, d1302, ?_⟩
  · simp only [usageBreakdownWith, energyDataOf, pointWithPowers, orZero, t8, if_neg n8,
      List.map_cons, List.map_nil, q18, r18, q78, r78, m13, m88]
  · simp only [usageBreakdownWith, energyDataOf, pointWithPowers, orZero, t40, if_neg n40,
      List.map_cons, List.map_nil, q17, r17, q23, r23, m43, m57]
  · simp only [usageBreakdownWith, energyDataOf, pointWithPowers, orZero, t168, if_neg n168,
      List.map_cons, List.map_nil, q378, r378, q1302, r1302, m22, m77]

/-- C2. For every reading with `p1 + p2 = 0`, whatever its other fields are,
`getApplianceUsageBreakdown` returns exactly the two default entries
"Appliance 1" and "Appliance 2", each with usage 50, cost 0 and power 0. -/
theorem usage_breakdown_zero_power (s : LiveApiService) (net : FetchResult LiveDataResponse)
    (e : EnergyData) (h : (getLiveEnergyData s net).2 = .ok (some e))
    (hzero : e.p1 + e.p2 = 0) :
    (getApplianceUsageBreakdown s net).2 = .ok
      [ { name := "Appliance 1", usage := 50, cost := 0, color := "#3b82f6", power := 0,
          current := none },
        { name := "Appliance 2", usage := 50, cost := 0, color := "#10b981", power := 0,
          current := none } ] := by
  rw [getApplianceUsageBreakdown_of_reading s net e h]
  unfold usageBreakdownOf
  simp only [if_pos hzero]

/-- Instance of the zero-power case: a reading with `p1 = p2 = 0` and a
`cost_inr` of 15. -/
theorem usage_breakdown_zero_power_witness :
    (energyDataOf { pointWithPowers 0 0 with cost_inr := some 15 }).p1
      + (energyDataOf { pointWithPowers 0 0 with cost_inr := some 15 }).p2 = 0 ∧
    (getApplianceUsageBreakdown freshService
      (okResponse ⟨true, some [{ pointWithPowers 0 0 with cost_inr := some 15 }]⟩)).2 = .ok
      [ { name := "Appliance 1", usage := 50, cost := 0, color := "#3b82f6", power := 0,
          current := none },
        { name := "Appliance 2", usage := 50, cost := 0, color := "#10b981", power := 0,
          current := none } ] :=
  ⟨by simp [energyDataOf, pointWithPowers, orZero],
    usage_breakdown_zero_power freshService
      (okResponse ⟨true, some [{ pointWithPowers 0 0 with cost_inr := some 15 }]⟩)
      (energyDataOf { pointWithPowers 0 0 with cost_inr := some 15 })
      (by simp [getLiveEnergyData, apiCall, okResponse])
      (by simp [energyDataOf, pointWithPowers, orZero])⟩

/-! ## Live reading -/

/-- The outcome of `getLiveEnergyData` on a parsed body. -/
theorem getLiveEnergyData_of_body (s : LiveApiService) (net : FetchResult LiveDataResponse)
    (r : LiveDataResponse) (h : apiCall net = .ok r) :
    (getLiveEnergyData s net).2 =
      match r.success, r.data with
      | true, some data =>
        match data.getLast? with
        | some latest => .ok (some (energyDataOf latest))
        | none => .ok none
      | _, _ => .ok none := by
  unfold getLiveEnergyData
  rw [h]
  rcases r with ⟨success, data⟩
  cases success <;> cases data <;> simp
  split <;> rfl

/-- The outcome of `getLiveEnergyData` when `apiCall` rejects. -/
theorem getLiveEnergyData_of_failure (s : LiveApiService) (net : FetchResult LiveDataResponse)
    (e : JsError) (h : apiCall net = .error e) :
    (getLiveEnergyData s net).2 = .ok none := by
  unfold getLiveEnergyData
  rw [h]

/-- C3. For every `/live-data` response (the value `apiCall` returns) with
`success` true and a non-empty `data` list, `getLiveEnergyData` returns a
record built from the last element of `data`: `currentUsage = power =
total_power`, `current = i1 + i2`, `energy = energy_kwh`, `cost = cost_inr`,
`voltage = 220`, an absent field counting as 0. The single point with
`total_power` 500, `i1` 2, `i2` 1, `energy_kwh` 3, `cost_inr` 15 yields
`currentUsage` 500, `current` 3 and `energy` 3. -/
theorem live_energy_from_last_point (s : LiveApiService) (net : FetchResult LiveDataResponse)
    (data : List DataPoint) (hcall : apiCall net = .ok ⟨true, some data⟩) (hne : data ≠ []) :
    (∃ r : EnergyData,
      (getLiveEnergyData s net).2 = .ok (some r) ∧
      r.currentUsage = orZero (data.getLast hne).total_power ∧
      r.power = orZero (data.getLast hne).total_power ∧
      r.current = orZero (data.getLast hne).i1 + orZero (data.getLast hne).i2 ∧
      r.energy = orZero (data.getLast hne).energy_kwh ∧
      r.cost = orZero (data.getLast hne).cost_inr ∧
      r.voltage = 220) ∧
    (∃ r : EnergyData,
      (getLiveEnergyData s singlePointResponse).2 = .ok (some r) ∧
      r.currentUsage = 500 ∧ r.current = 3 ∧ r.energy = 3) := by
  constructor
  · refine ⟨energyDataOf (data.getLast hne), ?_, rfl, rfl, rfl, rfl, rfl, rfl⟩
    rw [getLiveEnergyData_of_body s _ _ hcall]
    simp only [List.getLast?_eq_getLast _ hne]
  · refine ⟨energyDataOf singlePoint, ?_, ?_, ?_, ?_⟩
    · simp [getLiveEnergyData, apiCall, singlePointResponse, okResponse]
    · simp [energyDataOf, orZero, singlePoint]
    · norm_num [energyDataOf, orZero, singlePoint]
    · simp [energyDataOf, orZero, singlePoint]

/-- Instance of `live_energy_from_last_point` at a two-point list: the record
comes from the second point, whose absent `total_power` and currents read as
0. -/
theorem live_energy_from_last_point_witness :
    apiCall (okResponse (⟨true, some [pointWithPowers 1 2, pointWithPowers 3 4]⟩ :
      LiveDataResponse)) = .ok ⟨true, some [pointWithPowers 1 2, pointWithPowers 3 4]⟩ ∧
    [pointWithPowers 1 2, pointWithPowers 3 4] ≠ [] ∧
    ∃ r : EnergyData,
      (getLiveEnergyData freshService
        (okResponse ⟨true, some [pointWithPowers 1 2, pointWithPowers 3 4]⟩)).2
          = .ok (some r) ∧
      r.currentUsage = orZero (([pointWithPowers 1 2, pointWithPowers 3 4]).getLast
        (by simp)).total_power ∧
      r.power = orZero (([pointWithPowers 1 2, pointWithPowers 3 4]).getLast
        (by simp)).total_power ∧
      r.current = orZero (([pointWithPowers 1 2, pointWithPowers 3 4]).getLast (by simp)).i1
        + orZero (([pointWithPowers 1 2, pointWithPowers 3 4]).getLast (by simp)).i2 ∧
      r.energy = orZero (([pointWithPowers 1 2, pointWithPowers 3 4]).getLast
        (by simp)).energy_kwh ∧
      r.cost = orZero (([pointWithPowers 1 2, pointWithPowers 3 4]).getLast (by simp)).cost_inr ∧
      r.voltage = 220 :=
  ⟨rfl, by simp, (live_energy_from_last_point freshService
    (okResponse ⟨true, some [pointWithPowers 1 2, pointWithPowers 3 4]⟩)
    [pointWithPowers 1 2, pointWithPowers 3 4] rfl (by simp)).1⟩

/-- C4. The method `getLiveEnergyData` never throws. It returns `null` exactly
when `apiCall` rejects (which it does on a network error and on a non-OK
status), when `success` is false, when `data` is missing or when `data` is the
empty list; in every other case it returns a record. -/
theorem live_energy_never_throws (s : LiveApiService) (net : FetchResult LiveDataResponse) :
    (∃ v : Option EnergyData, (getLiveEnergyData s net).2 = .ok v) ∧
    ((getLiveEnergyData s net).2 = .ok none ↔
      ((∃ e : JsError, apiCall net = .error e) ∨
        ∃ r : LiveDataResponse, apiCall net = .ok r ∧
          (r.success = false ∨ r.data = none ∨ r.data = some []))) ∧
    (∀ message : String,
      ∃ e : JsError, apiCall (.networkError message : FetchResult LiveDataResponse) = .error e) ∧
    (∀ (status : Nat) (statusText : String) (body : Option LiveDataResponse),
      ∃ e : JsError, apiCall (.response false status statusText body) = .error e) := by
  refine ⟨?_, ?_, ?_, ?_⟩
  · cases hc : apiCall net with
    | error e => exact ⟨none, getLiveEnergyData_of_failure s net e hc⟩
    | ok r =>
      rw [getLiveEnergyData_of_body s net r hc]
      split
      · split
        · exact ⟨_, rfl⟩
        · exact ⟨_, rfl⟩
      · exact ⟨_, rfl⟩
  · cases hc : apiCall net with
    | error e =>
      rw [getLiveEnergyData_of_failure s net e hc]
      simp
    | ok r =>
      rw [getLiveEnergyData_of_body s net r hc]
      rcases r with ⟨success, data⟩
      cases success
      · simp
      · cases data with
        | none => simp
        | some d =>
          cases hd : d.getLast? with
          | none =>
            have : d = [] := List.getLast?_eq_none_iff.mp hd
            simp [this]
          | some latest =>
            have hne : d ≠ [] := by
              intro h0
              rw [h0] at hd
              simp at hd
            simp [hd, hne]
  · intro message
    exact ⟨message, rfl⟩
  · intro status statusText body
    exact ⟨_, rfl⟩

/-! ## Appliance toggle -/

/-- A map returns its argument exactly when it fixes every element. -/
theorem map_eq_self_iff {α : Type} (f : α → α) (l : List α) :
    l.map f = l ↔ ∀ a ∈ l, f a = a := by
  constructor
  · intro h a ha
    have h2 : l.map f = l.map id := by rw [h, List.map_id]
    exact List.map_inj_left.mp h2 a ha
  · intro h
    have h2 : l.map f = l.map id := List.map_inj_left.mpr h
    rw [h2, List.map_id]

/-- The revert map after the optimistic map writes the opposite of the
optimistic status into every appliance with the given id. -/
theorem revert_optimistic (applianceId : Nat) (status : String) (l : List Appliance) :
    revertUpdate applianceId (optimisticUpdate applianceId status l) =
      l.map (fun a =>
        if a.id = applianceId then { a with status := if status = "ON" then "OFF" else "ON" }
        else a) := by
  unfold revertUpdate optimisticUpdate
  rw [List.map_map]
  apply List.map_congr_left
  intro a _
  by_cases h : a.id = applianceId <;> simp [h]

/-- Overwriting the status of a record gives the record back exactly when the
status written is the one it had. -/
theorem with_status_eq_self (a : Appliance) (st : String) :
    { a with status := st } = a ↔ st = a.status := by
  rcases a with ⟨id, name, status, cp, ca, v, ef, lu⟩
  simp

/-- When the `controlAppliance` call rejects, the `catch` branch of
`handleApplianceToggle` gives the list before the toggle back exactly when the
appliances carrying `applianceId` all had status "ON" or all had status
"OFF": it flips the status it finds and restores no saved value. -/
theorem toggle_rejected_restores_iff (control : Nat → String → Except JsError ControlAck)
    (appliances : List Appliance) (applianceId : Nat) (e : JsError)
    (hrej : control applianceId (newStatus appliances applianceId).toLower = .error e) :
    (handleApplianceToggle control appliances applianceId).1 = appliances ↔
      ((∀ a ∈ appliances, a.id = applianceId → a.status = "ON") ∨
        (∀ a ∈ appliances, a.id = applianceId → a.status = "OFF")) := by
  unfold handleApplianceToggle
  simp only [hrej]
  rw [revert_optimistic, map_eq_self_iff]
  have hstep : ∀ st : String,
      (∀ a ∈ appliances,
        (if a.id = applianceId then { a with status := st } else a) = a) ↔
      (∀ a ∈ appliances, a.id = applianceId → a.status = st) := by
    intro st
    constructor
    · intro h a ha hid
      have := h a ha
      rw [if_pos hid, with_status_eq_self] at this
      exact this.symm
    · intro h a ha
      by_cases hid : a.id = applianceId
      · rw [if_pos hid, with_status_eq_self]
        exact (h a ha hid).symm
      · rw [if_neg hid]
  rw [hstep]
  unfold newStatus
  cases hf : appliances.find? (fun a => a.id == applianceId) with
  | none =>
    have hno : ∀ a ∈ appliances, ¬ a.id = applianceId := by
      intro a ha hid
      have := List.find?_eq_none.mp hf a ha
      simp [hid] at this
    constructor
    · intro _
      left
      intro a ha hid
      exact absurd hid (hno a ha)
    · intro _ a ha hid
      exact absurd hid (hno a ha)
  | some a0 =>
    have hmem : a0 ∈ appliances := List.mem_of_find?_eq_some hf
    have hid0 : a0.id = applianceId := by
      have := List.find?_some hf
      simpa using this
    by_cases hon : a0.status = "ON"
    · have hst : (if Option.map (fun a => a.status) (some a0) = some "ON" then "OFF" else "ON")
          = "OFF" := by simp [hon]
      rw [hst]
      have hflip : (if "OFF" = "ON" then "OFF" else "ON") = "ON" := by decide
      rw [hflip]
      constructor
      · intro h
        left
        exact h
      · rintro (h | h)
        · exact h
        · have := h a0 hmem hid0
          rw [hon] at this
          exact absurd this (by decide)
    · have hst : (if Option.map (fun a => a.status) (some a0) = some "ON" then "OFF" else "ON")
          = "ON" := by simp [hon]
      rw [hst]
      have hflip : (if "ON" = "ON" then "OFF" else "ON") = "OFF" := by decide
      rw [hflip]
      constructor
      · intro h
        right
        exact h
      · rintro (h | h)
        · exact absurd (h a0 hmem hid0) hon
        · exact h

/-- Without an update during the await, `handleApplianceToggleDuring` is
`handleApplianceToggle`. -/
theorem handleApplianceToggleDuring_id (control : Nat → String → Except JsError ControlAck)
    (appliances : List Appliance) (applianceId : Nat) :
    handleApplianceToggleDuring control (fun l => l) appliances applianceId
      = handleApplianceToggle control appliances applianceId := rfl

/-- C5 (the failing input). The `catch` branch of `handleApplianceToggle`,
commented "Revert optimistic update", flips the status it finds instead of
restoring the status from before the toggle. With a rejecting control call,
toggling a single appliance whose status is "STANDBY" leaves it "OFF". And
with the list `getApplianceData` builds from the powers 20 and 5 (appliance 1
"ON", appliance 2 "OFF"), toggling appliance 1 while a poll snapshot with the
same list arrives during the awaited call leaves appliance 1 "OFF": in both
cases the list after the handler is not the list before the toggle. -/
theorem toggle_revert_flips_not_restores :
    (handleApplianceToggle rejectingControl [mkAppliance 1 "Fan" "STANDBY"] 1).1
      = [mkAppliance 1 "Fan" "OFF"] ∧
    (handleApplianceToggle rejectingControl [mkAppliance 1 "Fan" "STANDBY"] 1).1
      ≠ [mkAppliance 1 "Fan" "STANDBY"] ∧
    (applianceDataOf readingTwentyFive).map (fun a => (a.id, a.status))
      = [(1, "ON"), (2, "OFF")] ∧
    (∀ l : List Appliance, snapshotTwentyFiveArrives l = applianceDataOf readingTwentyFive) ∧
    (handleApplianceToggleDuring rejectingControl snapshotTwentyFiveArrives
        (applianceDataOf readingTwentyFive) 1).1.map (fun a => (a.id, a.status))
      = [(1, "OFF"), (2, "OFF")] ∧
    (handleApplianceToggleDuring rejectingControl snapshotTwentyFiveArrives
        (applianceDataOf readingTwentyFive) 1).1
      ≠ applianceDataOf readingTwentyFive := by
  have h1 : (handleApplianceToggle rejectingControl [mkAppliance 1 "Fan" "STANDBY"] 1).1
      = [mkAppliance 1 "Fan" "OFF"] := by
    simp [handleApplianceToggle, rejectingControl, newStatus, optimisticUpdate, revertUpdate,
      mkAppliance]
  have h20 : (energyDataOf (pointWithPowers 20 5)).p1 > 10 := by
    simp only [energyDataOf, pointWithPowers, orZero]
    norm_num
  have h5 : ¬ (energyDataOf (pointWithPowers 20 5)).p2 > 10 := by
    simp only [energyDataOf, pointWithPowers, orZero]
    norm_num
  have hbefore : (applianceDataOf readingTwentyFive).map (fun a => (a.id, a.status))
      = [(1, "ON"), (2, "OFF")] := by
    simp only [applianceDataOf, readingTwentyFive, List.map_cons, List.map_nil, if_pos h20,
      if_neg h5]
  have harrive : ∀ l : List Appliance,
      snapshotTwentyFiveArrives l = applianceDataOf readingTwentyFive := by
    intro l
    rfl
  have hafter : (handleApplianceToggleDuring rejectingControl snapshotTwentyFiveArrives
        (applianceDataOf readingTwentyFive) 1).1.map (fun a => (a.id, a.status))
      = [(1, "OFF"), (2, "OFF")] := by
    have hr : (handleApplianceToggleDuring rejectingControl snapshotTwentyFiveArrives
        (applianceDataOf readingTwentyFive) 1).1
        = revertUpdate 1 (applianceDataOf readingTwentyFive) := by
      simp only [handleApplianceToggleDuring, rejectingControl, harrive]
    rw [hr]
    simp [revertUpdate, applianceDataOf, readingTwentyFive, h20, h5]
  refine ⟨h1, ?_, hbefore, harrive, hafter, ?_⟩
  · rw [h1]
    simp [mkAppliance]
  · intro h
    rw [h, hbefore] at hafter
    simp at hafter

/-- C6. For every appliance list containing `applianceId`, right after the
optimistic update of `handleApplianceToggle` the list has the same length and
the same ids in the same order, every appliance with a different id is
unchanged, an appliance with that id differs at most in its status, and the
target (the appliance `find` returns) has its status flipped: "ON" has become
"OFF" and "OFF" has become "ON". -/
theorem optimistic_update_flips_target (appliances : List Appliance) (applianceId : Nat)
    (hmem : ∃ a ∈ appliances, a.id = applianceId) :
    (optimisticUpdate applianceId (newStatus appliances applianceId) appliances).length
      = appliances.length ∧
    (optimisticUpdate applianceId (newStatus appliances applianceId) appliances).map
      (fun a => a.id) = appliances.map (fun a => a.id) ∧
    (∀ (i : Nat) (a : Appliance), appliances[i]? = some a → a.id ≠ applianceId →
      (optimisticUpdate applianceId (newStatus appliances applianceId) appliances)[i]?
        = some a) ∧
    (∀ (i : Nat) (a : Appliance), appliances[i]? = some a → a.id = applianceId →
      ∃ st : String,
        (optimisticUpdate applianceId (newStatus appliances applianceId) appliances)[i]?
          = some { a with status := st }) ∧
    (∃ (target : Appliance) (i : Nat) (st : String),
      appliances.find? (fun a => a.id == applianceId) = some target ∧
      appliances[i]? = some target ∧
      (optimisticUpdate applianceId (newStatus appliances applianceId) appliances)[i]?
        = some { target with status := st } ∧
      (target.status = "ON" → st = "OFF") ∧ (target.status = "OFF" → st = "ON")) := by
  refine ⟨?_, ?_, ?_, ?_, ?_⟩
  · simp [optimisticUpdate]
  · unfold optimisticUpdate
    rw [List.map_map]
    apply List.map_congr_left
    intro a _
    by_cases h : a.id = applianceId <;> simp [h]
  · intro i a hi hid
    simp [optimisticUpdate, hi, hid]
  · intro i a hi hid
    exact ⟨newStatus appliances applianceId, by simp [optimisticUpdate, hi, hid]⟩
  · cases hf : appliances.find? (fun a => a.id == applianceId) with
    | none =>
      obtain ⟨a, ha, hid⟩ := hmem
      have := List.find?_eq_none.mp hf a ha
      simp [hid] at this
    | some target =>
      have hin : target ∈ appliances := List.mem_of_find?_eq_some hf
      have hid : target.id = applianceId := by
        have := List.find?_some hf
        simpa using this
      obtain ⟨i, hi⟩ := List.getElem?_of_mem hin
      refine ⟨target, i, newStatus appliances applianceId, rfl, hi, ?_, ?_, ?_⟩
      · simp [optimisticUpdate, hi, hid]
      · intro hon
        simp [newStatus, hf, hon]
      · intro hoff
        simp [newStatus, hf, hoff]

/-- Instance of `optimistic_update_flips_target`: toggling appliance 2 of a
two-appliance list. -/
theorem optimistic_update_flips_target_witness :
    (∃ a ∈ [mkAppliance 1 "Fan" "ON", mkAppliance 2 "Bulb" "OFF"], a.id = 2) ∧
    (∃ (target : Appliance) (i : Nat) (st : String),
      [mkAppliance 1 "Fan" "ON", mkAppliance 2 "Bulb" "OFF"].find? (fun a => a.id == 2)
        = some target ∧
      [mkAppliance 1 "Fan" "ON", mkAppliance 2 "Bulb" "OFF"][i]? = some target ∧
      (optimisticUpdate 2 (newStatus [mkAppliance 1 "Fan" "ON", mkAppliance 2 "Bulb" "OFF"] 2)
        [mkAppliance 1 "Fan" "ON", mkAppliance 2 "Bulb" "OFF"])[i]?
          = some { target with status := st } ∧
      (target.status = "ON" → st = "OFF") ∧ (target.status = "OFF" → st = "ON")) :=
  ⟨⟨mkAppliance 2 "Bulb" "OFF", by simp, rfl⟩,
    (optimistic_update_flips_target [mkAppliance 1 "Fan" "ON", mkAppliance 2 "Bulb" "OFF"] 2
      ⟨mkAppliance 2 "Bulb" "OFF", by simp, rfl⟩).2.2.2.2⟩

/-! ## Appliance names -/

/-- The handler `handleSaveApplianceNames` leaves the list as its local update
wrote it, whatever the update calls answer. -/
theorem handleSaveApplianceNames_list (update : Nat → String → Except JsError NameAck)
    (names : List (Nat × String)) (prev : List Appliance) :
    (handleSaveApplianceNames update names prev).1 = renameLocal names prev := by
  unfold handleSaveApplianceNames
  rcases saveNamesToBackend update names with ⟨calls, r⟩
  cases r <;> rfl

/-- The name the local update writes into an appliance of `prev`. -/
theorem mem_renameLocal (names : List (Nat × String)) (prev : List Appliance) (b : Appliance)
    (hb : b ∈ renameLocal names prev) :
    ∃ a ∈ prev, b = { a with name := orElseString (names.lookup a.id) a.name } := by
  unfold renameLocal at hb
  rw [List.mem_map] at hb
  obtain ⟨a, ha, hab⟩ := hb
  exact ⟨a, ha, hab.symm⟩

/-- The loop stops at the first rejected call and rejects with its error. -/
theorem saveNamesToBackend_first_failure (update : Nat → String → Except JsError NameAck)
    (pre : List (Nat × String)) (p : Nat × String) (post : List (Nat × String)) (e : JsError)
    (hpre : ∀ q ∈ pre, ∃ ack, update q.1 q.2 = .ok ack) (hp : update p.1 p.2 = .error e) :
    saveNamesToBackend update (pre ++ p :: post) = (pre ++ [p], .error e) := by
  induction pre with
  | nil =>
    rcases p with ⟨applianceId, name⟩
    simp only [List.nil_append, saveNamesToBackend]
    simp only at hp
    rw [hp]
  | cons q rest ih =>
    rcases q with ⟨applianceId, name⟩
    obtain ⟨ack, hack⟩ := hpre (applianceId, name) (List.mem_cons_self _ _)
    have hrest : ∀ q ∈ rest, ∃ ack, update q.1 q.2 = .ok ack :=
      fun q hq => hpre q (List.mem_cons_of_mem _ hq)
    simp only [List.cons_append, saveNamesToBackend]
    simp only at hack
    rw [hack]
    simp only [List.append_eq, ih hrest]

/-- A list of entries with a rejected call splits at the first rejected call. -/
theorem exists_first_failure (update : Nat → String → Except JsError NameAck)
    (names : List (Nat × String))
    (h : ∃ p ∈ names, ∃ e : JsError, update p.1 p.2 = .error e) :
    ∃ (pre : List (Nat × String)) (p : Nat × String) (post : List (Nat × String)) (e : JsError),
      names = pre ++ p :: post ∧ (∀ q ∈ pre, ∃ ack, update q.1 q.2 = .ok ack) ∧
      update p.1 p.2 = .error e := by
  induction names with
  | nil =>
    obtain ⟨p, hp, _⟩ := h
    simp at hp
  | cons q rest ih =>
    cases hq : update q.1 q.2 with
    | error e => exact ⟨[], q, rest, e, rfl, by simp, hq⟩
    | ok ack =>
      have hrest : ∃ p ∈ rest, ∃ e : JsError, update p.1 p.2 = .error e := by
        obtain ⟨p, hp, e, he⟩ := h
        rcases List.mem_cons.mp hp with hpq | hpr
        · subst hpq
          rw [hq] at he
          cases he
        · exact ⟨p, hpr, e, he⟩
      obtain ⟨pre, p, post, e, hsplit, hpre, hp⟩ := ih hrest
      refine ⟨q :: pre, p, post, e, by rw [hsplit]; rfl, ?_, hp⟩
      intro r hr
      rcases List.mem_cons.mp hr with hrq | hrp
      · subst hrq
        exact ⟨ack, hq⟩
      · exact hpre r hrp

/-- C7 (as amended). Right after the local update of `handleSaveApplianceNames`
the list has the same length and each appliance differs from the old one at
most in its name: the name is the map's value when the appliance's id is a key
with a non-empty value, and the old name when the id is a key with the empty
string or is not a key. -/
theorem rename_local_writes_nonempty (names : List (Nat × String)) (prev : List Appliance) :
    (renameLocal names prev).length = prev.length ∧
    ∀ (i : Nat) (a : Appliance), prev[i]? = some a →
      ∃ n : String, (renameLocal names prev)[i]? = some { a with name := n } ∧
        (∀ v : String, names.lookup a.id = some v → v ≠ "" → n = v) ∧
        (names.lookup a.id = some "" → n = a.name) ∧
        (names.lookup a.id = none → n = a.name) := by
  refine ⟨by simp [renameLocal], ?_⟩
  intro i a hi
  refine ⟨orElseString (names.lookup a.id) a.name, by simp [renameLocal, hi], ?_, ?_, ?_⟩
  · intro v hv hne
    simp [orElseString, hv, hne]
  · intro hv
    simp [orElseString, hv]
  · intro hv
    simp [orElseString, hv]

/-- Instance of `rename_local_writes_nonempty`: the first of two appliances,
renamed to "Cooler". -/
theorem rename_local_writes_nonempty_witness :
    [mkAppliance 1 "Fan" "ON", mkAppliance 2 "Bulb" "OFF"][0]?
      = some (mkAppliance 1 "Fan" "ON") ∧
    ∃ n : String,
      (renameLocal [(1, "Cooler"), (2, "")]
        [mkAppliance 1 "Fan" "ON", mkAppliance 2 "Bulb" "OFF"])[0]?
        = some { mkAppliance 1 "Fan" "ON" with name := n } ∧
      (∀ v : String, List.lookup (mkAppliance 1 "Fan" "ON").id [(1, "Cooler"), (2, "")] = some v →
        v ≠ "" → n = v) ∧
      (List.lookup (mkAppliance 1 "Fan" "ON").id [(1, "Cooler"), (2, "")] = some "" →
        n = (mkAppliance 1 "Fan" "ON").name) ∧
      (List.lookup (mkAppliance 1 "Fan" "ON").id [(1, "Cooler"), (2, "")] = none →
        n = (mkAppliance 1 "Fan" "ON").name) :=
  ⟨rfl, (rename_local_writes_nonempty [(1, "Cooler"), (2, "")]
    [mkAppliance 1 "Fan" "ON", mkAppliance 2 "Bulb" "OFF"]).2 0 (mkAppliance 1 "Fan" "ON") rfl⟩

/-- C7 (counterexample). The map that gives appliance 1 the empty string as its
name: id 1 is a key of the map, yet after the local update the appliance is
still called "Fan". -/
theorem rename_local_counterexample :
    List.lookup 1 [(1, "")] = some "" ∧
    renameLocal [(1, "")] [mkAppliance 1 "Fan" "ON"] = [mkAppliance 1 "Fan" "ON"] ∧
    (renameLocal [(1, "")] [mkAppliance 1 "Fan" "ON"]).map (fun a => a.name) ≠ [""] := by
  have h : renameLocal [(1, "")] [mkAppliance 1 "Fan" "ON"] = [mkAppliance 1 "Fan" "ON"] := by
    simp [renameLocal, orElseString, mkAppliance]
  refine ⟨rfl, h, ?_⟩
  rw [h]
  simp [mkAppliance]

/-- C8 (as amended). If some `updateApplianceName` call made by
`handleSaveApplianceNames` rejects, the handler rejects with the error of that
call (the first one to reject, after which no further call is made), and the
list is not rolled back: it is the list as the local update wrote it, so every
appliance whose id has a non-empty name in the map carries that name, the
appliances whose call had already succeeded included. Renaming appliances 1
and 2 to "Cooler" and "Heater" with the second call rejecting leaves the names
"Cooler" and "Heater" in the list. -/
theorem save_names_rejected_keeps_names (update : Nat → String → Except JsError NameAck)
    (names : List (Nat × String)) (prev : List Appliance)
    (h : ∃ p ∈ names, ∃ e : JsError, update p.1 p.2 = .error e) :
    (∃ (pre : List (Nat × String)) (p : Nat × String) (post : List (Nat × String))
        (e : JsError),
      names = pre ++ p :: post ∧ (∀ q ∈ pre, ∃ ack, update q.1 q.2 = .ok ack) ∧
      update p.1 p.2 = .error e ∧
      (handleSaveApplianceNames update names prev).2.2 = .error e ∧
      (handleSaveApplianceNames update names prev).2.1 = pre ++ [p]) ∧
    (handleSaveApplianceNames update names prev).1 = renameLocal names prev ∧
    (∀ b ∈ (handleSaveApplianceNames update names prev).1,
      ∀ v : String, names.lookup b.id = some v → v ≠ "" → b.name = v) ∧
    ((handleSaveApplianceNames (rejectingUpdateFor 2) [(1, "Cooler"), (2, "Heater")]
        [mkAppliance 1 "Fan" "ON", mkAppliance 2 "Bulb" "OFF"]).2.2 = .error "update failed" ∧
      (handleSaveApplianceNames (rejectingUpdateFor 2) [(1, "Cooler"), (2, "Heater")]
        [mkAppliance 1 "Fan" "ON", mkAppliance 2 "Bulb" "OFF"]).1
        = [mkAppliance 1 "Cooler" "ON", mkAppliance 2 "Heater" "OFF"]) := by
  refine ⟨?_, handleSaveApplianceNames_list update names prev, ?_, ?_⟩
  · obtain ⟨pre, p, post, e, hsplit, hpre, hp⟩ := exists_first_failure update names h
    refine ⟨pre, p, post, e, hsplit, hpre, hp, ?_, ?_⟩
    · unfold handleSaveApplianceNames
      rw [hsplit, saveNamesToBackend_first_failure update pre p post e hpre hp]
    · unfold handleSaveApplianceNames
      rw [hsplit, saveNamesToBackend_first_failure update pre p post e hpre hp]
  · intro b hb v hv hne
    rw [handleSaveApplianceNames_list] at hb
    obtain ⟨a, _, hab⟩ := mem_renameLocal names prev b hb
    subst hab
    simp only at hv
    simp [orElseString, hv, hne]
  · constructor
    · simp [handleSaveApplianceNames, saveNamesToBackend, rejectingUpdateFor,
        updateApplianceName]
    · rw [handleSaveApplianceNames_list]
      simp [renameLocal, orElseString, mkAppliance, List.lookup]

/-- Instance of `save_names_rejected_keeps_names`: two renames, the second call
rejecting. -/
theorem save_names_rejected_keeps_names_witness :
    (∃ p ∈ [(1, "Cooler"), (2, "Heater")],
      ∃ e : JsError, rejectingUpdateFor 2 p.1 p.2 = .error e) ∧
    (∀ b ∈ (handleSaveApplianceNames (rejectingUpdateFor 2) [(1, "Cooler"), (2, "Heater")]
        [mkAppliance 1 "Fan" "ON", mkAppliance 2 "Bulb" "OFF"]).1,
      ∀ v : String, List.lookup b.id [(1, "Cooler"), (2, "Heater")] = some v → v ≠ "" →
        b.name = v) :=
  ⟨⟨(2, "Heater"), by simp, "update failed", by simp [rejectingUpdateFor]⟩,
    (save_names_rejected_keeps_names (rejectingUpdateFor 2) [(1, "Cooler"), (2, "Heater")]
      [mkAppliance 1 "Fan" "ON", mkAppliance 2 "Bulb" "OFF"]
      ⟨(2, "Heater"), by simp, "update failed", by simp [rejectingUpdateFor]⟩).2.2.1⟩

/-- C8 (counterexample). Appliance 1 is renamed to the empty string and
appliance 2 to "Heater", and the second call rejects. The call for appliance 1
is issued with the empty string and succeeds, the handler rejects, and the
list still calls appliance 1 "Fan": the new name of an appliance whose call
had succeeded is not in the list. -/
theorem save_names_rejected_counterexample :
    (∃ ack, rejectingUpdateFor 2 1 "" = .ok ack) ∧
    (handleSaveApplianceNames (rejectingUpdateFor 2) [(1, ""), (2, "Heater")]
      [mkAppliance 1 "Fan" "ON", mkAppliance 2 "Bulb" "OFF"]).2.1 = [(1, ""), (2, "Heater")] ∧
    (handleSaveApplianceNames (rejectingUpdateFor 2) [(1, ""), (2, "Heater")]
      [mkAppliance 1 "Fan" "ON", mkAppliance 2 "Bulb" "OFF"]).2.2 = .error "update failed" ∧
    (handleSaveApplianceNames (rejectingUpdateFor 2) [(1, ""), (2, "Heater")]
      [mkAppliance 1 "Fan" "ON", mkAppliance 2 "Bulb" "OFF"]).1
      = [mkAppliance 1 "Fan" "ON", mkAppliance 2 "Heater" "OFF"] ∧
    (mkAppliance 1 "Fan" "ON").name ≠ "" := by
  refine ⟨⟨_, rfl⟩, ?_, ?_, ?_, by decide⟩
  · simp [handleSaveApplianceNames, saveNamesToBackend, rejectingUpdateFor, updateApplianceName]
  · simp [handleSaveApplianceNames, saveNamesToBackend, rejectingUpdateFor, updateApplianceName]
  · rw [handleSaveApplianceNames_list]
    simp [renameLocal, orElseString, mkAppliance, List.lookup]

/-! ## Poll cycle -/

/-- The value of `getLiveEnergyData` does not depend on the service fields. -/
theorem getLiveEnergyData_value_indep (s t : LiveApiService)
    (net : FetchResult LiveDataResponse) :
    (getLiveEnergyData s net).2 = (getLiveEnergyData t net).2 := by
  cases hc : apiCall net with
  | error e =>
    rw [getLiveEnergyData_of_failure s net e hc, getLiveEnergyData_of_failure t net e hc]
  | ok r =>
    rw [getLiveEnergyData_of_body s net r hc, getLiveEnergyData_of_body t net r hc]

/-- The method `getApplianceData` returns the empty list when its request
fails. -/
theorem getApplianceData_of_failure (s : LiveApiService) (net : FetchResult LiveDataResponse)
    (e : JsError) (h : apiCall net = .error e) :
    (getApplianceData s net).2 = .ok [] := by
  have h2 := getLiveEnergyData_of_failure s net e h
  unfold getApplianceData
  rcases hr : getLiveEnergyData s net with ⟨s1, r⟩
  rw [hr] at h2
  simp only at h2
  subst h2
  rfl

/-- The method `getAnomalyAlerts` returns the empty list when its request
fails. -/
theorem getAnomalyAlerts_of_failure (dateParse : String → String)
    (net : FetchResult AnomalyResponse) (e : JsError) (h : apiCall net = .error e) :
    getAnomalyAlerts dateParse net = .ok [] := by
  unfold getAnomalyAlerts
  rw [h]

/-- The snapshots handed to the callback start with the merged one. -/
theorem poll_delivered (s : LiveApiService) (callback : Snapshot → Except JsError Unit)
    (dateParse : String → String) (now nowCatch : String) (net : PollNet) :
    ∃ rest : List Snapshot,
      (poll s callback dateParse now nowCatch net).2.1 =
        { energy := catchNull (getLiveEnergyData s net.energy).2
          appliances := catchNullValue
            (getApplianceData (getLiveEnergyData s net.energy).1 net.appliances).2
          alerts := catchNullValue (getAnomalyAlerts dateParse net.alerts)
          health := catchNullValue (getSystemHealth net.health)
          timestamp := now
          isConnected := (catchNull (getLiveEnergyData s net.energy).2).isSome } :: rest ∧
      (∀ u : Unit,
        callback
          { energy := catchNull (getLiveEnergyData s net.energy).2
            appliances := catchNullValue
              (getApplianceData (getLiveEnergyData s net.energy).1 net.appliances).2
            alerts := catchNullValue (getAnomalyAlerts dateParse net.alerts)
            health := catchNullValue (getSystemHealth net.health)
            timestamp := now
            isConnected := (catchNull (getLiveEnergyData s net.energy).2).isSome } = .ok u →
        rest = [] ∧ (poll s callback dateParse now nowCatch net).2.2 = .ok () ∧
        (poll s callback dateParse now nowCatch net).1.isConnected
          = (catchNull (getLiveEnergyData s net.energy).2).isSome) := by
  unfold poll
  simp only
  split
  · next u hu =>
    refine ⟨[], rfl, ?_⟩
    intro _ _
    exact ⟨rfl, rfl, rfl⟩
  · next e he =>
    refine ⟨[fallbackSnapshot nowCatch], rfl, ?_⟩
    intro u hu
    rw [he] at hu
    cases hu

/-- C9. For every combination of success and failure of the sub-fetches, one
poll cycle hands a merged snapshot to `callback` first. In it a failed energy
fetch is `energy = null`, a failed appliance fetch and a failed alert fetch are
the empty list, a reading or an alert list that was obtained is passed on, and
`isConnected` equals `energy !== null`. When `callback` returns normally this
is the only snapshot, the cycle completes, and `this.isConnected` equals
`energy !== null` as well. -/
theorem poll_cycle_delivers_merged_snapshot (s : LiveApiService)
    (callback : Snapshot → Except JsError Unit) (dateParse : String → String)
    (now nowCatch : String) (net : PollNet) :
    ∃ (snapshot : Snapshot) (rest : List Snapshot),
      (poll s callback dateParse now nowCatch net).2.1 = snapshot :: rest ∧
      ((∃ e : JsError, apiCall net.energy = .error e) → snapshot.energy = none) ∧
      ((∃ e : JsError, apiCall net.appliances = .error e) → snapshot.appliances = some []) ∧
      ((∃ e : JsError, apiCall net.alerts = .error e) → snapshot.alerts = some []) ∧
      (∀ r : EnergyData, (getLiveEnergyData s net.energy).2 = .ok (some r) →
        snapshot.energy = some r) ∧
      (∀ l : List Alert, getAnomalyAlerts dateParse net.alerts = .ok l →
        snapshot.alerts = some l) ∧
      snapshot.isConnected = snapshot.energy.isSome ∧
      (callback snapshot = .ok () →
        rest = [] ∧ (poll s callback dateParse now nowCatch net).2.2 = .ok () ∧
        (poll s callback dateParse now nowCatch net).1.isConnected = snapshot.energy.isSome) := by
  obtain ⟨rest, hdel, hok⟩ := poll_delivered s callback dateParse now nowCatch net
  refine ⟨_, rest, hdel, ?_, ?_, ?_, ?_, ?_, rfl, ?_⟩
  · rintro ⟨e, he⟩
    simp only [getLiveEnergyData_of_failure s net.energy e he, catchNull]
  · rintro ⟨e, he⟩
    simp only [getApplianceData_of_failure _ net.appliances e he, catchNullValue]
  · rintro ⟨e, he⟩
    simp only [getAnomalyAlerts_of_failure dateParse net.alerts e he, catchNullValue]
  · intro r hr
    simp only [hr, catchNull]
  · intro l hl
    simp only [hl, catchNullValue]
  · intro hcb
    exact hok () hcb

/-- Instance of `poll_cycle_delivers_merged_snapshot`: every request fails at
the network and the callback returns normally. Exactly one snapshot is handed
over, with no reading, empty lists and `isConnected` false. -/
theorem poll_cycle_delivers_merged_snapshot_witness :
    ∃ snapshot : Snapshot,
      (poll freshService quietCallback (fun t => t) "t0" "t1" pollNetOffline).2.1 = [snapshot] ∧
      snapshot.energy = none ∧ snapshot.appliances = some [] ∧ snapshot.alerts = some [] ∧
      snapshot.isConnected = false ∧
      (poll freshService quietCallback (fun t => t) "t0" "t1" pollNetOffline).2.2 = .ok () ∧
      (poll freshService quietCallback (fun t => t) "t0" "t1" pollNetOffline).1.isConnected
        = false := by
  obtain ⟨snapshot, rest, hdel, henergy, happ, halerts, _, _, hconn, hcb⟩ :=
    poll_cycle_delivers_merged_snapshot freshService quietCallback (fun t => t) "t0" "t1"
      pollNetOffline
  have h1 : snapshot.energy = none := henergy ⟨"offline", rfl⟩
  obtain ⟨hrest, hres, hstate⟩ := hcb rfl
  rw [h1] at hconn hstate
  rw [hrest] at hdel
  exact ⟨snapshot, hdel, h1, happ ⟨"offline", rfl⟩, halerts ⟨"offline", rfl⟩, hconn, hres,
    hstate⟩

/-! ## Disconnect -/

/-- C10 (as amended). For every state of the service, after `disconnect()` the
field `eventSource` is null; `getConnectionStatus()` is false when an event
source was held before the call, and keeps the value it had when none was
held; calling `disconnect()` twice leaves the same state as calling it once. -/
theorem disconnect_releases_and_is_idempotent (s : LiveApiService) :
    (disconnect s).eventSource = none ∧
    getConnectionStatus (disconnect s) = (s.eventSource.isNone && s.isConnected) ∧
    disconnect (disconnect s) = disconnect s := by
  rcases s with ⟨isConnected, eventSource, lastDataTimestamp⟩
  cases eventSource with
  | none => exact ⟨rfl, by simp [disconnect, getConnectionStatus], rfl⟩
  | some es => exact ⟨rfl, by simp [disconnect, getConnectionStatus], rfl⟩

/-- C10 (counterexample). A fresh service runs one poll cycle in which the
energy request succeeds: no event source is held and `isConnected` is true.
After `disconnect()` the connection status is still true. -/
theorem disconnect_counterexample :
    (poll freshService quietCallback (fun t => t) "t0" "t1" pollNetEnergyOnly).1.eventSource
      = none ∧
    (poll freshService quietCallback (fun t => t) "t0" "t1" pollNetEnergyOnly).1.isConnected
      = true ∧
    getConnectionStatus
      (disconnect (poll freshService quietCallback (fun t => t) "t0" "t1" pollNetEnergyOnly).1)
      = true := by
  have hs : (poll freshService quietCallback (fun t => t) "t0" "t1" pollNetEnergyOnly).1
      = { isConnected := true, eventSource := none, lastDataTimestamp := none } := by
    simp [poll, quietCallback, pollNetEnergyOnly, singlePointResponse, okResponse,
      getLiveEnergyData, getApplianceData, apiCall, catchNull, freshService, singlePoint]
  rw [hs]
  exact ⟨rfl, rfl, rfl⟩

/-! ## Anomaly alerts -/

/-- The outcome of `getAnomalyAlerts` on a parsed body with `success` true and
a list of anomalies. -/
theorem getAnomalyAlerts_of_body (dateParse : String → String)
    (net : FetchResult AnomalyResponse) (anomalies : List Anomaly)
    (h : apiCall net = .ok ⟨true, some anomalies⟩) :
    getAnomalyAlerts dateParse net =
      .ok (((anomalies.filter (fun a => a.is_anomaly)).map (alertOf dateParse)).take 10) := by
  unfold getAnomalyAlerts
  rw [h]

/-- C17. For every successful `/detect-anomalies` response, `getAnomalyAlerts`
returns at most 10 alerts: alert number `i` is built from anomaly number `i`
among those whose `is_anomaly` is true, in response order, with message
`anomaly_type: details` and type `mapSeverityToType(severity)`, and there are
as many alerts as there are such anomalies, up to 10. On a failed call and on
`success` false the result is the empty list. -/
theorem anomaly_alerts_first_ten (dateParse : String → String)
    (net : FetchResult AnomalyResponse) :
    (∀ anomalies : List Anomaly, apiCall net = .ok ⟨true, some anomalies⟩ →
      ∃ alerts : List Alert, getAnomalyAlerts dateParse net = .ok alerts ∧
        alerts.length ≤ 10 ∧
        alerts.length = min 10 (anomalies.filter (fun a => a.is_anomaly)).length ∧
        ∀ (i : Nat) (alert : Alert), alerts[i]? = some alert →
          ∃ a : Anomaly, (anomalies.filter (fun a => a.is_anomaly))[i]? = some a ∧ i < 10 ∧
            a ∈ anomalies ∧ a.is_anomaly = true ∧
            alert.message = a.anomaly_type ++ ": " ++ a.details ∧
            alert.type = mapSeverityToType a.severity ∧
            alert.timestamp = a.timestamp) ∧
    (∀ e : JsError, apiCall net = .error e → getAnomalyAlerts dateParse net = .ok []) ∧
    (∀ r : AnomalyResponse, apiCall net = .ok r → r.success = false →
      getAnomalyAlerts dateParse net = .ok []) := by
  refine ⟨?_, ?_, ?_⟩
  · intro anomalies hcall
    refine ⟨_, getAnomalyAlerts_of_body dateParse net anomalies hcall, ?_, ?_, ?_⟩
    · exact List.length_take_le _ _
    · simp
    · intro i alert hi
      rw [List.getElem?_take] at hi
      by_cases hlt : i < 10
      · rw [if_pos hlt, List.getElem?_map] at hi
        cases hf : (anomalies.filter (fun a => a.is_anomaly))[i]? with
        | none =>
          rw [hf] at hi
          simp at hi
        | some a =>
          rw [hf] at hi
          simp only [Option.map_some', Option.some.injEq] at hi
          have hmem : a ∈ anomalies.filter (fun a => a.is_anomaly) :=
            List.getElem?_mem hf
          rw [List.mem_filter] at hmem
          subst hi
          exact ⟨a, rfl, hlt, hmem.1, hmem.2, rfl, rfl, rfl⟩
      · rw [if_neg hlt] at hi
        cases hi
  · intro e he
    exact getAnomalyAlerts_of_failure dateParse net e he
  · intro r hr hs
    unfold getAnomalyAlerts
    rw [hr]
    rcases r with ⟨success, anomalies⟩
    simp only at hs
    subst hs
    rfl

/-- Instance of `anomaly_alerts_first_ten`: three anomalies, the second one
with `is_anomaly` false. -/
theorem anomaly_alerts_first_ten_witness :
    apiCall (okResponse (⟨true, some [mkAnomaly true "High" "Spike" "p1 high",
        mkAnomaly false "Low" "None" "ok", mkAnomaly true "Low" "Drift" "p2 low"]⟩ :
        AnomalyResponse))
      = .ok ⟨true, some [mkAnomaly true "High" "Spike" "p1 high",
        mkAnomaly false "Low" "None" "ok", mkAnomaly true "Low" "Drift" "p2 low"]⟩ ∧
    ∃ alerts : List Alert,
      getAnomalyAlerts (fun t => t)
        (okResponse ⟨true, some [mkAnomaly true "High" "Spike" "p1 high",
          mkAnomaly false "Low" "None" "ok", mkAnomaly true "Low" "Drift" "p2 low"]⟩)
        = .ok alerts ∧
      alerts.length ≤ 10 ∧
      alerts.length = min 10 ([mkAnomaly true "High" "Spike" "p1 high",
        mkAnomaly false "Low" "None" "ok", mkAnomaly true "Low" "Drift" "p2 low"].filter
          (fun a => a.is_anomaly)).length ∧
      ∀ (i : Nat) (alert : Alert), alerts[i]? = some alert →
        ∃ a : Anomaly, ([mkAnomaly true "High" "Spike" "p1 high",
          mkAnomaly false "Low" "None" "ok", mkAnomaly true "Low" "Drift" "p2 low"].filter
            (fun a => a.is_anomaly))[i]? = some a ∧ i < 10 ∧
          a ∈ [mkAnomaly true "High" "Spike" "p1 high",
            mkAnomaly false "Low" "None" "ok", mkAnomaly true "Low" "Drift" "p2 low"] ∧
          a.is_anomaly = true ∧
          alert.message = a.anomaly_type ++ ": " ++ a.details ∧
          alert.type = mapSeverityToType a.severity ∧
          alert.timestamp = a.timestamp :=
  ⟨rfl, (anomaly_alerts_first_ten (fun t => t)
    (okResponse ⟨true, some [mkAnomaly true "High" "Spike" "p1 high",
      mkAnomaly false "Low" "None" "ok", mkAnomaly true "Low" "Drift" "p2 low"]⟩)).1 _ rfl⟩

/-- C18. For every severity value, `mapSeverityToType` returns "info",
"warning" or "danger": "High" gives "danger", "Medium" gives "warning", "Low"
gives "info", and every other value, a missing one included, gives "info". -/
theorem severity_maps_to_alert_type (severity : Option String) :
    (mapSeverityToType severity = "info" ∨ mapSeverityToType severity = "warning" ∨
      mapSeverityToType severity = "danger") ∧
    mapSeverityToType (some "High") = "danger" ∧
    mapSeverityToType (some "Medium") = "warning" ∧
    mapSeverityToType (some "Low") = "info" ∧
    mapSeverityToType none = "info" ∧
    (severity ≠ some "High" → severity ≠ some "Medium" → severity ≠ some "Low" →
      mapSeverityToType severity = "info") := by
  refine ⟨?_, by decide, by decide, by decide, by decide, ?_⟩
  · unfold mapSeverityToType
    split
    · right; right; rfl
    · split
      · right; left; rfl
      · split
        · left; rfl
        · left; rfl
  · intro h1 h2 h3
    unfold mapSeverityToType
    rw [if_neg h1, if_neg h2, if_neg h3]

/-- Instance of `severity_maps_to_alert_type` at the severity "Critical". -/
theorem severity_maps_to_alert_type_witness :
    (some "Critical" : Option String) ≠ some "High" ∧
    (some "Critical" : Option String) ≠ some "Medium" ∧
    (some "Critical" : Option String) ≠ some "Low" ∧
    mapSeverityToType (some "Critical") = "info" :=
  ⟨by decide, by decide, by decide,
    (severity_maps_to_alert_type (some "Critical")).2.2.2.2.2 (by decide) (by decide)
      (by decide)⟩

/-! ## Energy history -/

/-- The outcome of `getEnergyHistory` on a parsed body with `success` true and
a data list. -/
theorem getEnergyHistory_of_body (formatTime : Option String → String)
    (generateMockHistory : ℤ → List HistoryPoint) (hours : ℤ)
    (net : FetchResult LiveDataResponse) (d : List DataPoint)
    (h : apiCall net = .ok ⟨true, some d⟩) :
    getEnergyHistory formatTime generateMockHistory hours net =
      .ok ((jsSlice d (-(min hours (d.length : ℤ)))).map (historyPointOf formatTime)) := by
  unfold getEnergyHistory
  rw [h]

/-- For `hours ≥ 1` the slice of `getEnergyHistory` is the last
`min(hours, |d|)` points of `d`. -/
theorem jsSlice_last_of_pos (d : List DataPoint) (hours : ℤ) (hpos : 1 ≤ hours) :
    jsSlice d (-(min hours (d.length : ℤ))) = d.drop (d.length - min hours.toNat d.length) ∧
    (jsSlice d (-(min hours (d.length : ℤ)))).length = min hours.toNat d.length := by
  have hslice : jsSlice d (-(min hours (d.length : ℤ)))
      = d.drop (d.length - min hours.toNat d.length) := by
    unfold jsSlice
    by_cases hd : d.length = 0
    · have : d = [] := List.length_eq_zero.mp hd
      subst this
      simp
    · have hneg : -(min hours (d.length : ℤ)) < 0 := by omega
      rw [if_pos hneg]
      congr 1
      omega
  refine ⟨hslice, ?_⟩
  rw [hslice, List.length_drop]
  omega

/-- C19 (the failing input). With `hours = 0` and a successful response of two
points, `getEnergyHistory` computes `slice(-0)`, which is `slice(0)`: it
returns both points, not the last `min(0, 2) = 0` of them, and the result has
more than `hours` entries. -/
theorem energy_history_zero_hours (formatTime : Option String → String)
    (generateMockHistory : ℤ → List HistoryPoint) :
    getEnergyHistory formatTime generateMockHistory 0
        (okResponse ⟨true, some [pointWithPowers 1 2, pointWithPowers 3 4]⟩)
      = .ok [historyPointOf formatTime (pointWithPowers 1 2),
          historyPointOf formatTime (pointWithPowers 3 4)] ∧
    ¬ ([historyPointOf formatTime (pointWithPowers 1 2),
        historyPointOf formatTime (pointWithPowers 3 4)].length ≤ 0) := by
  constructor
  · rw [getEnergyHistory_of_body formatTime generateMockHistory 0
      (okResponse ⟨true, some [pointWithPowers 1 2, pointWithPowers 3 4]⟩)
      [pointWithPowers 1 2, pointWithPowers 3 4] rfl]
    simp [jsSlice]
  · simp

/-! ## Report download -/

/-- C14 (as amended). The method `downloadMonthlyReport` never rejects. When
the report request fails it returns `success: false` with the error message,
when the answer has a non-OK status it returns `success: false` with the
message "Failed to download report: " followed by the status text, and in
both cases no download is triggered. -/
theorem download_report_returns_failure (month year : Nat) (net : FetchResult String) :
    (∃ r : DownloadResult, (downloadMonthlyReport month year net).2 = .ok r) ∧
    (∀ message : String, net = .networkError message →
      downloadMonthlyReport month year net
        = (none, .ok { success := false, error := some message })) ∧
    (∀ (status : Nat) (statusText : String) (body : Option String),
      net = .response false status statusText body →
      downloadMonthlyReport month year net
        = (none, .ok { success := false,
                       error := some ("Failed to download report: " ++ statusText) })) := by
  refine ⟨?_, ?_, ?_⟩
  · unfold downloadMonthlyReport
    cases net with
    | networkError message => exact ⟨_, rfl⟩
    | response ok status statusText body =>
      cases ok
      · exact ⟨_, rfl⟩
      · cases body with
        | none => exact ⟨_, rfl⟩
        | some b => exact ⟨_, rfl⟩
  · intro message h
    subst h
    rfl
  · intro status statusText body h
    subst h
    rfl

/-- Instance of `download_report_returns_failure`: an answer with status 500. -/
theorem download_report_returns_failure_witness :
    downloadMonthlyReport 3 2024 (.response false 500 "Internal Server Error" none)
      = (none, .ok { success := false,
                     error := some ("Failed to download report: " ++ "Internal Server Error") }) :=
  (download_report_returns_failure 3 2024
    (.response false 500 "Internal Server Error" none)).2.2 500 "Internal Server Error" none rfl

/-- C14 (counterexample). The report request fails at the network: the call
is fulfilled with `success: false` and the message, it does not reject. -/
theorem download_report_counterexample :
    (downloadMonthlyReport 3 2024 (.networkError "offline")).2
      = .ok { success := false, error := some "offline" } ∧
    ∀ e : JsError, (downloadMonthlyReport 3 2024 (.networkError "offline")).2 ≠ .error e := by
  constructor
  · rfl
  · intro e h
    cases h

/-! ## Feed handlers -/

/-- C20. For every state of the service after `connectWebSocket`: a message
whose data is valid JSON sets the connection status to true and calls
`onMessage` exactly once, with the parsed value; a message whose data is not
valid JSON makes no call and leaves the service unchanged; an error event
sets the connection status to false and calls `onError`, when provided,
exactly once with the error, and makes no call when it is not provided. -/
theorem feed_handlers_report_once (μ : Type) (s : LiveApiService) :
    (∀ parsed : μ,
      getConnectionStatus (onmessage s (some parsed)).1 = true ∧
      (onmessage s (some parsed)).2 = [FeedCall.onMessage parsed]) ∧
    (onmessage s (none : Option μ)).2 = [] ∧
    getConnectionStatus (onmessage s (none : Option μ)).1 = getConnectionStatus s ∧
    (onmessage s (none : Option μ)).1 = s ∧
    (∀ error : JsError,
      getConnectionStatus (onerror s true error : LiveApiService × List (FeedCall μ)).1 = false ∧
      (onerror s true error : LiveApiService × List (FeedCall μ)).2 = [FeedCall.onError error] ∧
      getConnectionStatus (onerror s false error : LiveApiService × List (FeedCall μ)).1
        = false ∧
      (onerror s false error : LiveApiService × List (FeedCall μ)).2 = []) := by
  refine ⟨?_, rfl, rfl, rfl, ?_⟩
  · intro parsed
    exact ⟨rfl, rfl⟩
  · intro error
    exact ⟨rfl, rfl, rfl, rfl⟩

/-! ## The accessors always fulfil -/

/-- The method `getLiveEnergyData` always fulfils. -/
theorem getLiveEnergyData_fulfilled (s : LiveApiService) (net : FetchResult LiveDataResponse) :
    ∃ v : Option EnergyData, (getLiveEnergyData s net).2 = .ok v := by
  cases hc : apiCall net with
  | error e => exact ⟨none, getLiveEnergyData_of_failure s net e hc⟩
  | ok r =>
    rw [getLiveEnergyData_of_body s net r hc]
    split
    · split
      · exact ⟨_, rfl⟩
      · exact ⟨_, rfl⟩
    · exact ⟨_, rfl⟩

/-- The value of `getApplianceData` in terms of the reading. -/
theorem getApplianceData_value (s : LiveApiService) (net : FetchResult LiveDataResponse)
    (v : Option EnergyData) (h : (getLiveEnergyData s net).2 = .ok v) :
    (getApplianceData s net).2 = .ok ((v.map applianceDataOf).getD []) := by
  unfold getApplianceData
  rcases hr : getLiveEnergyData s net with ⟨s1, r⟩
  rw [hr] at h
  simp only at h
  subst h
  cases v <;> rfl

/-- The value of `getApplianceUsageBreakdown` in terms of the reading. -/
theorem getApplianceUsageBreakdown_value (s : LiveApiService)
    (net : FetchResult LiveDataResponse) (v : Option EnergyData)
    (h : (getLiveEnergyData s net).2 = .ok v) :
    (getApplianceUsageBreakdown s net).2 = .ok ((v.map usageBreakdownOf).getD []) := by
  unfold getApplianceUsageBreakdown
  rcases hr : getLiveEnergyData s net with ⟨s1, r⟩
  rw [hr] at h
  simp only at h
  subst h
  cases v <;> rfl

/-- The value of `getApplianceData` does not depend on the service fields. -/
theorem getApplianceData_value_indep (s t : LiveApiService)
    (net : FetchResult LiveDataResponse) :
    (getApplianceData s net).2 = (getApplianceData t net).2 := by
  obtain ⟨v, hv⟩ := getLiveEnergyData_fulfilled s net
  have hv2 : (getLiveEnergyData t net).2 = .ok v := by
    rw [getLiveEnergyData_value_indep t s net]
    exact hv
  rw [getApplianceData_value s net v hv, getApplianceData_value t net v hv2]

/-- The value of `getApplianceUsageBreakdown` does not depend on the service
fields. -/
theorem getApplianceUsageBreakdown_value_indep (s t : LiveApiService)
    (net : FetchResult LiveDataResponse) :
    (getApplianceUsageBreakdown s net).2 = (getApplianceUsageBreakdown t net).2 := by
  obtain ⟨v, hv⟩ := getLiveEnergyData_fulfilled s net
  have hv2 : (getLiveEnergyData t net).2 = .ok v := by
    rw [getLiveEnergyData_value_indep t s net]
    exact hv
  rw [getApplianceUsageBreakdown_value s net v hv, getApplianceUsageBreakdown_value t net v hv2]

/-- The method `getApplianceUsageBreakdown` returns the empty list when its
request fails. -/
theorem getApplianceUsageBreakdown_of_failure (s : LiveApiService)
    (net : FetchResult LiveDataResponse) (e : JsError) (h : apiCall net = .error e) :
    (getApplianceUsageBreakdown s net).2 = .ok [] :=
  getApplianceUsageBreakdown_value s net none (getLiveEnergyData_of_failure s net e h)

/-- The method `getMonthlyBill` always fulfils. -/
theorem getMonthlyBill_fulfilled (s : LiveApiService) (random : ℚ)
    (net : FetchResult SummaryResponse) (liveNet : FetchResult LiveDataResponse) :
    ∃ b : Bill, (getMonthlyBill s random net liveNet).2 = .ok b := by
  unfold getMonthlyBill
  cases apiCall net with
  | error e => exact ⟨_, rfl⟩
  | ok r =>
    rcases r with ⟨success, summary⟩
    cases success
    · simp only
      rcases getLiveEnergyData s liveNet with ⟨s1, v⟩
      cases v with
      | error e => exact ⟨_, rfl⟩
      | ok v =>
        cases v with
        | none => exact ⟨_, rfl⟩
        | some e => exact ⟨_, rfl⟩
    · cases summary with
      | some sm => exact ⟨_, rfl⟩
      | none =>
        simp only
        rcases getLiveEnergyData s liveNet with ⟨s1, v⟩
        cases v with
        | error e => exact ⟨_, rfl⟩
        | ok v =>
          cases v with
          | none => exact ⟨_, rfl⟩
          | some e => exact ⟨_, rfl⟩

/-- The method `getAnomalyAlerts` always fulfils. -/
theorem getAnomalyAlerts_fulfilled (dateParse : String → String)
    (net : FetchResult AnomalyResponse) :
    ∃ l : List Alert, getAnomalyAlerts dateParse net = .ok l := by
  unfold getAnomalyAlerts
  cases apiCall net with
  | error e => exact ⟨_, rfl⟩
  | ok r =>
    rcases r with ⟨success, anomalies⟩
    cases success
    · exact ⟨_, rfl⟩
    · cases anomalies with
      | none => exact ⟨_, rfl⟩
      | some l => exact ⟨_, rfl⟩

/-- The method `getEnergyHistory` always fulfils. -/
theorem getEnergyHistory_fulfilled (formatTime : Option String → String)
    (generateMockHistory : ℤ → List HistoryPoint) (hours : ℤ)
    (net : FetchResult LiveDataResponse) :
    ∃ l : List HistoryPoint,
      getEnergyHistory formatTime generateMockHistory hours net = .ok l := by
  unfold getEnergyHistory
  cases apiCall net with
  | error e => exact ⟨_, rfl⟩
  | ok r =>
    rcases r with ⟨success, data⟩
    cases success
    · exact ⟨_, rfl⟩
    · cases data with
      | none => exact ⟨_, rfl⟩
      | some l => exact ⟨_, rfl⟩

/-! ## fetchAllData -/

/-- The dashboard state after `fetchAllData`, in terms of the values the
accessors fulfil with. -/
theorem fetchAllData_state (env : Env) (now : String) (s : LiveApiService)
    (d : DashboardState) (net : FetchAllNet) (e : Option EnergyData) (a : List Appliance)
    (b : Bill) (al : List Alert) (h : List HistoryPoint) (u : List UsageEntry)
    (he : (getLiveEnergyData s net.energy).2 = .ok e)
    (ha : (getApplianceData s net.appliances).2 = .ok a)
    (hb : (getMonthlyBill (getApplianceData (getLiveEnergyData s net.energy).1
      net.appliances).1 env.random net.bill net.billLive).2 = .ok b)
    (hal : getAnomalyAlerts env.dateParse net.alerts = .ok al)
    (hh : getEnergyHistory env.formatTime env.generateMockHistory 24 net.history = .ok h)
    (hu : (getApplianceUsageBreakdown s net.usage).2 = .ok u) :
    (fetchAllData env now s d net).2 =
      { liveData := mergeLiveData d.liveData e now
        appliances := a
        monthlyBill := b
        alerts := al
        energyHistory := h
        applianceUsage := u
        news := getElectricityNews
        loading := d.loading
        isConnected := true
        showNamingModal := d.showNamingModal
        lastRefresh := now
        pollInterval := d.pollInterval } := by
  have ha2 := ha
  rw [getApplianceData_value_indep s (getLiveEnergyData s net.energy).1] at ha2
  have hu2 := hu
  rw [getApplianceUsageBreakdown_value_indep s
    (getMonthlyBill (getApplianceData (getLiveEnergyData s net.energy).1
      net.appliances).1 env.random net.bill net.billLive).1] at hu2
  unfold fetchAllData
  simp only [he, ha2, hb, hal, hh, hu2, settle]

/-- The accessors of `fetchAllData` all fulfil, with some values. -/
theorem fetchAllData_values (env : Env) (s : LiveApiService) (net : FetchAllNet) :
    ∃ (e : Option EnergyData) (a : List Appliance) (b : Bill) (al : List Alert)
      (h : List HistoryPoint) (u : List UsageEntry),
      (getLiveEnergyData s net.energy).2 = .ok e ∧
      (getApplianceData s net.appliances).2 = .ok a ∧
      (getMonthlyBill (getApplianceData (getLiveEnergyData s net.energy).1
        net.appliances).1 env.random net.bill net.billLive).2 = .ok b ∧
      getAnomalyAlerts env.dateParse net.alerts = .ok al ∧
      getEnergyHistory env.formatTime env.generateMockHistory 24 net.history = .ok h ∧
      (getApplianceUsageBreakdown s net.usage).2 = .ok u := by
  obtain ⟨e, he⟩ := getLiveEnergyData_fulfilled s net.energy
  obtain ⟨v, hv⟩ := getLiveEnergyData_fulfilled s net.appliances
  obtain ⟨b, hb⟩ := getMonthlyBill_fulfilled (getApplianceData (getLiveEnergyData s net.energy).1
    net.appliances).1 env.random net.bill net.billLive
  obtain ⟨al, hal⟩ := getAnomalyAlerts_fulfilled env.dateParse net.alerts
  obtain ⟨h, hh⟩ := getEnergyHistory_fulfilled env.formatTime env.generateMockHistory 24
    net.history
  obtain ⟨w, hw⟩ := getLiveEnergyData_fulfilled s net.usage
  exact ⟨e, _, b, al, h, _, he, getApplianceData_value s net.appliances v hv, hb, hal, hh,
    getApplianceUsageBreakdown_value s net.usage w hw⟩

/-- The first snapshot of a poll cycle carries the empty appliance list and
the empty alert list when the appliance request and the alert request fail. -/
theorem poll_head_lists_of_failure (s : LiveApiService)
    (callback : Snapshot → Except JsError Unit) (dateParse : String → String)
    (now nowCatch : String) (net : PollNet) (e1 e2 : JsError)
    (h1 : apiCall net.appliances = .error e1) (h2 : apiCall net.alerts = .error e2) :
    ∃ (snapshot : Snapshot) (rest : List Snapshot),
      (poll s callback dateParse now nowCatch net).2.1 = snapshot :: rest ∧
      snapshot.appliances = some [] ∧ snapshot.alerts = some [] := by
  obtain ⟨rest, hdel, _⟩ := poll_delivered s callback dateParse now nowCatch net
  refine ⟨_, rest, hdel, ?_, ?_⟩
  · simp only [getApplianceData_of_failure _ net.appliances e1 h1, catchNullValue]
  · simp only [getAnomalyAlerts_of_failure dateParse net.alerts e2 h2, catchNullValue]

/-- C15 (as amended). In `fetchAllData` each slice whose fetch succeeded is
set to the fetched value, and the appliance list, the alerts and the usage
breakdown whose fetch failed are set to the fallback their accessor returns,
the empty list, instead of keeping their value. The polling callback sets the
appliance list and the alerts to the lists of the snapshot (the empty list
after a failed fetch) and the live reading to the reading of the snapshot; it
leaves a slice alone only when the snapshot holds null for it, as it does for
the live reading after a failed energy fetch. -/
theorem slices_follow_accessor_values (env : Env) (now : String) (s : LiveApiService)
    (d : DashboardState) (net : FetchAllNet) (data : Snapshot) :
    ((∃ e : JsError, apiCall net.appliances = .error e) →
      (fetchAllData env now s d net).2.appliances = []) ∧
    ((∃ e : JsError, apiCall net.alerts = .error e) →
      (fetchAllData env now s d net).2.alerts = []) ∧
    ((∃ e : JsError, apiCall net.usage = .error e) →
      (fetchAllData env now s d net).2.applianceUsage = []) ∧
    (∀ l : List Appliance, (getApplianceData s net.appliances).2 = .ok l →
      (fetchAllData env now s d net).2.appliances = l) ∧
    (∀ l : List Alert, getAnomalyAlerts env.dateParse net.alerts = .ok l →
      (fetchAllData env now s d net).2.alerts = l) ∧
    (∀ l : List UsageEntry, (getApplianceUsageBreakdown s net.usage).2 = .ok l →
      (fetchAllData env now s d net).2.applianceUsage = l) ∧
    (∀ l : List HistoryPoint,
      getEnergyHistory env.formatTime env.generateMockHistory 24 net.history = .ok l →
      (fetchAllData env now s d net).2.energyHistory = l) ∧
    (∀ r : EnergyData, (getLiveEnergyData s net.energy).2 = .ok (some r) →
      (fetchAllData env now s d net).2.liveData = mergeLiveData d.liveData (some r) now) ∧
    (∀ l : List Appliance, data.appliances = some l →
      (pollCallback now d data).appliances = l) ∧
    (data.appliances = none → (pollCallback now d data).appliances = d.appliances) ∧
    (∀ l : List Alert, data.alerts = some l → (pollCallback now d data).alerts = l) ∧
    (data.alerts = none → (pollCallback now d data).alerts = d.alerts) ∧
    (∀ r : EnergyData, data.energy = some r →
      (pollCallback now d data).liveData = mergeLiveData d.liveData (some r) now) ∧
    (data.energy = none → (pollCallback now d data).liveData = d.liveData) := by
  obtain ⟨e, a, b, al, h, u, he, ha, hb, hal, hh, hu⟩ := fetchAllData_values env s net
  have hstate := fetchAllData_state env now s d net e a b al h u he ha hb hal hh hu
  refine ⟨?_, ?_, ?_, ?_, ?_, ?_, ?_, ?_, ?_, ?_, ?_, ?_, ?_, ?_⟩
  · rintro ⟨err, herr⟩
    rw [getApplianceData_of_failure s net.appliances err herr] at ha
    cases ha
    rw [hstate]
  · rintro ⟨err, herr⟩
    rw [getAnomalyAlerts_of_failure env.dateParse net.alerts err herr] at hal
    cases hal
    rw [hstate]
  · rintro ⟨err, herr⟩
    rw [getApplianceUsageBreakdown_of_failure s net.usage err herr] at hu
    cases hu
    rw [hstate]
  · intro l hl
    rw [ha] at hl
    cases hl
    rw [hstate]
  · intro l hl
    rw [hal] at hl
    cases hl
    rw [hstate]
  · intro l hl
    rw [hu] at hl
    cases hl
    rw [hstate]
  · intro l hl
    rw [hh] at hl
    cases hl
    rw [hstate]
  · intro r hr
    rw [he] at hr
    cases hr
    rw [hstate]
  · intro l hl
    simp only [pollCallback, hl]
    cases data.energy <;> cases data.alerts <;> rfl
  · intro hl
    simp only [pollCallback, hl]
    cases data.energy <;> cases data.alerts <;> rfl
  · intro l hl
    simp only [pollCallback, hl]
  · intro hl
    simp only [pollCallback, hl]
    cases data.energy <;> cases data.appliances <;> rfl
  · intro r hr
    simp only [pollCallback, hr]
    cases data.appliances <;> cases data.alerts <;> rfl
  · intro hr
    simp only [pollCallback, hr]
    cases data.appliances <;> cases data.alerts <;> rfl

/-- Instance of `slices_follow_accessor_values`: every request fails at the
network while the dashboard shows one appliance; the appliance list becomes
empty. -/
theorem slices_follow_accessor_values_witness :
    (∃ e : JsError, apiCall fetchAllNetOffline.appliances = .error e) ∧
    (fetchAllData plainEnv "t1" freshService dashboardWithFan fetchAllNetOffline).2.appliances
      = [] :=
  ⟨⟨"offline", rfl⟩,
    (slices_follow_accessor_values plainEnv "t1" freshService dashboardWithFan
      fetchAllNetOffline (fallbackSnapshot "t1")).1 ⟨"offline", rfl⟩⟩

/-- C15 (counterexample). The dashboard shows one appliance, one alert and one
usage entry, and every request fails at the network. After `fetchAllData` the
appliance list, the alerts and the usage breakdown are empty, and the polling
callback, given the first snapshot of a poll cycle with the same failures,
empties the appliance list and the alerts as well: the failing slices have not
kept their values. -/
theorem slices_kept_counterexample :
    dashboardWithSlices.appliances = [mkAppliance 1 "Fan" "ON"] ∧
    dashboardWithSlices.alerts ≠ [] ∧
    dashboardWithSlices.applianceUsage ≠ [] ∧
    (fetchAllData plainEnv "t1" freshService dashboardWithSlices fetchAllNetOffline).2.appliances
      = [] ∧
    (fetchAllData plainEnv "t1" freshService dashboardWithSlices fetchAllNetOffline).2.appliances
      ≠ dashboardWithSlices.appliances ∧
    (fetchAllData plainEnv "t1" freshService dashboardWithSlices fetchAllNetOffline).2.alerts
      = [] ∧
    (fetchAllData plainEnv "t1" freshService dashboardWithSlices
      fetchAllNetOffline).2.applianceUsage = [] ∧
    (∃ (snapshot : Snapshot) (rest : List Snapshot),
      (poll freshService quietCallback (fun t => t) "t1" "t2" pollNetOffline).2.1
        = snapshot :: rest ∧
      (pollCallback "t1" dashboardWithSlices snapshot).appliances = [] ∧
      (pollCallback "t1" dashboardWithSlices snapshot).appliances
        ≠ dashboardWithSlices.appliances ∧
      (pollCallback "t1" dashboardWithSlices snapshot).alerts = []) := by
  have h0 : dashboardWithSlices.appliances = [mkAppliance 1 "Fan" "ON"] := rfl
  obtain ⟨e, a, b, al, h, u, he, ha, hb, hal, hh, hu⟩ :=
    fetchAllData_values plainEnv freshService fetchAllNetOffline
  have hstate := fetchAllData_state plainEnv "t1" freshService dashboardWithSlices
    fetchAllNetOffline e a b al h u he ha hb hal hh hu
  rw [getApplianceData_of_failure freshService fetchAllNetOffline.appliances "offline" rfl]
    at ha
  rw [getAnomalyAlerts_of_failure plainEnv.dateParse fetchAllNetOffline.alerts "offline" rfl]
    at hal
  rw [getApplianceUsageBreakdown_of_failure freshService fetchAllNetOffline.usage "offline" rfl]
    at hu
  cases ha
  cases hal
  cases hu
  have h1 : (fetchAllData plainEnv "t1" freshService dashboardWithSlices
      fetchAllNetOffline).2.appliances = [] := by
    rw [hstate]
  have h2 : (fetchAllData plainEnv "t1" freshService dashboardWithSlices
      fetchAllNetOffline).2.alerts = [] := by
    rw [hstate]
  have h3 : (fetchAllData plainEnv "t1" freshService dashboardWithSlices
      fetchAllNetOffline).2.applianceUsage = [] := by
    rw [hstate]
  refine ⟨h0, List.cons_ne_nil _ _, List.cons_ne_nil _ _, h1, ?_, h2, h3, ?_⟩
  · rw [h1, h0]
    simp
  · obtain ⟨snapshot, rest, hdel, hsa, hsl⟩ :=
      poll_head_lists_of_failure freshService quietCallback (fun t => t) "t1" "t2"
        pollNetOffline "offline" "offline" rfl rfl
    have h5 : (pollCallback "t1" dashboardWithSlices snapshot).appliances = [] := by
      simp only [pollCallback, hsa]
      cases snapshot.energy <;> cases snapshot.alerts <;> rfl
    have h6 : (pollCallback "t1" dashboardWithSlices snapshot).alerts = [] := by
      simp only [pollCallback, hsl]
    refine ⟨snapshot, rest, hdel, h5, ?_, h6⟩
    rw [h5, h0]
    simp

/-- C16 (the failing input). After `fetchAllData` the state `isConnected` is
true whatever the requests answer, because `getLiveEnergyData` always fulfils
and the guard only asks whether the promise fulfilled. With every request
failing at the network `getLiveEnergyData` yields null, and `isConnected` is
true. -/
theorem fetch_all_marks_connected (env : Env) (now : String) (s : LiveApiService)
    (d : DashboardState) (net : FetchAllNet) :
    (fetchAllData env now s d net).2.isConnected = true ∧
    ((getLiveEnergyData freshService fetchAllNetOffline.energy).2 = .ok none ∧
      (initialState "t0").isConnected = false ∧
      (fetchAllData plainEnv "t1" freshService (initialState "t0")
        fetchAllNetOffline).2.isConnected = true) := by
  have hgen : ∀ (env : Env) (now : String) (s : LiveApiService) (d : DashboardState)
      (net : FetchAllNet), (fetchAllData env now s d net).2.isConnected = true := by
    intro env now s d net
    obtain ⟨e, a, b, al, h, u, he, ha, hb, hal, hh, hu⟩ := fetchAllData_values env s net
    rw [fetchAllData_state env now s d net e a b al h u he ha hb hal hh hu]
  exact ⟨hgen env now s d net, rfl, rfl, hgen _ _ _ _ _⟩

/-! ## Update sources -/

/-- The method `getLiveEnergyData` leaves the event source alone. -/
theorem getLiveEnergyData_eventSource (s : LiveApiService)
    (net : FetchResult LiveDataResponse) :
    (getLiveEnergyData s net).1.eventSource = s.eventSource := by
  unfold getLiveEnergyData
  cases apiCall net with
  | error e => rfl
  | ok r =>
    rcases r with ⟨success, data⟩
    cases success
    · rfl
    · cases data with
      | none => rfl
      | some d =>
        simp only
        cases d.getLast? <;> rfl

/-- The method `getApplianceData` leaves the event source alone. -/
theorem getApplianceData_eventSource (s : LiveApiService)
    (net : FetchResult LiveDataResponse) :
    (getApplianceData s net).1.eventSource = s.eventSource := by
  have h := getLiveEnergyData_eventSource s net
  unfold getApplianceData
  rcases hr : getLiveEnergyData s net with ⟨s1, r⟩
  rw [hr] at h
  cases r with
  | error e => exact h
  | ok v => cases v <;> exact h

/-- A poll cycle leaves the event source alone. -/
theorem poll_eventSource (s : LiveApiService) (callback : Snapshot → Except JsError Unit)
    (dateParse : String → String) (now nowCatch : String) (net : PollNet) :
    (poll s callback dateParse now nowCatch net).1.eventSource = s.eventSource := by
  have h : (getApplianceData (getLiveEnergyData s net.energy).1 net.appliances).1.eventSource
      = s.eventSource := by
    rw [getApplianceData_eventSource, getLiveEnergyData_eventSource]
  unfold poll
  simp only
  split <;> exact h

/-- What one event does to the sources: the event source held by the service
stays, and either the timers stay or one timer is added, the latter only on a
feed error or when the pending grace-period check fires. -/
theorem step_effect (env : Env) (w : World) (e : Event) :
    (step env w e).service.eventSource = w.service.eventSource ∧
    (((step env w e).timers = w.timers ∧
        ((step env w e).graceCheckPending = w.graceCheckPending ∨
          (w.graceCheckPending = true ∧ (step env w e).graceCheckPending = false))) ∨
      ((step env w e).timers = w.timers.setInterval.1 ∧
        ((e.isFeedError = true ∧ (step env w e).graceCheckPending = w.graceCheckPending) ∨
          (w.graceCheckPending = true ∧ (step env w e).graceCheckPending = false)))) := by
  cases e with
  | feedOpen =>
    by_cases h : w.readyState = some ReadyState.CONNECTING
    · have hs : step env w Event.feedOpen
          = { w with readyState := some ReadyState.OPEN, service := onopen w.service } := by
        simp only [step, if_pos h]
      rw [hs]
      exact ⟨rfl, Or.inl ⟨rfl, Or.inl rfl⟩⟩
    · have hs : step env w Event.feedOpen = w := by
        simp only [step, if_neg h]
      rw [hs]
      exact ⟨rfl, Or.inl ⟨rfl, Or.inl rfl⟩⟩
  | feedMessage data now =>
    by_cases h : w.readyState = some ReadyState.OPEN
    · cases data with
      | none =>
        have hs : step env w (Event.feedMessage none now) = { w with dash := w.dash } := by
          simp only [step, if_pos h, onmessage, List.foldl]
        rw [hs]
        exact ⟨rfl, Or.inl ⟨rfl, Or.inl rfl⟩⟩
      | some m =>
        have hs : step env w (Event.feedMessage (some m) now)
            = { w with service := { w.service with isConnected := true },
                       dash := handleLiveDataUpdate now w.dash m } := by
          simp only [step, if_pos h, onmessage, List.foldl]
        rw [hs]
        exact ⟨rfl, Or.inl ⟨rfl, Or.inl rfl⟩⟩
    · have hs : step env w (Event.feedMessage data now) = w := by
        simp only [step, if_neg h]
      rw [hs]
      exact ⟨rfl, Or.inl ⟨rfl, Or.inl rfl⟩⟩
  | feedError error fatal input =>
    by_cases h : w.readyState = some ReadyState.CONNECTING ∨ w.readyState = some ReadyState.OPEN
    · have hs : step env w (Event.feedError error fatal input)
          = handleConnectionError env input
              { w with service := { w.service with isConnected := false },
                       readyState := some (if fatal then ReadyState.CLOSED
                                           else ReadyState.CONNECTING) } := by
        simp only [step, if_pos h, onerror, if_true, List.foldl]
      rw [hs]
      refine ⟨?_, Or.inr ⟨rfl, Or.inl ⟨rfl, rfl⟩⟩⟩
      simp only [handleConnectionError, Dashboard.startPolling, LiveApiService.startPolling]
      rw [poll_eventSource]
    · have hs : step env w (Event.feedError error fatal input) = w := by
        simp only [step, if_neg h]
      rw [hs]
      exact ⟨rfl, Or.inl ⟨rfl, Or.inl rfl⟩⟩
  | graceCheck input =>
    by_cases hp : w.graceCheckPending = true
    · by_cases hc : getConnectionStatus w.service = true
      · have hs : step env w (Event.graceCheck input)
            = { w with graceCheckPending := false } := by
          simp only [step, if_pos hp, hc, Bool.not_true, Bool.false_eq_true, if_false]
        rw [hs]
        exact ⟨rfl, Or.inl ⟨rfl, Or.inr ⟨hp, rfl⟩⟩⟩
      · have hc2 : getConnectionStatus w.service = false := by
          cases h : getConnectionStatus w.service
          · rfl
          · exact absurd h hc
        have hs : step env w (Event.graceCheck input)
            = startPolling env input { w with graceCheckPending := false } := by
          simp only [step, if_pos hp, hc2, Bool.not_false, if_true]
        rw [hs]
        refine ⟨?_, Or.inr ⟨rfl, Or.inr ⟨hp, rfl⟩⟩⟩
        simp only [Dashboard.startPolling, LiveApiService.startPolling]
        rw [poll_eventSource]
    · have hs : step env w (Event.graceCheck input) = w := by
        simp only [step, if_neg hp]
      rw [hs]
      exact ⟨rfl, Or.inl ⟨rfl, Or.inl rfl⟩⟩
  | pollTick id input =>
    by_cases h : id ∈ w.timers.intervals
    · have hs : step env w (Event.pollTick id input) = runPoll env input w := by
        simp only [step, if_pos h]
      rw [hs]
      refine ⟨?_, Or.inl ⟨rfl, Or.inl rfl⟩⟩
      simp only [runPoll]
      rw [poll_eventSource]
    · have hs : step env w (Event.pollTick id input) = w := by
        simp only [step, if_neg h]
      rw [hs]
      exact ⟨rfl, Or.inl ⟨rfl, Or.inl rfl⟩⟩

/-- Over a sequence of events the timers only grow, by at most one per feed
error plus one for the pending grace-period check, and the event source held
by the service stays the same. -/
theorem run_effect (env : Env) (events : List Event) (w : World) :
    (run env w events).service.eventSource = w.service.eventSource ∧
    w.timers.intervals <+: (run env w events).timers.intervals ∧
    (run env w events).timers.intervals.length
        + (if (run env w events).graceCheckPending then 1 else 0)
      ≤ w.timers.intervals.length + (if w.graceCheckPending then 1 else 0)
        + events.countP Event.isFeedError := by
  induction events generalizing w with
  | nil =>
    refine ⟨rfl, List.prefix_refl _, ?_⟩
    simp [run]
  | cons e rest ih =>
    obtain ⟨hes, hpre, hlen⟩ := ih (step env w e)
    obtain ⟨hs, hstep⟩ := step_effect env w e
    have hrun : run env w (e :: rest) = run env (step env w e) rest := rfl
    rw [hrun]
    refine ⟨by rw [hes, hs], ?_, ?_⟩
    · refine List.IsPrefix.trans ?_ hpre
      rcases hstep with ⟨ht, _⟩ | ⟨ht, _⟩
      · rw [ht]
      · rw [ht]
        exact List.prefix_append _ _
    · rw [List.countP_cons]
      rcases hstep with ⟨ht, hg | ⟨hg1, hg2⟩⟩ | ⟨ht, ⟨he, hg⟩ | ⟨hg1, hg2⟩⟩
      · rw [ht, hg] at hlen
        omega
      · rw [ht, hg2] at hlen
        rw [hg1]
        simp only [if_true] at *
        simp only [Bool.false_eq_true, if_false] at hlen
        omega
      · rw [ht, hg] at hlen
        simp only [Timers.setInterval, List.length_append, List.length_singleton] at hlen
        simp only [he, if_true]
        omega
      · rw [ht, hg2] at hlen
        rw [hg1]
        simp only [Timers.setInterval, List.length_append, List.length_singleton,
          Bool.false_eq_true, if_false] at hlen
        simp only [if_true]
        omega

/-- A poll cycle hands at least one snapshot to the callback. -/
theorem poll_delivered_nonempty (s : LiveApiService)
    (callback : Snapshot → Except JsError Unit) (dateParse : String → String)
    (now nowCatch : String) (net : PollNet) :
    ∃ (snapshot : Snapshot) (rest : List Snapshot),
      (poll s callback dateParse now nowCatch net).2.1 = snapshot :: rest := by
  obtain ⟨rest, hdel, _⟩ := poll_delivered s callback dateParse now nowCatch net
  exact ⟨_, rest, hdel⟩

/-- The method `getLiveEnergyData` leaves `this.isConnected` alone. -/
theorem getLiveEnergyData_isConnected (s : LiveApiService)
    (net : FetchResult LiveDataResponse) :
    (getLiveEnergyData s net).1.isConnected = s.isConnected := by
  unfold getLiveEnergyData
  cases apiCall net with
  | error e => rfl
  | ok r =>
    rcases r with ⟨success, data⟩
    cases success
    · rfl
    · cases data with
      | none => rfl
      | some d =>
        simp only
        cases d.getLast? <;> rfl

/-- The method `getApplianceData` leaves `this.isConnected` alone. -/
theorem getApplianceData_isConnected (s : LiveApiService)
    (net : FetchResult LiveDataResponse) :
    (getApplianceData s net).1.isConnected = s.isConnected := by
  have h := getLiveEnergyData_isConnected s net
  unfold getApplianceData
  rcases hr : getLiveEnergyData s net with ⟨s1, r⟩
  rw [hr] at h
  cases r with
  | error e => exact h
  | ok v => cases v <;> exact h

/-- The method `getApplianceUsageBreakdown` leaves `this.isConnected` alone. -/
theorem getApplianceUsageBreakdown_isConnected (s : LiveApiService)
    (net : FetchResult LiveDataResponse) :
    (getApplianceUsageBreakdown s net).1.isConnected = s.isConnected := by
  have h := getLiveEnergyData_isConnected s net
  unfold getApplianceUsageBreakdown
  rcases hr : getLiveEnergyData s net with ⟨s1, r⟩
  rw [hr] at h
  cases r with
  | error e => exact h
  | ok v => cases v <;> exact h

/-- The method `getMonthlyBill` leaves `this.isConnected` alone. -/
theorem getMonthlyBill_isConnected (s : LiveApiService) (random : ℚ)
    (net : FetchResult SummaryResponse) (liveNet : FetchResult LiveDataResponse) :
    (getMonthlyBill s random net liveNet).1.isConnected = s.isConnected := by
  have h := getLiveEnergyData_isConnected s liveNet
  have hfallback :
      (match getLiveEnergyData s liveNet with
        | (s1, .ok (some energyData)) =>
          (s1, (.ok
            { amount := mathRound (energyData.cost * 30)
              comparison := ⌊random * 20⌋ - 10
              dailyAverage := some (mathRound (energyData.cost * 30 / 30))
              totalEnergy := some (energyData.energy * 30) } : Except JsError Bill))
        | (s1, _) => (s1, .ok zeroBill)).1.isConnected = s.isConnected := by
    rcases hr : getLiveEnergyData s liveNet with ⟨s1, r⟩
    rw [hr] at h
    cases r with
    | error e => exact h
    | ok v => cases v <;> exact h
  unfold getMonthlyBill
  cases apiCall net with
  | error e => rfl
  | ok r =>
    rcases r with ⟨success, summary⟩
    cases success
    · exact hfallback
    · cases summary with
      | none => exact hfallback
      | some sm => rfl

/-- The function `fetchAllData` leaves `this.isConnected` of the service
alone: only the feed handlers and the poll cycle write it. -/
theorem fetchAllData_isConnected (env : Env) (now : String) (s : LiveApiService)
    (d : DashboardState) (net : FetchAllNet) :
    (fetchAllData env now s d net).1.isConnected = s.isConnected := by
  have h : (getApplianceUsageBreakdown
      (getMonthlyBill (getApplianceData (getLiveEnergyData s net.energy).1 net.appliances).1
        env.random net.bill net.billLive).1 net.usage).1.isConnected = s.isConnected := by
    rw [getApplianceUsageBreakdown_isConnected, getMonthlyBill_isConnected,
      getApplianceData_isConnected, getLiveEnergyData_isConnected]
  exact h

/-- The pending grace-period check on a feed that is still connecting, then
the feed opening: polling is started and stays. -/
theorem run_graceCheck_feedOpen (env : Env) (w : World) (input : PollInput)
    (hp : w.graceCheckPending = true) (hc : getConnectionStatus w.service = false)
    (hr : w.readyState = some ReadyState.CONNECTING) :
    run env w [Event.graceCheck input, Event.feedOpen]
      = { Dashboard.startPolling env input { w with graceCheckPending := false } with
          readyState := some ReadyState.OPEN
          service := onopen
            (Dashboard.startPolling env input { w with graceCheckPending := false }).service } := by
  have hs : step env w (Event.graceCheck input)
      = Dashboard.startPolling env input { w with graceCheckPending := false } := by
    simp only [step, if_pos hp, hc, Bool.not_false, if_true]
  have hr2 : (Dashboard.startPolling env input { w with graceCheckPending := false }).readyState
      = some ReadyState.CONNECTING := hr
  have hrun : run env w [Event.graceCheck input, Event.feedOpen]
      = step env (step env w (Event.graceCheck input)) Event.feedOpen := rfl
  rw [hrun, hs]
  simp only [step, if_pos hr2]

/-- Two feed errors on a feed that is connecting, the browser reconnecting
after each: polling is started twice. -/
theorem run_two_feedErrors (env : Env) (w : World) (e1 e2 : JsError) (in1 in2 : PollInput)
    (hr : w.readyState = some ReadyState.CONNECTING) :
    run env w [Event.feedError e1 false in1, Event.feedError e2 false in2]
      = handleConnectionError env in2
          { handleConnectionError env in1
              { w with service := { w.service with isConnected := false },
                       readyState := some ReadyState.CONNECTING } with
            service :=
              { (handleConnectionError env in1
                  { w with service := { w.service with isConnected := false },
                           readyState := some ReadyState.CONNECTING }).service with
                isConnected := false },
            readyState := some ReadyState.CONNECTING } := by
  have h1 : w.readyState = some ReadyState.CONNECTING ∨ w.readyState = some ReadyState.OPEN :=
    Or.inl hr
  have hs1 : step env w (Event.feedError e1 false in1)
      = handleConnectionError env in1
          { w with service := { w.service with isConnected := false },
                   readyState := some ReadyState.CONNECTING } := by
    simp only [step, if_pos h1, onerror, if_true, List.foldl, Bool.false_eq_true, if_false]
  have h2 : (handleConnectionError env in1
        { w with service := { w.service with isConnected := false },
                 readyState := some ReadyState.CONNECTING }).readyState
        = some ReadyState.CONNECTING ∨
      (handleConnectionError env in1
        { w with service := { w.service with isConnected := false },
                 readyState := some ReadyState.CONNECTING }).readyState
        = some ReadyState.OPEN := Or.inl rfl
  have hrun : run env w [Event.feedError e1 false in1, Event.feedError e2 false in2]
      = step env (step env w (Event.feedError e1 false in1)) (Event.feedError e2 false in2) :=
    rfl
  rw [hrun, hs1]
  simp only [step, if_pos h2, onerror, if_true, List.foldl, Bool.false_eq_true, if_false]

/-- C11 (the failing input). After `initializeDashboard` has created the event
source, whatever the backend answers, the grace-period check finds the feed
not yet live and starts poll timer 1; when the feed opens afterwards, without
any error, nothing stops that timer: timer 1 runs next to the open feed, the
service reports connected, and the next tick of timer 1 hands one more
snapshot to the polling callback. And two feed errors in a row, the browser
reconnecting each time, leave timers 1 and 2 running side by side. -/
theorem poll_timer_runs_beside_open_feed (env : Env) (now apiBaseUrl mountTime : String)
    (ctorInput input : PollInput) (net : FetchAllNet) :
    (run env (initializeDashboard env now apiBaseUrl none ctorInput net (mountedWorld mountTime))
      [Event.graceCheck input, Event.feedOpen]).timers.intervals = [1] ∧
    (run env (initializeDashboard env now apiBaseUrl none ctorInput net (mountedWorld mountTime))
      [Event.graceCheck input, Event.feedOpen]).readyState = some ReadyState.OPEN ∧
    getConnectionStatus
      (run env (initializeDashboard env now apiBaseUrl none ctorInput net (mountedWorld mountTime))
        [Event.graceCheck input, Event.feedOpen]).service = true ∧
    (∀ tick : PollInput, ∃ (snapshot : Snapshot) (rest : List Snapshot),
      (step env
        (run env
          (initializeDashboard env now apiBaseUrl none ctorInput net (mountedWorld mountTime))
          [Event.graceCheck input, Event.feedOpen])
        (Event.pollTick 1 tick)).delivered
        = (run env
            (initializeDashboard env now apiBaseUrl none ctorInput net (mountedWorld mountTime))
            [Event.graceCheck input, Event.feedOpen]).delivered ++ snapshot :: rest) ∧
    (∀ (e1 e2 : JsError) (in1 in2 : PollInput),
      (run env (initializeDashboard env now apiBaseUrl none ctorInput net (mountedWorld mountTime))
        [Event.feedError e1 false in1, Event.feedError e2 false in2]).timers.intervals
          = [1, 2]) := by
  have hp : (initializeDashboard env now apiBaseUrl none ctorInput net
      (mountedWorld mountTime)).graceCheckPending = true := rfl
  have hr : (initializeDashboard env now apiBaseUrl none ctorInput net
      (mountedWorld mountTime)).readyState = some ReadyState.CONNECTING := rfl
  have hc : getConnectionStatus (initializeDashboard env now apiBaseUrl none ctorInput net
      (mountedWorld mountTime)).service = false := by
    have h := fetchAllData_isConnected env now
      { freshService with eventSource := some { url := apiBaseUrl ++ "/stream/live-data" } }
      { Dashboard.initialState mountTime with loading := true } net
    exact h
  rw [run_graceCheck_feedOpen env _ input hp hc hr]
  refine ⟨rfl, rfl, rfl, ?_, ?_⟩
  · intro tick
    have hmem : 1 ∈ ({ Dashboard.startPolling env input
        { initializeDashboard env now apiBaseUrl none ctorInput net (mountedWorld mountTime) with
          graceCheckPending := false } with
        readyState := some ReadyState.OPEN
        service := onopen
          (Dashboard.startPolling env input
            { initializeDashboard env now apiBaseUrl none ctorInput net
                (mountedWorld mountTime) with
              graceCheckPending := false }).service } : World).timers.intervals :=
      List.mem_singleton.mpr rfl
    simp only [step, if_pos hmem, runPoll]
    obtain ⟨snapshot, rest, hdel⟩ := poll_delivered_nonempty
      (onopen (Dashboard.startPolling env input
        { initializeDashboard env now apiBaseUrl none ctorInput net (mountedWorld mountTime) with
          graceCheckPending := false }).service)
      (fun _ => .ok ()) env.dateParse tick.now tick.nowCatch tick.net
    exact ⟨snapshot, rest, by rw [hdel]⟩
  · intro e1 e2 in1 in2
    rw [run_two_feedErrors env _ e1 e2 in1 in2 hr]
    rfl

/-- C12. If the grace-period check is pending and `getConnectionStatus()` is
false when it runs, polling is started: a new interval timer runs, its id is
stored in `pollInterval`, and one poll cycle has been executed at once, its
snapshot handed to the polling callback within the same step, before the
timer has fired. -/
theorem grace_check_starts_polling (env : Env) (w : World) (input : PollInput)
    (hp : w.graceCheckPending = true) (hs : getConnectionStatus w.service = false) :
    (step env w (Event.graceCheck input)).timers.intervals
      = w.timers.intervals ++ [w.timers.nextTimerId] ∧
    (step env w (Event.graceCheck input)).dash.pollInterval = some w.timers.nextTimerId ∧
    (step env w (Event.graceCheck input)).graceCheckPending = false ∧
    ∃ (snapshot : Snapshot) (rest : List Snapshot),
      (step env w (Event.graceCheck input)).delivered = w.delivered ++ snapshot :: rest := by
  have hstep : step env w (Event.graceCheck input)
      = Dashboard.startPolling env input { w with graceCheckPending := false } := by
    simp only [step, if_pos hp, hs, Bool.not_false, if_true]
  rw [hstep]
  refine ⟨rfl, rfl, rfl, ?_⟩
  obtain ⟨snapshot, rest, hdel⟩ := poll_delivered_nonempty w.service (fun _ => .ok ())
    env.dateParse input.now input.nowCatch input.net
  refine ⟨snapshot, rest, ?_⟩
  simp only [Dashboard.startPolling, LiveApiService.startPolling]
  rw [hdel]

/-- Instance of `grace_check_starts_polling`: the page right after
`initializeDashboard`, no feed event having occurred. -/
theorem grace_check_starts_polling_witness :
    initializedWorld.graceCheckPending = true ∧
    getConnectionStatus initializedWorld.service = false ∧
    (step plainEnv initializedWorld (Event.graceCheck pollInputOffline)).timers.intervals
      = initializedWorld.timers.intervals ++ [initializedWorld.timers.nextTimerId] ∧
    (step plainEnv initializedWorld (Event.graceCheck pollInputOffline)).dash.pollInterval
      = some initializedWorld.timers.nextTimerId ∧
    (step plainEnv initializedWorld (Event.graceCheck pollInputOffline)).graceCheckPending
      = false ∧
    ∃ (snapshot : Snapshot) (rest : List Snapshot),
      (step plainEnv initializedWorld (Event.graceCheck pollInputOffline)).delivered
        = initializedWorld.delivered ++ snapshot :: rest :=
  ⟨rfl, rfl, grace_check_starts_polling plainEnv initializedWorld pollInputOffline rfl rfl⟩

/-- The cleanup does not touch the timers, and running it twice is running it
once. -/
theorem effectCleanup_timers (w : World) :
    (effectCleanup w).timers = w.timers ∧
    effectCleanup (effectCleanup w) = effectCleanup w := by
  refine ⟨rfl, ?_⟩
  rcases w with ⟨service, readyState, timers, pending, delivered, dash⟩
  rcases service with ⟨isConnected, eventSource, lastDataTimestamp⟩
  cases eventSource <;> rfl

/-- C13 (the failing input). After `initializeDashboard` the grace-period
check finds the feed not live and starts timer 1, stored in `pollInterval`.
The effect cleanup then closes the feed but clears no timer: timer 1 still
runs, and its next tick hands one more snapshot to the polling callback. After
two feed errors timers 1 and 2 run and `pollInterval` holds 2: the cleanup
leaves both, and clearing the timer in `pollInterval` would still leave
timer 1. -/
theorem cleanup_leaves_timers_running :
    (run plainEnv initializedWorld [Event.graceCheck pollInputOffline]).dash.pollInterval
      = some 1 ∧
    (effectCleanup (run plainEnv initializedWorld
      [Event.graceCheck pollInputOffline])).timers.intervals = [1] ∧
    (effectCleanup (run plainEnv initializedWorld
      [Event.graceCheck pollInputOffline])).readyState = some ReadyState.CLOSED ∧
    (effectCleanup (run plainEnv initializedWorld
      [Event.graceCheck pollInputOffline])).service.eventSource = none ∧
    (step plainEnv (effectCleanup (run plainEnv initializedWorld
      [Event.graceCheck pollInputOffline])) (Event.pollTick 1 pollInputOffline)).delivered.length
      = (effectCleanup (run plainEnv initializedWorld
          [Event.graceCheck pollInputOffline])).delivered.length + 1 ∧
    (run plainEnv initializedWorld
      [Event.feedError "lost" false pollInputOffline,
        Event.feedError "lost" false pollInputOffline]).dash.pollInterval = some 2 ∧
    (effectCleanup (run plainEnv initializedWorld
      [Event.feedError "lost" false pollInputOffline,
        Event.feedError "lost" false pollInputOffline])).timers.intervals = [1, 2] ∧
    (teardown (some 2) (run plainEnv initializedWorld
      [Event.feedError "lost" false pollInputOffline,
        Event.feedError "lost" false pollInputOffline])).timers.intervals = [1] := by
  refine ⟨rfl, rfl, rfl, rfl, ?_, rfl, rfl, rfl⟩
  decide

/-! ## Monthly bill -/

/-- The random comparison `Math.floor(Math.random() * 20) - 10` lies between
-10 and 9 when the random value lies in `[0, 1)`. -/
theorem comparison_range (random : ℚ) (h0 : 0 ≤ random) (h1 : random < 1) :
    -10 ≤ ⌊random * 20⌋ - 10 ∧ ⌊random * 20⌋ - 10 ≤ 9 := by
  have hlo : 0 ≤ ⌊random * 20⌋ := by
    apply Int.floor_nonneg.mpr
    positivity
  have hhi : ⌊random * 20⌋ < 20 := by
    rw [Int.floor_lt]
    push_cast
    linarith
  constructor <;> omega

/-- The comparison of the bill is 0 (the default record) or the random draw. -/
theorem getMonthlyBill_comparison (s : LiveApiService) (random : ℚ)
    (net : FetchResult SummaryResponse) (liveNet : FetchResult LiveDataResponse) :
    ∃ b : Bill, (getMonthlyBill s random net liveNet).2 = .ok b ∧
      (b.comparison = 0 ∨ b.comparison = ⌊random * 20⌋ - 10) := by
  unfold getMonthlyBill
  cases apiCall net with
  | error e => exact ⟨_, rfl, Or.inl rfl⟩
  | ok r =>
    rcases r with ⟨success, summary⟩
    cases success
    · simp only
      rcases getLiveEnergyData s liveNet with ⟨s1, v⟩
      cases v with
      | error e => exact ⟨_, rfl, Or.inl rfl⟩
      | ok v =>
        cases v with
        | none => exact ⟨_, rfl, Or.inl rfl⟩
        | some e => exact ⟨_, rfl, Or.inr rfl⟩
    · cases summary with
      | some sm => exact ⟨_, rfl, Or.inr rfl⟩
      | none =>
        simp only
        rcases getLiveEnergyData s liveNet with ⟨s1, v⟩
        cases v with
        | error e => exact ⟨_, rfl, Or.inl rfl⟩
        | ok v =>
          cases v with
          | none => exact ⟨_, rfl, Or.inl rfl⟩
          | some e => exact ⟨_, rfl, Or.inr rfl⟩

/-- C21. The method `getMonthlyBill` never throws. When the backend reports
success with a summary it returns `amount = round(total_cost)`,
`dailyAverage = round(total_cost / 30)` and `totalEnergy = total_energy`,
absent values counting as 0, with the comparison drawn at random; when the
backend call fails it returns the record with `amount`, `comparison`,
`dailyAverage` and `totalEnergy` all 0; and with `Math.random()` in `[0, 1)`
the comparison of every result is an integer between -10 and 9. -/
theorem monthly_bill_never_throws (s : LiveApiService) (random : ℚ)
    (net : FetchResult SummaryResponse) (liveNet : FetchResult LiveDataResponse) :
    (∃ b : Bill, (getMonthlyBill s random net liveNet).2 = .ok b) ∧
    (∀ summary : Summary, apiCall net = .ok ⟨true, some summary⟩ →
      (getMonthlyBill s random net liveNet).2 = .ok
        { amount := mathRound (orZero summary.total_cost)
          comparison := ⌊random * 20⌋ - 10
          dailyAverage := some (mathRound (orZero summary.total_cost / 30))
          totalEnergy := some (orZero summary.total_energy) }) ∧
    (∀ e : JsError, apiCall net = .error e →
      (getMonthlyBill s random net liveNet).2 = .ok
        { amount := 0, comparison := 0, dailyAverage := some 0, totalEnergy := some 0 }) ∧
    (0 ≤ random → random < 1 → ∀ b : Bill, (getMonthlyBill s random net liveNet).2 = .ok b →
      -10 ≤ b.comparison ∧ b.comparison ≤ 9) := by
  refine ⟨getMonthlyBill_fulfilled s random net liveNet, ?_, ?_, ?_⟩
  · intro summary h
    unfold getMonthlyBill
    rw [h]
  · intro e h
    unfold getMonthlyBill
    rw [h]
    rfl
  · intro h0 h1 b hb
    have hr := comparison_range random h0 h1
    obtain ⟨b2, hb2, hcmp⟩ := getMonthlyBill_comparison s random net liveNet
    rw [hb2] at hb
    cases hb
    rcases hcmp with hc | hc
    · rw [hc]
      constructor <;> norm_num
    · rw [hc]
      exact hr

/-- Instance of `monthly_bill_never_throws`: a summary with a total cost of
1234.5 and no total energy, and the random value one half. -/
theorem monthly_bill_never_throws_witness :
    apiCall (okResponse (⟨true, some ⟨some (2469 / 2), none⟩⟩ : SummaryResponse))
      = .ok ⟨true, some ⟨some (2469 / 2), none⟩⟩ ∧
    (0 : ℚ) ≤ 1 / 2 ∧ (1 / 2 : ℚ) < 1 ∧
    (getMonthlyBill freshService (1 / 2) (okResponse ⟨true, some ⟨some (2469 / 2), none⟩⟩)
      (.networkError "offline")).2 = .ok
        { amount := mathRound (orZero (some (2469 / 2)))
          comparison := ⌊(1 / 2 : ℚ) * 20⌋ - 10
          dailyAverage := some (mathRound (orZero (some (2469 / 2)) / 30))
          totalEnergy := some (orZero none) } ∧
    (∀ b : Bill,
      (getMonthlyBill freshService (1 / 2) (okResponse ⟨true, some ⟨some (2469 / 2), none⟩⟩)
        (.networkError "offline")).2 = .ok b → -10 ≤ b.comparison ∧ b.comparison ≤ 9) :=
  ⟨rfl, by norm_num, by norm_num,
    (monthly_bill_never_throws freshService (1 / 2)
      (okResponse ⟨true, some ⟨some (2469 / 2), none⟩⟩) (.networkError "offline")).2.1
        ⟨some (2469 / 2), none⟩ rfl,
    (monthly_bill_never_throws freshService (1 / 2)
      (okResponse ⟨true, some ⟨some (2469 / 2), none⟩⟩) (.networkError "offline")).2.2.2
        (by norm_num) (by norm_num)⟩

/-! ## Efficiency -/

/-- C25. For all rational `power` and `current`, `calculateEfficiency` returns
0 when `current ≤ 0` and `min(power / (220 * current), 1)` when `current > 0`;
the result never exceeds 1, and it lies in `[0, 1]` when `power ≥ 0`. -/
theorem efficiency_bounds (power current : ℚ) :
    (current ≤ 0 → calculateEfficiency power current = 0) ∧
    (0 < current → calculateEfficiency power current = min (power / (220 * current)) 1) ∧
    calculateEfficiency power current ≤ 1 ∧
    (0 ≤ power → 0 ≤ calculateEfficiency power current) := by
  have hle : current ≤ 0 → calculateEfficiency power current = 0 := by
    intro h
    unfold calculateEfficiency
    rw [if_neg (not_lt.mpr h)]
  have hpos : 0 < current → calculateEfficiency power current
      = min (power / (220 * current)) 1 := by
    intro h
    have h220 : current * 220 > 0 := by positivity
    unfold calculateEfficiency
    simp only
    rw [if_pos h, if_pos h220, mul_comm current 220]
  refine ⟨hle, hpos, ?_, ?_⟩
  · rcases le_or_lt current 0 with h | h
    · rw [hle h]
      norm_num
    · rw [hpos h]
      exact min_le_right _ _
  · intro hp
    rcases le_or_lt current 0 with h | h
    · rw [hle h]
    · rw [hpos h]
      apply le_min
      · positivity
      · norm_num

/-- Instance of `efficiency_bounds`: 110 W at 1 A is an efficiency of one
half, and no current gives 0. -/
theorem efficiency_bounds_witness :
    (0 : ℚ) < 1 ∧ (0 : ℚ) ≤ 110 ∧ (0 : ℚ) ≤ 0 ∧
    calculateEfficiency 110 1 = min (110 / (220 * 1)) 1 ∧
    0 ≤ calculateEfficiency 110 1 ∧
    calculateEfficiency 110 0 = 0 :=
  ⟨by norm_num, by norm_num, le_refl 0,
    (efficiency_bounds 110 1).2.1 (by norm_num),
    (efficiency_bounds 110 1).2.2.2 (by norm_num),
    (efficiency_bounds 110 0).1 (le_refl 0)⟩

/-! ## Optimistic flip and revert -/

/-- C23. When every appliance status is "ON" or "OFF" and the appliance ids
are pairwise distinct, the optimistic flip of `handleApplianceToggle`
followed by its revert map for the same id gives the list back, so a toggle
whose control call rejects leaves the list as it was; flipping a status twice
gives it back on "ON" and "OFF". -/
theorem flip_then_revert_is_identity (appliances : List Appliance) (applianceId : Nat)
    (hst : ∀ a ∈ appliances, a.status = "ON" ∨ a.status = "OFF")
    (hid : (appliances.map (fun a => a.id)).Nodup) :
    revertUpdate applianceId
        (optimisticUpdate applianceId (newStatus appliances applianceId) appliances)
      = appliances ∧
    (∀ (control : Nat → String → Except JsError ControlAck) (e : JsError),
      control applianceId (newStatus appliances applianceId).toLower = .error e →
      (handleApplianceToggle control appliances applianceId).1 = appliances) ∧
    (∀ st : String, st = "ON" ∨ st = "OFF" →
      (if (if st = "ON" then "OFF" else "ON") = "ON" then "OFF" else "ON") = st) := by
  have hinv : ∀ st : String, st = "ON" ∨ st = "OFF" →
      (if (if st = "ON" then "OFF" else "ON") = "ON" then "OFF" else "ON") = st := by
    intro st h
    rcases h with h | h <;> subst h <;> decide
  have hmain : revertUpdate applianceId
      (optimisticUpdate applianceId (newStatus appliances applianceId) appliances)
        = appliances := by
    rw [revert_optimistic, map_eq_self_iff]
    intro a ha
    by_cases hida : a.id = applianceId
    · rw [if_pos hida, with_status_eq_self]
      have hfind : appliances.find? (fun b => b.id == applianceId) = some a := by
        cases hf : appliances.find? (fun b => b.id == applianceId) with
        | none =>
          have := List.find?_eq_none.mp hf a ha
          simp [hida] at this
        | some a0 =>
          have hmem : a0 ∈ appliances := List.mem_of_find?_eq_some hf
          have hid0 : a0.id = applianceId := by
            have := List.find?_some hf
            simpa using this
          have : a0 = a := List.inj_on_of_nodup_map hid hmem ha (by rw [hid0, hida])
          rw [this]
      unfold newStatus
      simp only [hfind, Option.map_some', Option.some.injEq]
      exact hinv a.status (hst a ha)
    · rw [if_neg hida]
  refine ⟨hmain, ?_, hinv⟩
  intro control e hrej
  unfold handleApplianceToggle
  simp only [hrej]
  exact hmain

/-- Instance of `flip_then_revert_is_identity`: two appliances with ids 1 and
2, toggling appliance 2. -/
theorem flip_then_revert_is_identity_witness :
    (∀ a ∈ [mkAppliance 1 "Fan" "ON", mkAppliance 2 "Bulb" "OFF"],
      a.status = "ON" ∨ a.status = "OFF") ∧
    ([mkAppliance 1 "Fan" "ON", mkAppliance 2 "Bulb" "OFF"].map (fun a => a.id)).Nodup ∧
    revertUpdate 2
        (optimisticUpdate 2 (newStatus [mkAppliance 1 "Fan" "ON", mkAppliance 2 "Bulb" "OFF"] 2)
          [mkAppliance 1 "Fan" "ON", mkAppliance 2 "Bulb" "OFF"])
      = [mkAppliance 1 "Fan" "ON", mkAppliance 2 "Bulb" "OFF"] :=
  ⟨by simp [mkAppliance], by simp [mkAppliance],
    (flip_then_revert_is_identity [mkAppliance 1 "Fan" "ON", mkAppliance 2 "Bulb" "OFF"] 2
      (by simp [mkAppliance]) (by simp [mkAppliance])).1⟩

/-! ## Callback invocations of a poll cycle -/

/-- C24. In one poll cycle, for every outcome of the four sub-fetches, the
merged snapshot is handed to `callback` first. If that call returns normally,
`callback` has been invoked exactly once, the cycle completes and
`this.isConnected` is `energy !== null`: the `catch` branch has not run. If
that call throws, `this.isConnected` is set to false and `callback` is
invoked a second time, with the fallback snapshot (`energy` null, empty
lists, `health` "unhealthy", `isConnected` false). -/
theorem poll_callback_invocations (s : LiveApiService)
    (callback : Snapshot → Except JsError Unit) (dateParse : String → String)
    (now nowCatch : String) (net : PollNet) :
    ∃ snapshot : Snapshot,
      (poll s callback dateParse now nowCatch net).2.1.head? = some snapshot ∧
      (callback snapshot = .ok () →
        (poll s callback dateParse now nowCatch net).2.1 = [snapshot] ∧
        (poll s callback dateParse now nowCatch net).2.2 = .ok () ∧
        (poll s callback dateParse now nowCatch net).1.isConnected = snapshot.energy.isSome) ∧
      (∀ e : JsError, callback snapshot = .error e →
        (poll s callback dateParse now nowCatch net).2.1
          = [snapshot, fallbackSnapshot nowCatch] ∧
        (poll s callback dateParse now nowCatch net).2.2
          = callback (fallbackSnapshot nowCatch) ∧
        (poll s callback dateParse now nowCatch net).1.isConnected = false ∧
        (fallbackSnapshot nowCatch).energy = none ∧
        (fallbackSnapshot nowCatch).appliances = some [] ∧
        (fallbackSnapshot nowCatch).alerts = some [] ∧
        (fallbackSnapshot nowCatch).health = some { status := "unhealthy", error := none } ∧
        (fallbackSnapshot nowCatch).isConnected = false) := by
  unfold poll
  simp only
  split
  · next u hu =>
    refine ⟨_, rfl, ?_, ?_⟩
    · intro _
      exact ⟨rfl, rfl, rfl⟩
    · intro e he
      rw [hu] at he
      cases he
  · next e0 he0 =>
    refine ⟨_, rfl, ?_, ?_⟩
    · intro hok
      rw [he0] at hok
      cases hok
    · intro e _
      exact ⟨rfl, rfl, rfl, rfl, rfl, rfl, rfl, rfl⟩

/-- Instance of `poll_callback_invocations`: a callback that throws, with
every request failing at the network; it is invoked twice, the second time
with the fallback snapshot. -/
theorem poll_callback_invocations_witness :
    ∃ snapshot : Snapshot,
      throwingCallback snapshot = .error "callback failed" ∧
      (poll freshService throwingCallback (fun t => t) "t0" "t1" pollNetOffline).2.1
        = [snapshot, fallbackSnapshot "t1"] ∧
      (poll freshService throwingCallback (fun t => t) "t0" "t1" pollNetOffline).1.isConnected
        = false := by
  obtain ⟨snapshot, _, _, herr⟩ :=
    poll_callback_invocations freshService throwingCallback (fun t => t) "t0" "t1"
      pollNetOffline
  obtain ⟨h1, _, h3, _⟩ := herr "callback failed" rfl
  exact ⟨snapshot, rfl, h1, h3⟩

/-! ## Appliance data -/

/-- C26. Whenever `getLiveEnergyData` yields a reading, `getApplianceData`
returns exactly two appliances, with ids 1 and 2 in that order and names
"Appliance 1" and "Appliance 2"; appliance `k` has status "ON" if and only if
`pk > 10` and "OFF" otherwise, `current_power = pk` and `current_amps = ik`.
When there is no reading it returns the empty list, and it never throws. -/
theorem appliance_data_two_entries (s : LiveApiService) (net : FetchResult LiveDataResponse) :
    (∀ e : EnergyData, (getLiveEnergyData s net).2 = .ok (some e) →
      ∃ a1 a2 : Appliance, (getApplianceData s net).2 = .ok [a1, a2] ∧
        a1.id = 1 ∧ a2.id = 2 ∧ a1.name = "Appliance 1" ∧ a2.name = "Appliance 2" ∧
        (a1.status = "ON" ↔ e.p1 > 10) ∧ (a2.status = "ON" ↔ e.p2 > 10) ∧
        (¬ e.p1 > 10 → a1.status = "OFF") ∧ (¬ e.p2 > 10 → a2.status = "OFF") ∧
        a1.current_power = e.p1 ∧ a2.current_power = e.p2 ∧
        a1.current_amps = some e.i1 ∧ a2.current_amps = some e.i2) ∧
    ((getLiveEnergyData s net).2 = .ok none → (getApplianceData s net).2 = .ok []) ∧
    (∃ l : List Appliance, (getApplianceData s net).2 = .ok l) := by
  have hstatus : ∀ p : ℚ, ((if p > 10 then "ON" else "OFF") = "ON" ↔ p > 10) ∧
      (¬ p > 10 → (if p > 10 then "ON" else "OFF") = "OFF") := by
    intro p
    by_cases hp : p > 10
    · simp [hp]
    · simp [hp]
  refine ⟨?_, ?_, ?_⟩
  · intro e he
    refine ⟨_, _, getApplianceData_value s net (some e) he, rfl, rfl, rfl, rfl,
      (hstatus e.p1).1, (hstatus e.p2).1, (hstatus e.p1).2, (hstatus e.p2).2, rfl, rfl, rfl,
      rfl⟩
  · intro he
    exact getApplianceData_value s net none he
  · obtain ⟨v, hv⟩ := getLiveEnergyData_fulfilled s net
    exact ⟨_, getApplianceData_value s net v hv⟩

/-- Instance of `appliance_data_two_entries`: a reading with `p1 = 10` and
`p2 = 11`; appliance 1 is "OFF". -/
theorem appliance_data_two_entries_witness :
    (getLiveEnergyData freshService (okResponse ⟨true, some [pointWithPowers 10 11]⟩)).2
      = .ok (some (energyDataOf (pointWithPowers 10 11))) ∧
    ∃ a1 a2 : Appliance,
      (getApplianceData freshService (okResponse ⟨true, some [pointWithPowers 10 11]⟩)).2
        = .ok [a1, a2] ∧
      a1.id = 1 ∧ a2.id = 2 ∧ a1.name = "Appliance 1" ∧ a2.name = "Appliance 2" ∧
      (a1.status = "ON" ↔ (energyDataOf (pointWithPowers 10 11)).p1 > 10) ∧
      (a2.status = "ON" ↔ (energyDataOf (pointWithPowers 10 11)).p2 > 10) ∧
      (¬ (energyDataOf (pointWithPowers 10 11)).p1 > 10 → a1.status = "OFF") ∧
      (¬ (energyDataOf (pointWithPowers 10 11)).p2 > 10 → a2.status = "OFF") ∧
      a1.current_power = (energyDataOf (pointWithPowers 10 11)).p1 ∧
      a2.current_power = (energyDataOf (pointWithPowers 10 11)).p2 ∧
      a1.current_amps = some (energyDataOf (pointWithPowers 10 11)).i1 ∧
      a2.current_amps = some (energyDataOf (pointWithPowers 10 11)).i2 :=
  ⟨by simp [getLiveEnergyData, apiCall, okResponse],
    (appliance_data_two_entries freshService
      (okResponse ⟨true, some [pointWithPowers 10 11]⟩)).1
      (energyDataOf (pointWithPowers 10 11))
      (by simp [getLiveEnergyData, apiCall, okResponse])⟩

/-! ## Where the saved names show -/

/-- The names in the usage breakdown are fixed by `getApplianceUsageBreakdown`. -/
theorem usageBreakdownOf_names (e : EnergyData) :
    (usageBreakdownOf e).map (fun entry => entry.name) = ["Appliance 1", "Appliance 2"] := by
  unfold usageBreakdownOf
  simp only
  split <;> rfl

/-- The names in the appliance list of `getApplianceData` are fixed. -/
theorem applianceDataOf_names (e : EnergyData) :
    (applianceDataOf e).map (fun a => a.name) = ["Appliance 1", "Appliance 2"] := rfl

/-- The polling callback writes the list of the snapshot into the appliance
list. -/
theorem pollCallback_appliances (now : String) (d : DashboardState) (data : Snapshot)
    (l : List Appliance) (h : data.appliances = some l) :
    (pollCallback now d data).appliances = l := by
  simp only [pollCallback, h]
  cases data.energy <;> cases data.alerts <;> rfl

/-- C22 (the failing input). The handler `handleSaveApplianceNames` leaves the
state `applianceUsage` as it is, and the entries `getApplianceUsageBreakdown`
builds are always called "Appliance 1" and "Appliance 2". With a dashboard
filled from a reading, saving the names "Fan" and "Bulb" succeeds and renames
the appliance list, while the usage breakdown still shows "Appliance 1" and
"Appliance 2", before and after the next fetch of the breakdown. -/
theorem saved_names_missing_from_usage (update : Nat → String → Except JsError NameAck)
    (names : List (Nat × String)) (d : DashboardState) :
    (handleSaveApplianceNamesState update names d).1.applianceUsage = d.applianceUsage ∧
    (∀ e : EnergyData,
      (usageBreakdownOf e).map (fun entry => entry.name) = ["Appliance 1", "Appliance 2"]) ∧
    ((handleSaveApplianceNamesState (updateApplianceName "now") [(1, "Fan"), (2, "Bulb")]
        dashboardWithReading).2 = .ok () ∧
      (handleSaveApplianceNamesState (updateApplianceName "now") [(1, "Fan"), (2, "Bulb")]
        dashboardWithReading).1.appliances.map (fun a => a.name) = ["Fan", "Bulb"] ∧
      (handleSaveApplianceNamesState (updateApplianceName "now") [(1, "Fan"), (2, "Bulb")]
        dashboardWithReading).1.applianceUsage.map (fun entry => entry.name)
          = ["Appliance 1", "Appliance 2"]) := by
  refine ⟨rfl, usageBreakdownOf_names, ?_, ?_, ?_⟩
  · simp [handleSaveApplianceNamesState, handleSaveApplianceNames, saveNamesToBackend,
      updateApplianceName]
  · simp only [handleSaveApplianceNamesState, handleSaveApplianceNames_list]
    simp [renameLocal, orElseString, dashboardWithReading, applianceDataOf, List.lookup]
  · exact usageBreakdownOf_names readingTwentyFive

/-- C27. When the polling callback receives a snapshot whose `appliances`
value is a list, empty or not, the dashboard's appliance list becomes exactly
that list, whatever it held: names written by `handleSaveApplianceNames` and
statuses set by `handleApplianceToggle` are replaced by the values of the
snapshot, and a list produced by `getApplianceData` carries the names
"Appliance 1" and "Appliance 2". -/
theorem poll_callback_replaces_appliances (now : String) (d : DashboardState)
    (data : Snapshot) (l : List Appliance) (h : data.appliances = some l) :
    (pollCallback now d data).appliances = l ∧
    (∀ (update : Nat → String → Except JsError NameAck) (names : List (Nat × String)),
      (pollCallback now (handleSaveApplianceNamesState update names d).1 data).appliances = l) ∧
    (∀ (control : Nat → String → Except JsError ControlAck) (applianceId : Nat),
      (pollCallback now
        { d with appliances := (handleApplianceToggle control d.appliances applianceId).1 }
        data).appliances = l) ∧
    (∀ e : EnergyData, l = applianceDataOf e →
      l.map (fun a => a.name) = ["Appliance 1", "Appliance 2"]) := by
  refine ⟨pollCallback_appliances now d data l h, ?_, ?_, ?_⟩
  · intro update names
    exact pollCallback_appliances now _ data l h
  · intro control applianceId
    exact pollCallback_appliances now _ data l h
  · intro e he
    rw [he]
    rfl

/-- Instance of `poll_callback_replaces_appliances`: the appliances have been
renamed "Fan" and "Bulb", and the snapshot carries the list `getApplianceData`
builds from the reading; the names are "Appliance 1" and "Appliance 2" again. -/
theorem poll_callback_replaces_appliances_witness :
    ({ energy := none, appliances := some (applianceDataOf readingTwentyFive),
       alerts := none, health := none, timestamp := "t1",
       isConnected := false } : Snapshot).appliances
      = some (applianceDataOf readingTwentyFive) ∧
    (pollCallback "t1"
      (handleSaveApplianceNamesState (updateApplianceName "now") [(1, "Fan"), (2, "Bulb")]
        dashboardWithReading).1
      { energy := none, appliances := some (applianceDataOf readingTwentyFive),
        alerts := none, health := none, timestamp := "t1",
        isConnected := false }).appliances = applianceDataOf readingTwentyFive ∧
    (applianceDataOf readingTwentyFive).map (fun a => a.name)
      = ["Appliance 1", "Appliance 2"] :=
  ⟨rfl,
    (poll_callback_replaces_appliances "t1" dashboardWithReading
      { energy := none, appliances := some (applianceDataOf readingTwentyFive),
        alerts := none, health := none, timestamp := "t1", isConnected := false }
      (applianceDataOf readingTwentyFive) rfl).2.1 (updateApplianceName "now")
      [(1, "Fan"), (2, "Bulb")],
    (poll_callback_replaces_appliances "t1" dashboardWithReading
      { energy := none, appliances := some (applianceDataOf readingTwentyFive),
        alerts := none, health := none, timestamp := "t1", isConnected := false }
      (applianceDataOf readingTwentyFive) rfl).2.2.2 readingTwentyFive rfl⟩

end SmartEnergy
